import Mathlib

/-!
# ruuvi.drivers.c: BME280 interface and log helpers

A shallow embedding of

* `src/interfaces/environmental/ruuvi_interface_bme280.c`
* `src/interfaces/log/ruuvi_interface_log.c`

Machine integers are natural numbers (bit patterns) with the width made explicit where it
matters; `int8_t` results of the Bosch driver are integers.  The headers the two files include
(`ruuvi_driver_error.h`, `ruuvi_driver_sensor.h`, `ruuvi_sensor.h`, `bme280_defs.h`) are not
part of the sources, so the constants they define are parameters of the embedding, gathered
in one structure per header.  Calls into the Bosch driver and the platform are external: they
are recorded in a trace and answered by a `Backend`.
-/

namespace Ruuvi

/-! ## Constants of the missing headers -/

/-- The error kinds of `ruuvi_driver_error.h` that the two source files name. -/
inductive ErrorKind
  | INTERNAL
  | NO_MEM
  | NOT_FOUND
  | NOT_SUPPORTED
  | INVALID_PARAM
  | INVALID_STATE
  | INVALID_LENGTH
  | INVALID_FLAGS
  | INVALID_DATA
  | DATA_SIZE
  | TIMEOUT
  | NULL
  | FORBIDDEN
  | INVALID_ADDR
  | BUSY
  | RESOURCES
  | NOT_IMPLEMENTED
  | SELFTEST
  | FATAL
deriving DecidableEq

/-- The bit positions `ruuvi_driver_error.h` gives the error kinds (the header is not in the
sources; the positions are parameters). -/
structure ruuvi_driver_error_h where
  bit : ErrorKind → Nat

/-- The header is well formed when every kind has a position inside the 32-bit word and no
two kinds share one (the spec's invariant; the `switch` of `ruuvi_platform_error_to_string`
would not compile with two equal case labels). -/
def ruuvi_driver_error_h.wf (e : ruuvi_driver_error_h) : Prop :=
  (∀ k, e.bit k < 32) ∧ Function.Injective e.bit

/-- Modelled from the spec: `ruuvi_driver_error.h` is not in the sources; in the spec's data
model the Status value `0` denotes success.  This is `RUUVI_DRIVER_SUCCESS`. -/
def RUUVI_DRIVER_SUCCESS : Nat := 0

/-- Modelled from the spec: `ruuvi_driver_error.h` is not in the sources; in the spec's data
model a Status is a 32-bit bitfield in which each error kind owns one bit position.  This is
`RUUVI_DRIVER_ERROR_<kind>`, the single bit of the kind. -/
def RUUVI_DRIVER_ERROR (e : ruuvi_driver_error_h) (k : ErrorKind) : Nat := 1 <<< e.bit k

/-- Constants of the Bosch header `bme280_defs.h` used by the interface (not in the
sources; taken as parameters). -/
structure bme280_defs_h where
  BME280_OK : Int
  BME280_E_NULL_PTR : Int
  BME280_E_DEV_NOT_FOUND : Int
  BME280_E_COMM_FAIL : Int
  BME280_SLEEP_MODE : Nat
  BME280_FORCED_MODE : Nat
  BME280_NORMAL_MODE : Nat
  BME280_OVERSAMPLING_1X : Nat
  BME280_OVERSAMPLING_2X : Nat
  BME280_OVERSAMPLING_4X : Nat
  BME280_OVERSAMPLING_8X : Nat
  BME280_OVERSAMPLING_16X : Nat
  BME280_FILTER_COEFF_OFF : Nat
  BME280_FILTER_COEFF_2 : Nat
  BME280_FILTER_COEFF_4 : Nat
  BME280_FILTER_COEFF_8 : Nat
  BME280_FILTER_COEFF_16 : Nat
  BME280_STANDBY_TIME_1_MS : Nat
  BME280_STANDBY_TIME_62_5_MS : Nat
  BME280_STANDBY_TIME_125_MS : Nat
  BME280_STANDBY_TIME_500_MS : Nat
  BME280_STANDBY_TIME_1000_MS : Nat
  BME280_STANDBY_TIME_10_MS : Nat
  BME280_STANDBY_TIME_20_MS : Nat
  BME280_OSR_PRESS_SEL : Nat
  BME280_OSR_TEMP_SEL : Nat
  BME280_OSR_HUM_SEL : Nat
  BME280_FILTER_SEL : Nat
  BME280_STANDBY_SEL : Nat

/-- Constants of `ruuvi_sensor.h` used by the BME280 interface (not in the sources; taken as
parameters).  `RUUVI_SENSOR_DSP_LOW_PASS` and `RUUVI_SENSOR_DSP_HIGH_PASS` are the two
remaining DSP functions of the data model; the interface itself never names them. -/
structure ruuvi_sensor_h where
  RUUVI_SENSOR_SAMPLERATE_STOP : Nat
  RUUVI_SENSOR_SAMPLERATE_MIN : Nat
  RUUVI_SENSOR_SAMPLERATE_MAX : Nat
  RUUVI_SENSOR_DSP_LAST : Nat
  RUUVI_SENSOR_DSP_LOW_PASS : Nat
  RUUVI_SENSOR_DSP_HIGH_PASS : Nat
  RUUVI_SENSOR_DSP_IIR : Nat
  RUUVI_SENSOR_DSP_OS : Nat
  RUUVI_SENSOR_MODE_SLEEP : Nat
  RUUVI_SENSOR_MODE_SINGLE_ASYNCHRONOUS : Nat
  RUUVI_SENSOR_MODE_SINGLE_BLOCKING : Nat
  RUUVI_SENSOR_MODE_CONTINOUS : Nat
  RUUVI_SENSOR_MODE_INVALID : Nat

/-- The four case labels of the `switch` in `bme280_interface_mode_set` and the read-only
`INVALID` enumerator are five different values of one enumeration. -/
def ruuvi_sensor_h.modes_wf (r : ruuvi_sensor_h) : Prop :=
  [r.RUUVI_SENSOR_MODE_SLEEP, r.RUUVI_SENSOR_MODE_SINGLE_ASYNCHRONOUS,
   r.RUUVI_SENSOR_MODE_SINGLE_BLOCKING, r.RUUVI_SENSOR_MODE_CONTINOUS,
   r.RUUVI_SENSOR_MODE_INVALID].Nodup

/-- Constants of `ruuvi_driver_sensor.h` used by `configuration_value_to_string` (not in the
sources; taken as parameters). -/
structure ruuvi_driver_sensor_h where
  RUUVI_DRIVER_SENSOR_CFG_MIN : Nat
  RUUVI_DRIVER_SENSOR_CFG_MAX : Nat
  RUUVI_DRIVER_SENSOR_CFG_CONTINUOUS : Nat
  RUUVI_DRIVER_SENSOR_CFG_DEFAULT : Nat
  RUUVI_DRIVER_SENSOR_CFG_NO_CHANGE : Nat
  RUUVI_DRIVER_SENSOR_CFG_ON_DRDY : Nat
  RUUVI_DRIVER_SENSOR_CFG_ON_INTERRUPT : Nat
  RUUVI_DRIVER_SENSOR_CFG_SINGLE : Nat
  RUUVI_DRIVER_SENSOR_CFG_SLEEP : Nat
  RUUVI_DRIVER_SENSOR_ERR_NOT_SUPPORTED : Nat
  RUUVI_DRIVER_SENSOR_ERR_NOT_IMPLEMENTED : Nat
  RUUVI_DRIVER_SENSOR_ERR_INVALID : Nat

/-- The case labels of the `switch` in `configuration_value_to_string`, in source order. -/
def ruuvi_driver_sensor_h.labels (s : ruuvi_driver_sensor_h) : List Nat :=
  [s.RUUVI_DRIVER_SENSOR_CFG_MIN, s.RUUVI_DRIVER_SENSOR_CFG_MAX,
   s.RUUVI_DRIVER_SENSOR_CFG_CONTINUOUS, s.RUUVI_DRIVER_SENSOR_CFG_DEFAULT,
   s.RUUVI_DRIVER_SENSOR_CFG_NO_CHANGE, s.RUUVI_DRIVER_SENSOR_CFG_ON_DRDY,
   s.RUUVI_DRIVER_SENSOR_CFG_ON_INTERRUPT, s.RUUVI_DRIVER_SENSOR_CFG_SINGLE,
   s.RUUVI_DRIVER_SENSOR_CFG_SLEEP, s.RUUVI_DRIVER_SENSOR_ERR_NOT_SUPPORTED,
   s.RUUVI_DRIVER_SENSOR_ERR_NOT_IMPLEMENTED, s.RUUVI_DRIVER_SENSOR_ERR_INVALID]

/-- The header is well formed when the twelve case labels are pairwise different, as C
requires of the labels of one `switch`. -/
def ruuvi_driver_sensor_h.wf (s : ruuvi_driver_sensor_h) : Prop := s.labels.Nodup

/-! ## `BME_TO_RUUVI_ERROR` -/

/-- Source lines 39-47 of `ruuvi_interface_bme280.c`: `err_code` starts as
`RUUVI_DRIVER_SUCCESS`, three codes overwrite it, `BME280_OK` returns at once, and every
other code falls through to `return err_code`. -/
def BME_TO_RUUVI_ERROR (e : ruuvi_driver_error_h) (b : bme280_defs_h) (rslt : Int) : Nat :=
  let err_code := RUUVI_DRIVER_SUCCESS
  if b.BME280_E_DEV_NOT_FOUND = rslt then RUUVI_DRIVER_ERROR e .NOT_FOUND
  else if b.BME280_E_NULL_PTR = rslt then RUUVI_DRIVER_ERROR e .NULL
  else if b.BME280_E_COMM_FAIL = rslt then RUUVI_DRIVER_ERROR e .BUSY
  else if b.BME280_OK = rslt then RUUVI_DRIVER_SUCCESS
  else err_code

/-! ## C strings and `snprintf` -/

/-- The terminating byte of a C string. -/
def NUL : Char := Char.ofNat 0

/-- The C string that starts at the beginning of a byte buffer: the bytes before the first
`NUL`. -/
def c_str (mem : List Char) : List Char := mem.takeWhile (fun c => c != NUL)

/-- Outcome of a modelled run that C leaves undefined or that the model cut short. -/
inductive Fault
  | out_of_bounds
  | out_of_fuel
deriving DecidableEq

deriving instance DecidableEq for Except

/-- Store `bytes` into `mem` from offset `off`; a store that leaves the buffer is a fault. -/
def poke (mem : List Char) (off : Nat) (bytes : List Char) : Except Fault (List Char) :=
  if off + bytes.length ≤ mem.length then
    .ok (mem.take off ++ bytes ++ mem.drop (off + bytes.length))
  else .error .out_of_bounds

/-- C `snprintf(mem + off, n, "%s", text)` (also the calls with a literal format and no
conversion): with `n = 0` nothing is stored; otherwise at most `n - 1` characters of `text`
and a terminating `NUL` are stored.  The return value is the length of `text`, truncated or
not. -/
def snprintf (mem : List Char) (off n : Nat) (text : List Char) :
    Except Fault (List Char × Nat) :=
  if n = 0 then .ok (mem, text.length)
  else (poke mem off (text.take (n - 1) ++ [NUL])).map (fun m => (m, text.length))

/-- Subtraction of `size_t` operands on the 32-bit target. -/
def size_sub (a b : Nat) : Nat := (a % 2 ^ 32 + 2 ^ 32 - b % 2 ^ 32) % 2 ^ 32

/-- Addition of `size_t` operands on the 32-bit target. -/
def size_add (a b : Nat) : Nat := (a + b) % 2 ^ 32

/-! ## `ruuvi_platform_error_to_string` -/

/-- Body of the `for` loop, source lines 36-40, on the pair `(error, error_bit)`:
`if(error & (1<<ii)) { error_bit = 1<<ii; error &= 0xFFFFFFFF-(1<<ii); }`, on 32-bit
patterns (`1<<31` is the pattern `0x80000000`).  There is no `break`. -/
def scan_step (st : Nat × Nat) (ii : Nat) : Nat × Nat :=
  if st.1 &&& (1 <<< ii) ≠ 0 then (st.1 &&& (0xFFFFFFFF - (1 <<< ii)), 1 <<< ii) else st

/-- The loop `for(uint8_t ii = 0; ii < 32; ii++)`, source lines 34-41. -/
def scan_bits (error error_bit : Nat) : Nat × Nat :=
  (List.range 32).foldl scan_step (error, error_bit)

/-- The text selected by `switch(error_bit)`, source lines 43-124, in source order; `none` is
the `default` label. -/
def error_bit_name (e : ruuvi_driver_error_h) (error_bit : Nat) : Option (List Char) :=
  if error_bit = RUUVI_DRIVER_SUCCESS then some "SUCCESS".toList
  else if error_bit = RUUVI_DRIVER_ERROR e .INTERNAL then some "INTERNAL".toList
  else if error_bit = RUUVI_DRIVER_ERROR e .NOT_FOUND then some "NOT_FOUND".toList
  else if error_bit = RUUVI_DRIVER_ERROR e .NO_MEM then some "NO_MEM".toList
  else if error_bit = RUUVI_DRIVER_ERROR e .NOT_SUPPORTED then some "NOT_SUPPORTED".toList
  else if error_bit = RUUVI_DRIVER_ERROR e .INVALID_STATE then some "INVALID_STATE".toList
  else if error_bit = RUUVI_DRIVER_ERROR e .INVALID_LENGTH then some "INVALID_LENGTH".toList
  else if error_bit = RUUVI_DRIVER_ERROR e .INVALID_FLAGS then some "INVALID_FLAGS".toList
  else if error_bit = RUUVI_DRIVER_ERROR e .INVALID_DATA then some "INVALID_DATA".toList
  else if error_bit = RUUVI_DRIVER_ERROR e .DATA_SIZE then some "DATA_SIZE".toList
  else if error_bit = RUUVI_DRIVER_ERROR e .TIMEOUT then some "TIMEOUT".toList
  else if error_bit = RUUVI_DRIVER_ERROR e .NULL then some "NULL".toList
  else if error_bit = RUUVI_DRIVER_ERROR e .FORBIDDEN then some "FORBIDDEN".toList
  else if error_bit = RUUVI_DRIVER_ERROR e .INVALID_ADDR then some "INVALID_ADDR".toList
  else if error_bit = RUUVI_DRIVER_ERROR e .BUSY then some "BUSY".toList
  else if error_bit = RUUVI_DRIVER_ERROR e .RESOURCES then some "RESOURCES".toList
  else if error_bit = RUUVI_DRIVER_ERROR e .NOT_IMPLEMENTED then some "NOT_IMPLEMENTED".toList
  else if error_bit = RUUVI_DRIVER_ERROR e .SELFTEST then some "SELFTEST".toList
  else if error_bit = RUUVI_DRIVER_ERROR e .FATAL then some "FATAL".toList
  else none

/-- Local variables of `ruuvi_platform_error_to_string` together with the caller's buffer. -/
structure RenderState where
  error : Nat
  error_bit : Nat
  written : Nat
  mem : List Char
deriving DecidableEq

/-- One pass of the body of the `do ... while(error)` loop, source lines 26-124. -/
def render_pass (e : ruuvi_driver_error_h) (space_remaining : Nat) (s : RenderState) :
    Except Fault RenderState :=
  -- Print comma + space if needed
  let separator : Except Fault RenderState :=
    if s.written ≠ 0 then
      (snprintf s.mem s.written (size_sub space_remaining s.written) ", ".toList).map
        (fun r => { s with mem := r.1, written := size_add s.written r.2 })
    else .ok s
  match separator with
  | .error f => .error f
  | .ok s1 =>
    -- the for loop runs only if(error)
    let bits :=
      if s1.error ≠ 0 then scan_bits s1.error s1.error_bit else (s1.error, s1.error_bit)
    let s2 : RenderState := { s1 with error := bits.1, error_bit := bits.2 }
    match error_bit_name e s2.error_bit with
    | some name =>
      (snprintf s2.mem s2.written (size_sub space_remaining s2.written) name).map
        (fun r => { s2 with mem := r.1, written := size_add s2.written r.2 })
    | none =>
      -- default: `written = snprintf(...)`, an assignment
      (snprintf s2.mem s2.written (size_sub space_remaining s2.written) "UNKNOWN".toList).map
        (fun r => { s2 with mem := r.1, written := r.2 % 2 ^ 32 })

/-- The `do ... while(error)` loop, with a bound on the number of passes; the count of
passes made is returned with the final state. -/
def render_loop (e : ruuvi_driver_error_h) (space_remaining : Nat) :
    Nat → RenderState → Except Fault (RenderState × Nat)
  | 0, _ => .error .out_of_fuel
  | fuel + 1, s =>
    match render_pass e space_remaining s with
    | .error f => .error f
    | .ok s1 =>
      if s1.error ≠ 0 then
        (render_loop e space_remaining fuel s1).map (fun r => (r.1, r.2 + 1))
      else .ok (s1, 1)

/-- Source lines 13-127 of `ruuvi_interface_log.c`.  `error_string = none` is the null pointer
(the error hook `RUUVI_DRIVER_ERROR_CHECK` is external and returns).  The result is the return
value `written` and the caller's buffer after the call.  One pass per bit of a 32-bit word and
one more are allowed. -/
def ruuvi_platform_error_to_string (e : ruuvi_driver_error_h) (error : Nat)
    (error_string : Option (List Char)) (space_remaining : Nat) :
    Except Fault (Nat × Option (List Char)) :=
  match error_string with
  | none => .ok (0, none)
  | some mem =>
    (render_loop e space_remaining 33
      { error := error, error_bit := 0, written := 0, mem := mem }).map
      (fun r => (r.1.written, some r.1.mem))

/-! ## `configuration_value_to_string` -/

/-- Decimal digits of `n`, least significant first, at most `fuel` of them. -/
def digits_rev : Nat → Nat → List Char
  | 0, _ => []
  | fuel + 1, n =>
    Char.ofNat (48 + n % 10) :: (if n / 10 = 0 then [] else digits_rev fuel (n / 10))

/-- The conversion `%d` of `printf` for a non-negative `int` below `10 ^ 10`. -/
def fmt_d (n : Nat) : List Char := (digits_rev 10 n).reverse

/-- The text chosen by `configuration_value_to_string`, source lines 134-191, before it is
stored in the buffer. -/
def configuration_value_text (s : ruuvi_driver_sensor_h) (val : Nat) : List Char :=
  if val ≤ 200 ∧ val > 0 then fmt_d val
  else if val = s.RUUVI_DRIVER_SENSOR_CFG_MIN then "MIN".toList
  else if val = s.RUUVI_DRIVER_SENSOR_CFG_MAX then "MAX".toList
  else if val = s.RUUVI_DRIVER_SENSOR_CFG_CONTINUOUS then "CONTINUOUS".toList
  else if val = s.RUUVI_DRIVER_SENSOR_CFG_DEFAULT then "DEFAULT".toList
  else if val = s.RUUVI_DRIVER_SENSOR_CFG_NO_CHANGE then "No change".toList
  else if val = s.RUUVI_DRIVER_SENSOR_CFG_ON_DRDY then "On data".toList
  else if val = s.RUUVI_DRIVER_SENSOR_CFG_ON_INTERRUPT then "On interrupt".toList
  else if val = s.RUUVI_DRIVER_SENSOR_CFG_SINGLE then "Single".toList
  else if val = s.RUUVI_DRIVER_SENSOR_CFG_SLEEP then "Sleep".toList
  else if val = s.RUUVI_DRIVER_SENSOR_ERR_NOT_SUPPORTED then "Not supported".toList
  else if val = s.RUUVI_DRIVER_SENSOR_ERR_NOT_IMPLEMENTED then "Not implemented".toList
  else if val = s.RUUVI_DRIVER_SENSOR_ERR_INVALID then "Invalid".toList
  else "Unknown".toList

/-- Source lines 130-193 of `ruuvi_interface_log.c`: `msg[17]` is cleared, the text is stored
with `snprintf(msg, sizeof(msg), ...)`, and the C string in `msg` is returned.  `val` is a
`uint8_t`. -/
def configuration_value_to_string (s : ruuvi_driver_sensor_h) (val : Nat) :
    Except Fault (List Char) :=
  let msg := List.replicate 17 NUL
  (snprintf msg 0 17 (configuration_value_text s val)).map (fun r => c_str r.1)

/-! ## The BME280 interface: device record, external calls -/

/-- The fields of `dev.settings` (`struct bme280_settings`) that the interface assigns. -/
structure bme280_settings where
  osr_p : Nat
  osr_t : Nat
  osr_h : Nat
  filter : Nat
  standby_time : Nat
deriving DecidableEq

/-- Calls that leave the interface: the Bosch driver's entry points with their arguments
(for `bme280_set_sensor_settings` also the settings record `&dev` points at when the call is
made) and the platform delay. -/
inductive Call
  | bme280_init
  | bme280_crc_selftest
  | bme280_soft_reset
  | bme280_set_sensor_settings (desired_settings : Nat) (settings : bme280_settings)
  | bme280_get_sensor_settings
  | bme280_set_sensor_mode (sensor_mode : Nat)
  | bme280_get_sensor_mode
  | bme280_get_sensor_data (sensor_comp : Nat)
  | ruuvi_platform_delay_ms (time : Nat)
deriving DecidableEq

/-- The Bosch driver and the device behind it, as far as the interface can observe them:
the `int8_t` result of a call given the calls made before it, the mode that
`bme280_get_sensor_mode` stores, and the settings that `bme280_get_sensor_settings` stores
into `dev.settings`. -/
structure Backend where
  rslt : List Call → Call → Int
  sensor_mode : List Call → Nat
  sensor_settings : List Call → bme280_settings → bme280_settings

/-- The state the interface works on: the static `dev.settings` and the calls issued so
far, oldest first. -/
structure World where
  settings : bme280_settings
  trace : List Call
deriving DecidableEq

/-- Issue one external call: its result, and the world with the call appended to the
trace. -/
def World.call (bk : Backend) (w : World) (c : Call) : Int × World :=
  (bk.rslt w.trace c, { w with trace := w.trace ++ [c] })

/-- C `~x` on a 32-bit `int` operand, as a bit pattern. -/
def bnot32 (x : Nat) : Nat := 2 ^ 32 - 1 - x % 2 ^ 32

/-! ## `bme280_interface_dsp_set` -/

/-- The `switch(*parameter)` of the IIR block, source lines 192-212; `none` is the `default`
label, which returns. -/
def iir_filter (b : bme280_defs_h) (parameter : Nat) : Option Nat :=
  if parameter = 1 then some b.BME280_FILTER_COEFF_OFF
  else if parameter = 2 then some b.BME280_FILTER_COEFF_2
  else if parameter = 4 then some b.BME280_FILTER_COEFF_4
  else if parameter = 8 then some b.BME280_FILTER_COEFF_8
  else if parameter = 16 then some b.BME280_FILTER_COEFF_16
  else none

/-- The `switch(*parameter)` of the oversampling block, source lines 217-247; `none` is the
`default` label, which returns. -/
def os_oversampling (b : bme280_defs_h) (parameter : Nat) : Option Nat :=
  if parameter = 1 then some b.BME280_OVERSAMPLING_1X
  else if parameter = 2 then some b.BME280_OVERSAMPLING_2X
  else if parameter = 4 then some b.BME280_OVERSAMPLING_4X
  else if parameter = 8 then some b.BME280_OVERSAMPLING_8X
  else if parameter = 16 then some b.BME280_OVERSAMPLING_16X
  else none

/-- The committing call `BME_TO_RUUVI_ERROR(bme280_set_sensor_settings(settings_sel, &dev))`. -/
def write_settings (e : ruuvi_driver_error_h) (b : bme280_defs_h) (bk : Backend)
    (settings_sel : Nat) (w : World) : Nat × World :=
  let r := w.call bk (.bme280_set_sensor_settings settings_sel w.settings)
  (BME_TO_RUUVI_ERROR e b r.1, r.2)

/-- Source lines 155-253 of `ruuvi_interface_bme280.c`.  `dsp` and `parameter` are the values
behind the two pointers (`parameter` a `uint8_t`); the result is the returned Status and the
world after the call. -/
def bme280_interface_dsp_set (e : ruuvi_driver_error_h) (r : ruuvi_sensor_h)
    (b : bme280_defs_h) (bk : Backend) (dsp parameter : Nat) (w : World) : Nat × World :=
  -- Validate configuration
  if 1 ≠ parameter ∧ 2 ≠ parameter ∧ 4 ≠ parameter ∧ 8 ≠ parameter ∧ 16 ≠ parameter
      ∧ r.RUUVI_SENSOR_DSP_LAST ≠ dsp then
    (RUUVI_DRIVER_ERROR e .NOT_SUPPORTED, w)
  -- Error if DSP is not last, and if dsp is something else than IIR or OS
  else if r.RUUVI_SENSOR_DSP_LAST ≠ dsp
      ∧ bnot32 (r.RUUVI_SENSOR_DSP_IIR ||| r.RUUVI_SENSOR_DSP_OS) &&& dsp ≠ 0 then
    (RUUVI_DRIVER_ERROR e .NOT_SUPPORTED, w)
  else
    -- Clear setup
    let settings_sel : Nat := 0
    let w1 : World := { w with settings := { w.settings with
      osr_h := b.BME280_OVERSAMPLING_1X, osr_p := b.BME280_OVERSAMPLING_1X,
      osr_t := b.BME280_OVERSAMPLING_1X, filter := b.BME280_FILTER_COEFF_OFF } }
    let settings_sel := (settings_sel ||| b.BME280_OSR_PRESS_SEL) % 256
    let settings_sel := (settings_sel ||| b.BME280_OSR_TEMP_SEL) % 256
    let settings_sel := (settings_sel ||| b.BME280_OSR_HUM_SEL) % 256
    let settings_sel := (settings_sel ||| b.BME280_FILTER_SEL) % 256
    -- Disable DSP on BME if DSP_LAST was selected
    if r.RUUVI_SENSOR_DSP_LAST = dsp then write_settings e b bk settings_sel w1
    else
      -- Setup IIR
      let iir : Option World :=
        if r.RUUVI_SENSOR_DSP_IIR &&& dsp ≠ 0 then
          (iir_filter b parameter).map
            (fun c => { w1 with settings := { w1.settings with filter := c } })
        else some w1
      match iir with
      | none => (RUUVI_DRIVER_ERROR e .NOT_SUPPORTED, w1)
      | some w2 =>
        -- Setup Oversampling
        let os : Option World :=
          if r.RUUVI_SENSOR_DSP_OS &&& dsp ≠ 0 then
            (os_oversampling b parameter).map
              (fun c => { w2 with settings := { w2.settings with
                osr_h := c, osr_p := c, osr_t := c } })
          else some w2
        match os with
        | none => (RUUVI_DRIVER_ERROR e .NOT_SUPPORTED, w2)
        | some w3 =>
          -- Write configuration
          write_settings e b bk settings_sel w3

/-! ## `bme280_interface_mode_set` -/

/-- The call `BME_TO_RUUVI_ERROR(bme280_set_sensor_mode(mode, &dev))`. -/
def write_mode (e : ruuvi_driver_error_h) (b : bme280_defs_h) (bk : Backend)
    (sensor_mode : Nat) (w : World) : Nat × World :=
  let r := w.call bk (.bme280_set_sensor_mode sensor_mode)
  (BME_TO_RUUVI_ERROR e b r.1, r.2)

/-- Source lines 261-284 of `ruuvi_interface_bme280.c`; `mode` is the value behind the
pointer. -/
def bme280_interface_mode_set (e : ruuvi_driver_error_h) (r : ruuvi_sensor_h)
    (b : bme280_defs_h) (bk : Backend) (mode : Nat) (w : World) : Nat × World :=
  if mode = r.RUUVI_SENSOR_MODE_SLEEP then
    write_mode e b bk b.BME280_SLEEP_MODE w
  else if mode = r.RUUVI_SENSOR_MODE_SINGLE_ASYNCHRONOUS then
    write_mode e b bk b.BME280_FORCED_MODE w
  else if mode = r.RUUVI_SENSOR_MODE_SINGLE_BLOCKING then
    let m := write_mode e b bk b.BME280_FORCED_MODE w
    (m.1, (m.2.call bk (.ruuvi_platform_delay_ms 100)).2)
  else if mode = r.RUUVI_SENSOR_MODE_CONTINOUS then
    write_mode e b bk b.BME280_NORMAL_MODE w
  else
    (RUUVI_DRIVER_ERROR e .INVALID_PARAM, w)

/-! ## `bme280_interface_mode_get` -/

/-- Source lines 286-307 of `ruuvi_interface_bme280.c`.  `bme_mode` is the byte
`bme280_get_sensor_mode` leaves in its out-parameter; the result is the returned Status, the
value stored through `mode`, and the world after the call. -/
def bme280_interface_mode_get (e : ruuvi_driver_error_h) (r : ruuvi_sensor_h)
    (b : bme280_defs_h) (bk : Backend) (w : World) : Nat × Nat × World :=
  let c := w.call bk .bme280_get_sensor_mode
  let err_code := BME_TO_RUUVI_ERROR e b c.1
  let bme_mode := bk.sensor_mode w.trace
  let mode :=
    if bme_mode = b.BME280_SLEEP_MODE then r.RUUVI_SENSOR_MODE_SLEEP
    else if bme_mode = b.BME280_FORCED_MODE then r.RUUVI_SENSOR_MODE_SINGLE_ASYNCHRONOUS
    else if bme_mode = b.BME280_NORMAL_MODE then r.RUUVI_SENSOR_MODE_CONTINOUS
    else r.RUUVI_SENSOR_MODE_INVALID
  (err_code, mode, c.2)

/-! ## `bme280_interface_samplerate_set` and `bme280_interface_samplerate_get` -/

/-- The standby time chosen by the `else if` chain of source lines 106-115 for a sample rate
that is not `RUUVI_SENSOR_SAMPLERATE_STOP`; `none` is the final `else`, which returns. -/
def samplerate_standby (r : ruuvi_sensor_h) (b : bme280_defs_h) (samplerate : Nat) :
    Option Nat :=
  if samplerate = 1 then some b.BME280_STANDBY_TIME_1000_MS
  else if samplerate = 2 then some b.BME280_STANDBY_TIME_500_MS
  else if samplerate ≤ 8 then some b.BME280_STANDBY_TIME_125_MS
  else if samplerate ≤ 16 then some b.BME280_STANDBY_TIME_62_5_MS
  else if samplerate ≤ 50 then some b.BME280_STANDBY_TIME_20_MS
  else if samplerate ≤ 100 then some b.BME280_STANDBY_TIME_10_MS
  else if samplerate ≤ 200 then some b.BME280_STANDBY_TIME_1_MS
  else if r.RUUVI_SENSOR_SAMPLERATE_MIN = samplerate then some b.BME280_STANDBY_TIME_1000_MS
  else if r.RUUVI_SENSOR_SAMPLERATE_MAX = samplerate then some b.BME280_STANDBY_TIME_1_MS
  else none

/-- Source lines 103-119 of `ruuvi_interface_bme280.c`; `samplerate` is the value behind the
pointer. -/
def bme280_interface_samplerate_set (e : ruuvi_driver_error_h) (r : ruuvi_sensor_h)
    (b : bme280_defs_h) (bk : Backend) (samplerate : Nat) (w : World) : Nat × World :=
  if r.RUUVI_SENSOR_SAMPLERATE_STOP = samplerate then
    (RUUVI_DRIVER_ERROR e .NOT_SUPPORTED, w)
  else
    match samplerate_standby r b samplerate with
    | none => (RUUVI_DRIVER_ERROR e .NOT_SUPPORTED, w)
    | some standby =>
      let w1 : World := { w with settings := { w.settings with standby_time := standby } }
      write_settings e b bk b.BME280_STANDBY_SEL w1

/-- Source lines 121-134 of `ruuvi_interface_bme280.c`.  `bme280_get_sensor_settings(&dev)`
overwrites `dev.settings` with what it read; `samplerate` is the value behind the pointer
before the call, kept when no branch of the chain matches.  The result is the returned
Status, the value behind the pointer after the call, and the world after the call. -/
def bme280_interface_samplerate_get (e : ruuvi_driver_error_h) (b : bme280_defs_h)
    (bk : Backend) (samplerate : Nat) (w : World) : Nat × Nat × World :=
  let c := w.call bk .bme280_get_sensor_settings
  let err_code := BME_TO_RUUVI_ERROR e b c.1
  let w1 : World := { c.2 with settings := bk.sensor_settings w.trace w.settings }
  let standby_time := w1.settings.standby_time
  let samplerate :=
    if b.BME280_STANDBY_TIME_1000_MS = standby_time then 1
    else if b.BME280_STANDBY_TIME_500_MS = standby_time then 2
    else if b.BME280_STANDBY_TIME_125_MS = standby_time then 8
    else if b.BME280_STANDBY_TIME_62_5_MS = standby_time then 16
    else if b.BME280_STANDBY_TIME_20_MS = standby_time then 50
    else if b.BME280_STANDBY_TIME_10_MS = standby_time then 100
    else if b.BME280_STANDBY_TIME_1_MS = standby_time then 200
    else samplerate
  (err_code, samplerate, w1)

/-! ## `bme280_interface_init` -/

/-- The `|=` on `ruuvi_driver_status_t` by which `bme280_interface_init` accumulates the
Statuses of its steps (source lines 66-75): bitwise OR. -/
def combine (a b : Nat) : Nat := a ||| b

/-- The functions of the interface, as the targets of the function pointers of
`ruuvi_sensor_t`. -/
inductive Binding
  | bme280_interface_init
  | bme280_interface_uninit
  | bme280_interface_samplerate_set
  | bme280_interface_samplerate_get
  | bme280_interface_resolution_set
  | bme280_interface_resolution_get
  | bme280_interface_scale_set
  | bme280_interface_scale_get
  | bme280_interface_dsp_set
  | bme280_interface_dsp_get
  | bme280_interface_mode_set
  | bme280_interface_mode_get
  | bme280_interface_interrupt_set
  | bme280_interface_interrupt_get
  | bme280_interface_data_get
deriving DecidableEq

/-- The fifteen function pointers of `ruuvi_sensor_t` that `bme280_interface_init` assigns;
`none` is a pointer that is not bound to a function of this interface. -/
structure ruuvi_sensor_t where
  init : Option Binding
  uninit : Option Binding
  samplerate_set : Option Binding
  samplerate_get : Option Binding
  resolution_set : Option Binding
  resolution_get : Option Binding
  scale_set : Option Binding
  scale_get : Option Binding
  dsp_set : Option Binding
  dsp_get : Option Binding
  mode_set : Option Binding
  mode_get : Option Binding
  interrupt_set : Option Binding
  interrupt_get : Option Binding
  data_get : Option Binding
deriving DecidableEq

/-- The assignments of source lines 79-93. -/
def bind_table (environmental_sensor : ruuvi_sensor_t) : ruuvi_sensor_t :=
  { environmental_sensor with
    init := some .bme280_interface_init
    uninit := some .bme280_interface_uninit
    samplerate_set := some .bme280_interface_samplerate_set
    samplerate_get := some .bme280_interface_samplerate_get
    resolution_set := some .bme280_interface_resolution_set
    resolution_get := some .bme280_interface_resolution_get
    scale_set := some .bme280_interface_scale_set
    scale_get := some .bme280_interface_scale_get
    dsp_set := some .bme280_interface_dsp_set
    dsp_get := some .bme280_interface_dsp_get
    mode_set := some .bme280_interface_mode_set
    mode_get := some .bme280_interface_mode_get
    interrupt_set := some .bme280_interface_interrupt_set
    interrupt_get := some .bme280_interface_interrupt_get
    data_get := some .bme280_interface_data_get }

/-- Source lines 55-96 of `ruuvi_interface_bme280.c`.  The assignments to `dev.dev_id`,
`dev.intf` and the three transport pointers touch no state of this model; the three driver
calls are external and leave `dev.settings` alone.  The result is the returned Status, the
caller's table after the call, and the world after the call. -/
def bme280_interface_init (e : ruuvi_driver_error_h) (r : ruuvi_sensor_h)
    (b : bme280_defs_h) (bk : Backend) (environmental_sensor : ruuvi_sensor_t) (w : World) :
    Nat × ruuvi_sensor_t × World :=
  let err_code := RUUVI_DRIVER_SUCCESS
  let c1 := w.call bk .bme280_init
  let err_code := combine err_code (BME_TO_RUUVI_ERROR e b c1.1)
  let c2 := c1.2.call bk .bme280_crc_selftest
  let err_code := combine err_code (BME_TO_RUUVI_ERROR e b c2.1)
  let c3 := c2.2.call bk .bme280_soft_reset
  let err_code := combine err_code (BME_TO_RUUVI_ERROR e b c3.1)
  -- Setup Oversampling 1 to enable sensor
  let dsp := r.RUUVI_SENSOR_DSP_OS
  let dsp_parameter := 1
  let d := bme280_interface_dsp_set e r b bk dsp dsp_parameter c3.2
  let err_code := combine err_code d.1
  if RUUVI_DRIVER_SUCCESS = err_code then (err_code, bind_table environmental_sensor, d.2)
  else (err_code, environmental_sensor, d.2)

/-! ## `ruuvi_interface_log_sensor_configuration` -/

/-- The DSP function constants of `ruuvi_driver_sensor.h` that label the `switch` of
`ruuvi_interface_log_sensor_configuration` (not in the sources; taken as parameters). -/
structure ruuvi_driver_sensor_dsp_h where
  RUUVI_DRIVER_SENSOR_DSP_HIGH_PASS : Nat
  RUUVI_DRIVER_SENSOR_DSP_IIR : Nat
  RUUVI_DRIVER_SENSOR_DSP_LAST : Nat
  RUUVI_DRIVER_SENSOR_DSP_LOW_PASS : Nat
  RUUVI_DRIVER_SENSOR_DSP_OS : Nat

/-- The five case labels, in source order. -/
def ruuvi_driver_sensor_dsp_h.labels (d : ruuvi_driver_sensor_dsp_h) : List Nat :=
  [d.RUUVI_DRIVER_SENSOR_DSP_HIGH_PASS, d.RUUVI_DRIVER_SENSOR_DSP_IIR,
   d.RUUVI_DRIVER_SENSOR_DSP_LAST, d.RUUVI_DRIVER_SENSOR_DSP_LOW_PASS,
   d.RUUVI_DRIVER_SENSOR_DSP_OS]

/-- The five case labels are pairwise different, as C requires of the labels of one
`switch`. -/
def ruuvi_driver_sensor_dsp_h.wf (d : ruuvi_driver_sensor_dsp_h) : Prop := d.labels.Nodup

/-- The fields of `ruuvi_driver_sensor_configuration_t` the function reads, each a
`uint8_t`. -/
structure ruuvi_driver_sensor_configuration_t where
  samplerate : Nat
  resolution : Nat
  scale : Nat
  dsp_function : Nat
  dsp_parameter : Nat
  mode : Nat

/-- The macro `msg_size`. -/
def msg_size : Nat := 128

/-- The log sink: the calls `ruuvi_platform_log(level, msg)` made so far, oldest first,
each with the C string in `msg` at the time of the call. -/
abbrev LogSink := List (Nat × List Char)

/-- The text of the `switch(configuration->dsp_function)`, source lines 213-238. -/
def dsp_phrase (d : ruuvi_driver_sensor_dsp_h) (dsp_function : Nat) : List Char :=
  if dsp_function = d.RUUVI_DRIVER_SENSOR_DSP_HIGH_PASS then "High pass x ".toList
  else if dsp_function = d.RUUVI_DRIVER_SENSOR_DSP_IIR then
    "Infinite Impulse Response x ".toList
  else if dsp_function = d.RUUVI_DRIVER_SENSOR_DSP_LAST then "Last x ".toList
  else if dsp_function = d.RUUVI_DRIVER_SENSOR_DSP_LOW_PASS then "Lowpass x ".toList
  else if dsp_function = d.RUUVI_DRIVER_SENSOR_DSP_OS then "Oversampling x ".toList
  else "Unknown x".toList

/-- The pattern `snprintf(msg, msg_size, ...); ruuvi_platform_log(level, msg);` on the
cleared buffer `msg`, with `text` the formatted text. -/
def log_line (level : Nat) (text : List Char) (sink : LogSink) : Except Fault LogSink :=
  (snprintf (List.replicate msg_size NUL) 0 msg_size text).map
    (fun r => sink ++ [(level, c_str r.1)])

/-- Source lines 195-246 of `ruuvi_interface_log.c`.  `unit` is the C string behind the
pointer; the result is the log sink after the call. -/
def ruuvi_interface_log_sensor_configuration (s : ruuvi_driver_sensor_h)
    (d : ruuvi_driver_sensor_dsp_h) (level : Nat)
    (configuration : ruuvi_driver_sensor_configuration_t) (unit : List Char)
    (sink : LogSink) : Except Fault LogSink :=
  (configuration_value_to_string s configuration.samplerate).bind fun v =>
  (log_line level ("Sample rate: ".toList ++ v ++ " Hz\r\n".toList) sink).bind fun sink =>
  (configuration_value_to_string s configuration.resolution).bind fun v =>
  (log_line level ("Resolution:  ".toList ++ v ++ " bits\r\n".toList) sink).bind fun sink =>
  (configuration_value_to_string s configuration.scale).bind fun v =>
  (log_line level ("Scale:       ".toList ++ v ++ " ".toList ++ unit ++ "\r\n".toList)
    sink).bind fun sink =>
  -- size_t written = snprintf(msg, msg_size, "DSP:         ");
  (snprintf (List.replicate msg_size NUL) 0 msg_size "DSP:         ".toList).bind fun r1 =>
  let written := r1.2 % 2 ^ 32
  (snprintf r1.1 written (size_sub msg_size written)
    (dsp_phrase d configuration.dsp_function)).bind fun r2 =>
  let written := size_add written r2.2
  (configuration_value_to_string s configuration.dsp_parameter).bind fun v =>
  (snprintf r2.1 written (size_sub msg_size written) (v ++ "\r\n".toList)).bind fun r3 =>
  let sink := sink ++ [(level, c_str r3.1)]
  (configuration_value_to_string s configuration.mode).bind fun v =>
  log_line level ("Mode:        ".toList ++ v ++ "\r\n".toList) sink

/-! ## Reference texts for the statements about `ruuvi_platform_error_to_string` -/

/-- The name the header gives an error kind: the text after `RUUVI_DRIVER_ERROR_`. -/
def kind_name : ErrorKind → List Char
  | .INTERNAL => "INTERNAL".toList
  | .NO_MEM => "NO_MEM".toList
  | .NOT_FOUND => "NOT_FOUND".toList
  | .NOT_SUPPORTED => "NOT_SUPPORTED".toList
  | .INVALID_PARAM => "INVALID_PARAM".toList
  | .INVALID_STATE => "INVALID_STATE".toList
  | .INVALID_LENGTH => "INVALID_LENGTH".toList
  | .INVALID_FLAGS => "INVALID_FLAGS".toList
  | .INVALID_DATA => "INVALID_DATA".toList
  | .DATA_SIZE => "DATA_SIZE".toList
  | .TIMEOUT => "TIMEOUT".toList
  | .NULL => "NULL".toList
  | .FORBIDDEN => "FORBIDDEN".toList
  | .INVALID_ADDR => "INVALID_ADDR".toList
  | .BUSY => "BUSY".toList
  | .RESOURCES => "RESOURCES".toList
  | .NOT_IMPLEMENTED => "NOT_IMPLEMENTED".toList
  | .SELFTEST => "SELFTEST".toList
  | .FATAL => "FATAL".toList

/-- The buffer `mem` after `text` and its terminator were stored at its start. -/
def stored (text mem : List Char) : List Char :=
  text ++ [NUL] ++ mem.drop (text.length + 1)

/-- The text selected for the highest set bit of `error` (for `SUCCESS` when `error = 0`),
with `UNKNOWN` for the `default` label. -/
def highest_bit_text (e : ruuvi_driver_error_h) (error : Nat) : List Char :=
  (error_bit_name e (if error = 0 then 0 else 1 <<< Nat.log2 error)).getD "UNKNOWN".toList

/-- The set of bits of `after` is a proper subset of the set of bits of `before`. -/
def strictly_fewer_bits (after before : Nat) : Prop :=
  after &&& before = after ∧ after ≠ before

/-! ## Reference texts for the statements about `configuration_value_to_string` -/

/-- The sentinel codes with their fixed mnemonics. -/
def sentinel_table (s : ruuvi_driver_sensor_h) : List (Nat × List Char) :=
  [(s.RUUVI_DRIVER_SENSOR_CFG_MIN, "MIN".toList),
   (s.RUUVI_DRIVER_SENSOR_CFG_MAX, "MAX".toList),
   (s.RUUVI_DRIVER_SENSOR_CFG_CONTINUOUS, "CONTINUOUS".toList),
   (s.RUUVI_DRIVER_SENSOR_CFG_DEFAULT, "DEFAULT".toList),
   (s.RUUVI_DRIVER_SENSOR_CFG_NO_CHANGE, "No change".toList),
   (s.RUUVI_DRIVER_SENSOR_CFG_ON_DRDY, "On data".toList),
   (s.RUUVI_DRIVER_SENSOR_CFG_ON_INTERRUPT, "On interrupt".toList),
   (s.RUUVI_DRIVER_SENSOR_CFG_SINGLE, "Single".toList),
   (s.RUUVI_DRIVER_SENSOR_CFG_SLEEP, "Sleep".toList),
   (s.RUUVI_DRIVER_SENSOR_ERR_NOT_SUPPORTED, "Not supported".toList),
   (s.RUUVI_DRIVER_SENSOR_ERR_NOT_IMPLEMENTED, "Not implemented".toList),
   (s.RUUVI_DRIVER_SENSOR_ERR_INVALID, "Invalid".toList)]

/-- The twelve sentinel mnemonics. -/
def sentinel_mnemonics : List (List Char) :=
  ["MIN".toList, "MAX".toList, "CONTINUOUS".toList, "DEFAULT".toList, "No change".toList,
   "On data".toList, "On interrupt".toList, "Single".toList, "Sleep".toList,
   "Not supported".toList, "Not implemented".toList, "Invalid".toList]

/-- The value a string of decimal digits denotes. -/
def decimal_value (t : List Char) : Nat := t.foldl (fun a c => 10 * a + (c.toNat - 48)) 0

/-- A `switch` as a list of labelled texts tried in order, with a default. -/
def first_match (v : Nat) : List (Nat × List Char) → List Char → List Char
  | [], d => d
  | p :: rest, d => if v = p.1 then p.2 else first_match v rest d

/-! ## Reference values for the statements about the BME280 interface -/

/-- The DSP flags are well formed when `IIR` and `OS` are two non-empty, disjoint flags of
a 32-bit mask and `LAST` is none of their combinations (the spec's data model: functions
combine as a bitmask, `LAST` is exclusive with all others). -/
def ruuvi_sensor_h.dsp_wf (r : ruuvi_sensor_h) : Prop :=
  r.RUUVI_SENSOR_DSP_IIR ≠ 0 ∧ r.RUUVI_SENSOR_DSP_OS ≠ 0
    ∧ r.RUUVI_SENSOR_DSP_IIR &&& r.RUUVI_SENSOR_DSP_OS = 0
    ∧ r.RUUVI_SENSOR_DSP_IIR < 2 ^ 32 ∧ r.RUUVI_SENSOR_DSP_OS < 2 ^ 32
    ∧ r.RUUVI_SENSOR_DSP_LAST ≠ r.RUUVI_SENSOR_DSP_IIR
    ∧ r.RUUVI_SENSOR_DSP_LAST ≠ r.RUUVI_SENSOR_DSP_OS
    ∧ r.RUUVI_SENSOR_DSP_LAST ≠ r.RUUVI_SENSOR_DSP_IIR ||| r.RUUVI_SENSOR_DSP_OS

/-- The filter code of a DSP parameter: 1 -> off, 2 -> coefficient 2, 4 -> 4, 8 -> 8,
16 -> 16 (off for any other number, which the statements never use). -/
def filter_code (b : bme280_defs_h) : Nat → Nat
  | 1 => b.BME280_FILTER_COEFF_OFF
  | 2 => b.BME280_FILTER_COEFF_2
  | 4 => b.BME280_FILTER_COEFF_4
  | 8 => b.BME280_FILTER_COEFF_8
  | 16 => b.BME280_FILTER_COEFF_16
  | _ => b.BME280_FILTER_COEFF_OFF

/-- The oversampling code of a DSP parameter: 1 -> 1x, 2 -> 2x, 4 -> 4x, 8 -> 8x, 16 -> 16x
(1x for any other number, which the statements never use). -/
def oversampling_code (b : bme280_defs_h) : Nat → Nat
  | 1 => b.BME280_OVERSAMPLING_1X
  | 2 => b.BME280_OVERSAMPLING_2X
  | 4 => b.BME280_OVERSAMPLING_4X
  | 8 => b.BME280_OVERSAMPLING_8X
  | 16 => b.BME280_OVERSAMPLING_16X
  | _ => b.BME280_OVERSAMPLING_1X

/-- The selection mask naming pressure, temperature and humidity oversampling and the
filter, as the `uint8_t` the driver receives. -/
def dsp_settings_sel (b : bme280_defs_h) : Nat :=
  (b.BME280_OSR_PRESS_SEL ||| b.BME280_OSR_TEMP_SEL ||| b.BME280_OSR_HUM_SEL
    ||| b.BME280_FILTER_SEL) % 256

/-- The DSP settings with filter code `filter` and oversampling code `osr` on all three
channels; the standby time is kept. -/
def dsp_settings (old : bme280_settings) (filter osr : Nat) : bme280_settings :=
  { osr_p := osr, osr_t := osr, osr_h := osr, filter := filter,
    standby_time := old.standby_time }

/-- The outcome of committing `settings` from world `w` with exactly one
`bme280_set_sensor_settings` call selecting `sel`: the translated result of that call, the
settings in place, and the call appended to the trace. -/
def committed (e : ruuvi_driver_error_h) (b : bme280_defs_h) (bk : Backend) (sel : Nat)
    (settings : bme280_settings) (w : World) : Nat × World :=
  (BME_TO_RUUVI_ERROR e b (bk.rslt w.trace (.bme280_set_sensor_settings sel settings)),
   { settings := settings,
     trace := w.trace ++ [.bme280_set_sensor_settings sel settings] })

/-! ## Reference values for the statements about modes, sample rates and `init` -/

/-- The four result codes that `BME_TO_RUUVI_ERROR` names are pairwise different. -/
def bme280_defs_h.codes_wf (b : bme280_defs_h) : Prop :=
  [b.BME280_E_DEV_NOT_FOUND, b.BME280_E_NULL_PTR, b.BME280_E_COMM_FAIL, b.BME280_OK].Nodup

/-- The three mode codes are pairwise different, as C requires of the case labels of the
`switch` in `bme280_interface_mode_get`. -/
def bme280_defs_h.modes_wf (b : bme280_defs_h) : Prop :=
  [b.BME280_SLEEP_MODE, b.BME280_FORCED_MODE, b.BME280_NORMAL_MODE].Nodup

/-- The seven standby codes the interface uses are pairwise different (they are different
values of one register field). -/
def bme280_defs_h.standby_wf (b : bme280_defs_h) : Prop :=
  [b.BME280_STANDBY_TIME_1000_MS, b.BME280_STANDBY_TIME_500_MS, b.BME280_STANDBY_TIME_125_MS,
   b.BME280_STANDBY_TIME_62_5_MS, b.BME280_STANDBY_TIME_20_MS, b.BME280_STANDBY_TIME_10_MS,
   b.BME280_STANDBY_TIME_1_MS].Nodup

/-- Modelled from the spec: `ruuvi_sensor.h` is not in the sources.  In the spec's data model
the sentinel values lie outside the literal band `1..200`; `STOP`, the rate at which sampling
stops, is taken to be the one value of a `uint8_t` below the band, and `MIN` and `MAX` are two
different values above it. -/
def ruuvi_sensor_h.samplerate_wf (r : ruuvi_sensor_h) : Prop :=
  r.RUUVI_SENSOR_SAMPLERATE_STOP = 0 ∧ 200 < r.RUUVI_SENSOR_SAMPLERATE_MIN
    ∧ 200 < r.RUUVI_SENSOR_SAMPLERATE_MAX
    ∧ r.RUUVI_SENSOR_SAMPLERATE_MIN ≠ r.RUUVI_SENSOR_SAMPLERATE_MAX

/-- The nominal rates of the seven supported tiers, in Hz, slowest first. -/
def nominal_rates : List Nat := [1, 2, 8, 16, 50, 100, 200]

/-- The least nominal rate that is at least `rate` (200 when there is none). -/
def least_nominal_rate (rate : Nat) : Nat :=
  ((nominal_rates.filter (fun n => decide (rate ≤ n))).min?).getD 200

/-- The standby code of the tier with a given nominal rate. -/
def standby_of_rate (b : bme280_defs_h) : Nat → Nat
  | 1 => b.BME280_STANDBY_TIME_1000_MS
  | 2 => b.BME280_STANDBY_TIME_500_MS
  | 8 => b.BME280_STANDBY_TIME_125_MS
  | 16 => b.BME280_STANDBY_TIME_62_5_MS
  | 50 => b.BME280_STANDBY_TIME_20_MS
  | 100 => b.BME280_STANDBY_TIME_10_MS
  | _ => b.BME280_STANDBY_TIME_1_MS

/-- A backend stores the standby setting when `bme280_get_sensor_settings`, called right
after a `bme280_set_sensor_settings` that selected the standby time, reads back the standby
time that was written. -/
def Backend.stores_standby (b : bme280_defs_h) (bk : Backend) : Prop :=
  ∀ (tr : List Call) (written current : bme280_settings),
    (bk.sensor_settings
        (tr ++ [.bme280_set_sensor_settings b.BME280_STANDBY_SEL written]) current).standby_time
      = written.standby_time

/-- The calls a run added to the trace: the trace after it without the first `n` calls. -/
def calls_since (n : Nat) (w : World) : List Call := w.trace.drop n

/-- A table none of whose pointers is bound. -/
def unbound_table : ruuvi_sensor_t where
  init := none
  uninit := none
  samplerate_set := none
  samplerate_get := none
  resolution_set := none
  resolution_get := none
  scale_set := none
  scale_get := none
  dsp_set := none
  dsp_get := none
  mode_set := none
  mode_get := none
  interrupt_set := none
  interrupt_get := none
  data_get := none

/-- The table with every pointer bound to the interface function of the same name. -/
def bme280_table : ruuvi_sensor_t where
  init := some .bme280_interface_init
  uninit := some .bme280_interface_uninit
  samplerate_set := some .bme280_interface_samplerate_set
  samplerate_get := some .bme280_interface_samplerate_get
  resolution_set := some .bme280_interface_resolution_set
  resolution_get := some .bme280_interface_resolution_get
  scale_set := some .bme280_interface_scale_set
  scale_get := some .bme280_interface_scale_get
  dsp_set := some .bme280_interface_dsp_set
  dsp_get := some .bme280_interface_dsp_get
  mode_set := some .bme280_interface_mode_set
  mode_get := some .bme280_interface_mode_get
  interrupt_set := some .bme280_interface_interrupt_set
  interrupt_get := some .bme280_interface_interrupt_get
  data_get := some .bme280_interface_data_get

/-- The four calls of a bring-up started in world `w`, in order: driver init, CRC
self-test, soft reset, and the write by which `bme280_interface_dsp_set(OS, 1)` commits
filter off and oversampling 1x. -/
def init_calls (b : bme280_defs_h) (w : World) : List Call :=
  [.bme280_init, .bme280_crc_selftest, .bme280_soft_reset,
   .bme280_set_sensor_settings (dsp_settings_sel b)
     (dsp_settings w.settings b.BME280_FILTER_COEFF_OFF b.BME280_OVERSAMPLING_1X)]

/-- The backend's result code for step `n` (0 to 3) of a bring-up started in world `w`,
given that the earlier steps were made. -/
def init_step_result (b : bme280_defs_h) (bk : Backend) (w : World) (n : Nat) : Int :=
  match (init_calls b w).drop n with
  | c :: _ => bk.rslt (w.trace ++ (init_calls b w).take n) c
  | [] => 0

/-- The translated Status of step `n` of a bring-up started in world `w`. -/
def init_step_status (e : ruuvi_driver_error_h) (b : bme280_defs_h) (bk : Backend)
    (w : World) (n : Nat) : Nat :=
  BME_TO_RUUVI_ERROR e b (init_step_result b bk w n)

/-- The five log entries for a configuration snapshot: the fixed label, the text of the
field's value (for the DSP line after the function phrase), the unit on the scale line, and
the line ending; the scale line is cut to the 127 characters that fit `msg`. -/
def configuration_lines (s : ruuvi_driver_sensor_h) (d : ruuvi_driver_sensor_dsp_h)
    (level : Nat) (configuration : ruuvi_driver_sensor_configuration_t) (unit : List Char) :
    LogSink :=
  [(level, "Sample rate: ".toList ++ configuration_value_text s configuration.samplerate
      ++ " Hz\r\n".toList),
   (level, "Resolution:  ".toList ++ configuration_value_text s configuration.resolution
      ++ " bits\r\n".toList),
   (level, ("Scale:       ".toList ++ configuration_value_text s configuration.scale
      ++ " ".toList ++ unit ++ "\r\n".toList).take 127),
   (level, "DSP:         ".toList ++ dsp_phrase d configuration.dsp_function
      ++ configuration_value_text s configuration.dsp_parameter ++ "\r\n".toList),
   (level, "Mode:        ".toList ++ configuration_value_text s configuration.mode
      ++ "\r\n".toList)]

/-! ## Concrete headers -/

/-- One assignment of bit positions to the error kinds that satisfies `wf`. -/
def sample_error_h : ruuvi_driver_error_h where
  bit
    | .INTERNAL => 0 | .NO_MEM => 1 | .NOT_FOUND => 2 | .NOT_SUPPORTED => 3
    | .INVALID_PARAM => 4 | .INVALID_STATE => 5 | .INVALID_LENGTH => 6
    | .INVALID_FLAGS => 7 | .INVALID_DATA => 8 | .DATA_SIZE => 9 | .TIMEOUT => 10
    | .NULL => 11 | .FORBIDDEN => 12 | .INVALID_ADDR => 13 | .BUSY => 14
    | .RESOURCES => 15 | .NOT_IMPLEMENTED => 16 | .SELFTEST => 17 | .FATAL => 31

/-- The values the Bosch BME280 driver gives the constants of `bme280_defs.h`. -/
def sample_bme280_defs_h : bme280_defs_h where
  BME280_OK := 0
  BME280_E_NULL_PTR := -1
  BME280_E_DEV_NOT_FOUND := -2
  BME280_E_COMM_FAIL := -4
  BME280_SLEEP_MODE := 0
  BME280_FORCED_MODE := 1
  BME280_NORMAL_MODE := 3
  BME280_OVERSAMPLING_1X := 1
  BME280_OVERSAMPLING_2X := 2
  BME280_OVERSAMPLING_4X := 3
  BME280_OVERSAMPLING_8X := 4
  BME280_OVERSAMPLING_16X := 5
  BME280_FILTER_COEFF_OFF := 0
  BME280_FILTER_COEFF_2 := 1
  BME280_FILTER_COEFF_4 := 2
  BME280_FILTER_COEFF_8 := 3
  BME280_FILTER_COEFF_16 := 4
  BME280_STANDBY_TIME_1_MS := 0
  BME280_STANDBY_TIME_62_5_MS := 1
  BME280_STANDBY_TIME_125_MS := 2
  BME280_STANDBY_TIME_500_MS := 4
  BME280_STANDBY_TIME_1000_MS := 5
  BME280_STANDBY_TIME_10_MS := 6
  BME280_STANDBY_TIME_20_MS := 7
  BME280_OSR_PRESS_SEL := 1
  BME280_OSR_TEMP_SEL := 2
  BME280_OSR_HUM_SEL := 4
  BME280_FILTER_SEL := 8
  BME280_STANDBY_SEL := 16

/-- One assignment of the constants of `ruuvi_sensor.h`: DSP functions as flag bits with
`LAST = 0`, modes numbered in order. -/
def sample_sensor_h : ruuvi_sensor_h where
  RUUVI_SENSOR_SAMPLERATE_STOP := 0
  RUUVI_SENSOR_SAMPLERATE_MIN := 252
  RUUVI_SENSOR_SAMPLERATE_MAX := 253
  RUUVI_SENSOR_DSP_LAST := 0
  RUUVI_SENSOR_DSP_LOW_PASS := 1
  RUUVI_SENSOR_DSP_HIGH_PASS := 2
  RUUVI_SENSOR_DSP_IIR := 4
  RUUVI_SENSOR_DSP_OS := 8
  RUUVI_SENSOR_MODE_SLEEP := 0
  RUUVI_SENSOR_MODE_SINGLE_ASYNCHRONOUS := 1
  RUUVI_SENSOR_MODE_SINGLE_BLOCKING := 2
  RUUVI_SENSOR_MODE_CONTINOUS := 3
  RUUVI_SENSOR_MODE_INVALID := 4

/-- One assignment of the sentinel codes of `ruuvi_driver_sensor.h`, all outside `1..200`. -/
def sample_driver_sensor_h : ruuvi_driver_sensor_h where
  RUUVI_DRIVER_SENSOR_CFG_MIN := 0xF0
  RUUVI_DRIVER_SENSOR_CFG_MAX := 0xF1
  RUUVI_DRIVER_SENSOR_CFG_CONTINUOUS := 0xF4
  RUUVI_DRIVER_SENSOR_CFG_DEFAULT := 0
  RUUVI_DRIVER_SENSOR_CFG_NO_CHANGE := 0xFF
  RUUVI_DRIVER_SENSOR_CFG_ON_DRDY := 0xF5
  RUUVI_DRIVER_SENSOR_CFG_ON_INTERRUPT := 0xF6
  RUUVI_DRIVER_SENSOR_CFG_SINGLE := 0xF3
  RUUVI_DRIVER_SENSOR_CFG_SLEEP := 0xF2
  RUUVI_DRIVER_SENSOR_ERR_NOT_SUPPORTED := 0xE2
  RUUVI_DRIVER_SENSOR_ERR_NOT_IMPLEMENTED := 0xE1
  RUUVI_DRIVER_SENSOR_ERR_INVALID := 0xE0

/-- A backend on which every call succeeds and that reports sleep mode and leaves the
settings as they are. -/
def ok_backend : Backend where
  rslt := fun _ _ => 0
  sensor_mode := fun _ => 0
  sensor_settings := fun _ s => s

/-- A backend whose every call reports a communication failure. -/
def failing_backend : Backend where
  rslt := fun _ _ => -4
  sensor_mode := fun _ => 0
  sensor_settings := fun _ s => s

/-- A world with arbitrary prior settings and an empty trace. -/
def sample_world : World where
  settings := { osr_p := 5, osr_t := 4, osr_h := 3, filter := 2, standby_time := 7 }
  trace := []

/-- One assignment of the DSP function constants of `ruuvi_driver_sensor.h`. -/
def sample_driver_sensor_dsp_h : ruuvi_driver_sensor_dsp_h where
  RUUVI_DRIVER_SENSOR_DSP_HIGH_PASS := 4
  RUUVI_DRIVER_SENSOR_DSP_IIR := 16
  RUUVI_DRIVER_SENSOR_DSP_LAST := 0
  RUUVI_DRIVER_SENSOR_DSP_LOW_PASS := 2
  RUUVI_DRIVER_SENSOR_DSP_OS := 8

/-- A backend on which every call succeeds and whose device keeps what was written: it
reports the mode of the last `bme280_set_sensor_mode` call (sleep when there was none) and
reads back the settings of the last `bme280_set_sensor_settings` call when that call is the
last one made. -/
def storing_backend : Backend where
  rslt := fun _ _ => 0
  sensor_mode := fun tr =>
    (tr.reverse.findSome? (fun c =>
      match c with
      | .bme280_set_sensor_mode m => some m
      | _ => none)).getD 0
  sensor_settings := fun tr s =>
    match tr.getLast? with
    | some (.bme280_set_sensor_settings _ written) => written
    | _ => s

/-- A backend whose self-test reports the code 2 (`BME280_W_SELF_TEST_FAIL` of the Bosch
driver) and whose other calls succeed. -/
def selftest_failing_backend : Backend where
  rslt := fun _ c =>
    match c with
    | .bme280_crc_selftest => 2
    | _ => 0
  sensor_mode := fun _ => 0
  sensor_settings := fun _ s => s

/-- A backend whose self-test reports a communication failure (-4) and whose other calls
succeed. -/
def selftest_comm_fail_backend : Backend where
  rslt := fun _ c =>
    match c with
    | .bme280_crc_selftest => -4
    | _ => 0
  sensor_mode := fun _ => 0
  sensor_settings := fun _ s => s

/-- A configuration snapshot: 50 Hz, default resolution, scale 4, oversampling x 16,
continuous mode (codes of the sample header). -/
def sample_configuration : ruuvi_driver_sensor_configuration_t where
  samplerate := 50
  resolution := 0
  scale := 4
  dsp_function := 8
  dsp_parameter := 16
  mode := 0xF4

/-! ## Lemmas: bit scan of the `for` loop -/

theorem and_one_shiftLeft_ne_zero (x ii : Nat) :
    x &&& (1 <<< ii) ≠ 0 ↔ x.testBit ii = true := by
  rw [Nat.one_shiftLeft]
  constructor
  · intro h
    by_contra hb
    apply h
    apply Nat.eq_of_testBit_eq
    intro j
    rw [Nat.testBit_and, Nat.testBit_two_pow, Nat.zero_testBit]
    by_cases hj : ii = j
    · subst hj; simp [hb]
    · simp [hj]
  · intro hb h
    have : (x &&& 2 ^ ii).testBit ii = true := by
      rw [Nat.testBit_and, Nat.testBit_two_pow_self, hb]; rfl
    rw [h] at this
    simp at this

theorem testBit_clear_bit (x ii j : Nat) (hii : ii < 32) :
    (x &&& (0xFFFFFFFF - (1 <<< ii))).testBit j
      = (x.testBit j && (decide (j < 32) && !decide (ii = j))) := by
  have h2 : (2:Nat) ^ ii < 2 ^ 32 := Nat.pow_lt_pow_right (by decide) hii
  have : (0xFFFFFFFF : Nat) - (1 <<< ii) = 2 ^ 32 - (2 ^ ii + 1) := by
    rw [Nat.one_shiftLeft]; omega
  rw [Nat.testBit_and, this, Nat.testBit_two_pow_sub_succ h2, Nat.testBit_two_pow]

theorem scan_fold (err eb : Nat) (herr : err < 2 ^ 32) (n : Nat) (hn : n ≤ 32) :
    (∀ j, ((List.range n).foldl scan_step (err, eb)).1.testBit j
        = (decide (n ≤ j) && err.testBit j)) ∧
    ((List.range n).foldl scan_step (err, eb)).2
        = if err % 2 ^ n = 0 then eb else 1 <<< Nat.log2 (err % 2 ^ n) := by
  induction n with
  | zero => simp [Nat.mod_one]
  | succ n ih =>
    obtain ⟨ih1, ih2⟩ := ih (by omega)
    rw [List.range_succ, List.foldl_append]
    generalize (List.range n).foldl scan_step (err, eb) = st at ih1 ih2
    simp only [List.foldl_cons, List.foldl_nil]
    have hmod : err % 2 ^ (n + 1) = err % 2 ^ n + 2 ^ n * (err / 2 ^ n % 2) :=
      Nat.mod_pow_succ
    have hlt : err % 2 ^ n < 2 ^ n := Nat.mod_lt _ (Nat.two_pow_pos n)
    by_cases hb : err.testBit n = true
    · have hst : st.1 &&& (1 <<< n) ≠ 0 := by
        rw [and_one_shiftLeft_ne_zero, ih1, hb]; simp
      have hd : err / 2 ^ n % 2 = 1 := by
        rw [Nat.testBit_to_div_mod] at hb; simpa using hb
      rw [scan_step, if_pos hst]
      refine ⟨fun j => ?_, ?_⟩
      · rw [testBit_clear_bit _ _ _ (by omega), ih1]
        by_cases hj : j < 32
        · by_cases hnj : n = j
          · subst hnj; simp
          · simp [hj, hnj]
            rcases Nat.lt_or_ge j n with h | h
            · simp [Nat.not_le.mpr h, Nat.not_le.mpr (Nat.lt_succ_of_lt h)]
            · have h1 : n + 1 ≤ j := by omega
              simp [h, h1]
        · have : err.testBit j = false :=
            Nat.testBit_lt_two_pow (Nat.lt_of_lt_of_le herr
              (Nat.pow_le_pow_right (by decide) (by omega)))
          simp [this]
      · have hne : err % 2 ^ (n + 1) ≠ 0 := by rw [hmod, hd]; omega
        rw [if_neg hne]
        have h1 : 2 ^ n ≤ err % 2 ^ (n + 1) := by rw [hmod, hd]; omega
        have h2 : err % 2 ^ (n + 1) < 2 ^ (n + 1) := Nat.mod_lt _ (Nat.two_pow_pos _)
        have hlog : Nat.log2 (err % 2 ^ (n + 1)) < n + 1 := (Nat.log2_lt hne).2 h2
        have hlog2 : ¬ Nat.log2 (err % 2 ^ (n + 1)) < n := by
          rw [Nat.log2_lt hne]; exact Nat.not_lt.mpr h1
        have hl : Nat.log2 (err % 2 ^ (n + 1)) = n := by omega
        rw [hl]
    · have hbf : err.testBit n = false := by simpa using hb
      have hst : ¬ st.1 &&& (1 <<< n) ≠ 0 := by
        rw [and_one_shiftLeft_ne_zero, ih1, hbf]; simp
      have hd : err / 2 ^ n % 2 = 0 := by
        rw [Nat.testBit_to_div_mod] at hbf
        have := Nat.mod_two_eq_zero_or_one (err / 2 ^ n)
        rcases this with h | h
        · exact h
        · simp [h] at hbf
      rw [scan_step, if_neg hst]
      refine ⟨fun j => ?_, ?_⟩
      · rw [ih1]
        by_cases hnj : n = j
        · subst hnj; simp [hbf]
        · rcases Nat.lt_or_ge j n with h | h
          · simp [Nat.not_le.mpr h, Nat.not_le.mpr (Nat.lt_succ_of_lt h)]
          · have h1 : n + 1 ≤ j := by omega
            simp [h, h1]
      · rw [ih2, hmod, hd]; simp

theorem scan_bits_eq (err eb : Nat) (h0 : err ≠ 0) (herr : err < 2 ^ 32) :
    scan_bits err eb = (0, 1 <<< Nat.log2 err) := by
  obtain ⟨h1, h2⟩ := scan_fold err eb herr 32 (Nat.le_refl _)
  have hz : ((List.range 32).foldl scan_step (err, eb)).1 = 0 := by
    apply Nat.eq_of_testBit_eq
    intro j
    rw [h1, Nat.zero_testBit]
    by_cases hj : 32 ≤ j
    · have : err.testBit j = false :=
        Nat.testBit_lt_two_pow (Nat.lt_of_lt_of_le herr (Nat.pow_le_pow_right (by decide) hj))
      simp [this]
    · simp [hj]
  rw [Nat.mod_eq_of_lt herr, if_neg h0] at h2
  unfold scan_bits
  exact Prod.ext hz h2

/-! ## Lemmas: one pass of `ruuvi_platform_error_to_string` -/

theorem snprintf_fits (mem : List Char) (off n : Nat) (t : List Char)
    (hn : t.length < n) (hm : off + (t.length + 1) ≤ mem.length) :
    snprintf mem off n t
      = .ok (mem.take off ++ (t ++ [NUL]) ++ mem.drop (off + (t.length + 1)), t.length) := by
  have h0 : n ≠ 0 := by omega
  have ht : t.take (n - 1) = t := List.take_of_length_le (by omega)
  simp [snprintf, poke, h0, ht, hm, Except.map]

theorem ite_some_prop {α : Type} (P : α → Prop) (c : Prop) [Decidable c] (a : α)
    (rest : Option α) (ha : P a) (hr : ∀ t, rest = some t → P t) :
    ∀ t, (if c then some a else rest) = some t → P t := by
  intro t h
  by_cases hc : c
  · rw [if_pos hc] at h; cases h; exact ha
  · rw [if_neg hc] at h; exact hr t h

theorem error_bit_name_length (e : ruuvi_driver_error_h) (eb : Nat) (t : List Char)
    (h : error_bit_name e eb = some t) : t.length ≤ 15 ∧ NUL ∉ t := by
  revert t
  unfold error_bit_name
  repeat refine ite_some_prop (fun (t : List Char) => t.length ≤ 15 ∧ NUL ∉ t) _ _ _ (by decide) ?_
  intro t h
  cases h

theorem highest_bit_text_length (e : ruuvi_driver_error_h) (error : Nat) :
    (highest_bit_text e error).length ≤ 15 ∧ NUL ∉ highest_bit_text e error := by
  unfold highest_bit_text
  cases h : error_bit_name e (if error = 0 then 0 else 1 <<< Nat.log2 error) with
  | none => simp only [Option.getD_none]; decide
  | some t => simpa using error_bit_name_length e _ t h

theorem size_sub_zero (a : Nat) (h : a < 2 ^ 32) : size_sub a 0 = a := by
  unfold size_sub
  omega

theorem render_pass_first (e : ruuvi_driver_error_h) (error : Nat) (mem : List Char)
    (space_remaining : Nat) (herr : error < 2 ^ 32) (hs : 16 ≤ space_remaining)
    (hm : space_remaining ≤ mem.length) (hsp : space_remaining < 2 ^ 32) :
    render_pass e space_remaining { error := error, error_bit := 0, written := 0, mem := mem }
      = .ok { error := 0,
              error_bit := if error = 0 then 0 else 1 <<< Nat.log2 error,
              written := (highest_bit_text e error).length,
              mem := highest_bit_text e error ++ [NUL]
                      ++ mem.drop ((highest_bit_text e error).length + 1) } := by
  have hbits : (if error ≠ 0 then scan_bits error 0 else (error, 0))
      = (0, if error = 0 then 0 else 1 <<< Nat.log2 error) := by
    by_cases h0 : error = 0
    · simp [h0]
    · simp [h0, scan_bits_eq error 0 h0 herr]
  obtain ⟨hlen, -⟩ := highest_bit_text_length e error
  have hfit := snprintf_fits mem 0 space_remaining (highest_bit_text e error)
    (by omega) (by omega)
  have hlen2 : (highest_bit_text e error).length % 2 ^ 32 = (highest_bit_text e error).length :=
    Nat.mod_eq_of_lt (by omega)
  unfold highest_bit_text at hfit hlen hlen2 ⊢
  simp only [render_pass, ne_eq, not_true_eq_false, if_false, hbits, size_sub_zero _ hsp]
  cases hn : error_bit_name e (if error = 0 then 0 else 1 <<< Nat.log2 error) with
  | none =>
    rw [hn] at hfit hlen hlen2
    simp only [Option.getD_none] at hfit hlen hlen2 ⊢
    rw [hfit]
    simp only [Except.map, hlen2, List.take_zero, List.nil_append, Nat.zero_add]
  | some t =>
    rw [hn] at hfit hlen hlen2
    simp only [Option.getD_some] at hfit hlen hlen2 ⊢
    rw [hfit]
    simp only [Except.map, size_add, hlen2, List.take_zero, List.nil_append, Nat.zero_add]

theorem error_to_string_eq (e : ruuvi_driver_error_h) (error : Nat) (mem : List Char)
    (space_remaining : Nat) (herr : error < 2 ^ 32) (hs : 16 ≤ space_remaining)
    (hm : space_remaining ≤ mem.length) (hsp : space_remaining < 2 ^ 32) :
    ruuvi_platform_error_to_string e error (some mem) space_remaining
      = .ok ((highest_bit_text e error).length,
             some (highest_bit_text e error ++ [NUL]
                    ++ mem.drop ((highest_bit_text e error).length + 1))) := by
  unfold ruuvi_platform_error_to_string
  simp [render_loop, render_pass_first e error mem space_remaining herr hs hm hsp, Except.map]

theorem c_str_append_nul (t rest : List Char) (h : NUL ∉ t) :
    c_str (t ++ [NUL] ++ rest) = t := by
  unfold c_str
  induction t with
  | nil => simp [List.takeWhile]
  | cons a t ih =>
    have ha : (a != NUL) = true := by
      simp only [bne_iff_ne, ne_eq]
      exact fun h1 => h (by simp [h1])
    have ht : NUL ∉ t := fun h1 => h (by simp [h1])
    have := ih ht
    simp only [List.append_assoc, List.cons_append, List.takeWhile_cons, ha, if_true] at this ⊢
    rw [this]

theorem one_shiftLeft_inj (a b : Nat) : (1 <<< a = 1 <<< b) ↔ a = b := by
  rw [Nat.one_shiftLeft, Nat.one_shiftLeft]
  exact ⟨fun h => Nat.pow_right_injective (Nat.le_refl 2) h, fun h => by rw [h]⟩

theorem one_shiftLeft_ne_zero (a : Nat) : 1 <<< a ≠ 0 := by
  rw [Nat.one_shiftLeft]
  exact Nat.ne_of_gt (Nat.two_pow_pos a)

theorem RUUVI_DRIVER_ERROR_inj (e : ruuvi_driver_error_h) (he : e.wf) (a b : ErrorKind) :
    (RUUVI_DRIVER_ERROR e a = RUUVI_DRIVER_ERROR e b) ↔ a = b := by
  unfold RUUVI_DRIVER_ERROR
  rw [one_shiftLeft_inj]
  exact ⟨fun h => he.2 h, fun h => by rw [h]⟩

theorem RUUVI_DRIVER_ERROR_ne_success (e : ruuvi_driver_error_h) (a : ErrorKind) :
    RUUVI_DRIVER_ERROR e a ≠ RUUVI_DRIVER_SUCCESS := one_shiftLeft_ne_zero _

theorem RUUVI_DRIVER_ERROR_lt (e : ruuvi_driver_error_h) (he : e.wf) (a : ErrorKind) :
    RUUVI_DRIVER_ERROR e a < 2 ^ 32 := by
  unfold RUUVI_DRIVER_ERROR
  rw [Nat.one_shiftLeft]
  exact Nat.pow_lt_pow_right (by decide) (he.1 a)

theorem error_bit_name_kind (e : ruuvi_driver_error_h) (he : e.wf) (k : ErrorKind) :
    error_bit_name e (RUUVI_DRIVER_ERROR e k)
      = if k = .INVALID_PARAM then none else some (kind_name k) := by
  unfold error_bit_name
  cases k <;>
    simp only [RUUVI_DRIVER_ERROR_inj e he, RUUVI_DRIVER_ERROR_ne_success, if_false, if_true,
      reduceCtorEq, kind_name]

theorem error_bit_name_unnamed (e : ruuvi_driver_error_h) (i : Nat)
    (h : ∀ k, e.bit k ≠ i) : error_bit_name e (1 <<< i) = none := by
  have h1 : ∀ k, ¬ (1 <<< i = RUUVI_DRIVER_ERROR e k) := by
    intro k hk
    unfold RUUVI_DRIVER_ERROR at hk
    exact h k ((one_shiftLeft_inj _ _).1 hk).symm
  have h0 : ¬ (1 <<< i = RUUVI_DRIVER_SUCCESS) := one_shiftLeft_ne_zero i
  unfold error_bit_name
  simp only [h1, h0, if_false]

theorem highest_bit_text_single (e : ruuvi_driver_error_h) (i : Nat) :
    highest_bit_text e (1 <<< i) = (error_bit_name e (1 <<< i)).getD "UNKNOWN".toList := by
  unfold highest_bit_text
  have hl : Nat.log2 (1 <<< i) = i := by rw [Nat.one_shiftLeft, Nat.log2_two_pow]
  rw [if_neg (one_shiftLeft_ne_zero i), hl]

theorem log2_or_shift (a b : Nat) (hab : a < b) : Nat.log2 (1 <<< a ||| 1 <<< b) = b := by
  rw [Nat.one_shiftLeft, Nat.one_shiftLeft]
  have hb : (2:Nat) ^ b ≤ 2 ^ a ||| 2 ^ b := by
    apply Nat.le_of_testBit
    intro i hi
    rw [Nat.testBit_or, hi, Bool.or_true]
  have hne : 2 ^ a ||| 2 ^ b ≠ 0 := by
    have := Nat.two_pow_pos b
    omega
  have hlt : 2 ^ a ||| 2 ^ b < 2 ^ (b + 1) :=
    Nat.or_lt_two_pow (Nat.pow_lt_pow_right (by decide) (by omega))
      (Nat.pow_lt_pow_right (by decide) (by omega))
  have h1 := (Nat.log2_lt hne).2 hlt
  have h2 := (Nat.le_log2 hne).2 hb
  omega

theorem kind_name_no_nul (k : ErrorKind) : NUL ∉ kind_name k := by
  cases k <;> decide


/-! ## Lemmas: `configuration_value_to_string` -/

theorem first_match_of_mem (v : Nat) (d : List Char) :
    ∀ (tbl : List (Nat × List Char)), (tbl.map Prod.fst).Nodup →
      ∀ p ∈ tbl, v = p.1 → first_match v tbl d = p.2
  | [], _, p, hp, _ => by cases hp
  | q :: rest, hn, p, hp, hv => by
    rw [List.map_cons, List.nodup_cons] at hn
    unfold first_match
    rcases List.mem_cons.1 hp with h | h
    · subst h; rw [if_pos hv]
    · have hne : v ≠ q.1 := by
        intro hq
        apply hn.1
        rw [← hq, hv]
        exact List.mem_map_of_mem Prod.fst h
      rw [if_neg hne]
      exact first_match_of_mem v d rest hn.2 p h hv

theorem first_match_of_not_mem (v : Nat) (d : List Char) :
    ∀ (tbl : List (Nat × List Char)), v ∉ tbl.map Prod.fst → first_match v tbl d = d
  | [], _ => rfl
  | q :: rest, h => by
    rw [List.map_cons, List.mem_cons, not_or] at h
    unfold first_match
    rw [if_neg h.1]
    exact first_match_of_not_mem v d rest h.2

theorem first_match_mem (v : Nat) (d : List Char) :
    ∀ (tbl : List (Nat × List Char)),
      first_match v tbl d ∈ tbl.map Prod.snd ∨ first_match v tbl d = d
  | [] => Or.inr rfl
  | q :: rest => by
    unfold first_match
    by_cases h : v = q.1
    · rw [if_pos h]; exact Or.inl (by simp)
    · rw [if_neg h]
      rcases first_match_mem v d rest with h1 | h1
      · exact Or.inl (by simp [h1])
      · exact Or.inr h1

theorem configuration_value_text_eq (s : ruuvi_driver_sensor_h) (v : Nat) :
    configuration_value_text s v
      = if v ≤ 200 ∧ v > 0 then fmt_d v
        else first_match v (sentinel_table s) "Unknown".toList := rfl

theorem sentinel_table_fst (s : ruuvi_driver_sensor_h) :
    (sentinel_table s).map Prod.fst = s.labels := rfl

theorem sentinel_table_snd (s : ruuvi_driver_sensor_h) :
    (sentinel_table s).map Prod.snd = sentinel_mnemonics := rfl

theorem sentinel_mnemonics_short :
    ∀ t ∈ "Unknown".toList :: sentinel_mnemonics, t.length ≤ 15 ∧ NUL ∉ t := by decide

set_option maxRecDepth 1000000 in
theorem fmt_d_band_repr : ∀ v, v < 201 → 1 ≤ v → fmt_d v = (Nat.repr v).toList := by decide

set_option maxRecDepth 1000000 in
theorem fmt_d_band_short : ∀ v, v < 201 → 1 ≤ v → (fmt_d v).length ≤ 3 ∧ NUL ∉ fmt_d v := by
  decide

set_option maxRecDepth 1000000 in
theorem fmt_d_band_digits : ∀ v, v < 201 → 1 ≤ v → ∀ c ∈ fmt_d v, c.isDigit = true := by
  decide

set_option maxRecDepth 1000000 in
theorem fmt_d_band_head : ∀ v, v < 201 → 1 ≤ v → (fmt_d v).head? ≠ some '0' := by decide

set_option maxRecDepth 1000000 in
theorem fmt_d_band_value : ∀ v, v < 201 → 1 ≤ v → decimal_value (fmt_d v) = v := by decide

set_option maxRecDepth 1000000 in
theorem fmt_d_band_no_mnemonic :
    ∀ v, v < 201 → 1 ≤ v → fmt_d v ∉ "Unknown".toList :: sentinel_mnemonics := by decide

theorem configuration_value_to_string_eq (s : ruuvi_driver_sensor_h) (v : Nat)
    (hlen : (configuration_value_text s v).length ≤ 16)
    (hnul : NUL ∉ configuration_value_text s v) :
    configuration_value_to_string s v = .ok (configuration_value_text s v) := by
  show Except.map _ (snprintf (List.replicate 17 NUL) 0 17 _) = _
  rw [snprintf_fits _ 0 17 _ (by omega) (by simp; omega)]
  simp only [Except.map, List.take_zero, List.nil_append]
  rw [c_str_append_nul _ _ hnul]

theorem configuration_value_text_band (s : ruuvi_driver_sensor_h) (v : Nat)
    (h1 : 1 ≤ v) (h2 : v ≤ 200) : configuration_value_text s v = fmt_d v := by
  rw [configuration_value_text_eq, if_pos ⟨h2, h1⟩]

theorem configuration_value_text_out (s : ruuvi_driver_sensor_h) (v : Nat)
    (h : ¬ (1 ≤ v ∧ v ≤ 200)) :
    configuration_value_text s v = first_match v (sentinel_table s) "Unknown".toList := by
  rw [configuration_value_text_eq, if_neg (fun hc => h ⟨hc.2, hc.1⟩)]

theorem first_match_short (s : ruuvi_driver_sensor_h) (v : Nat) :
    (first_match v (sentinel_table s) "Unknown".toList).length ≤ 15
      ∧ NUL ∉ first_match v (sentinel_table s) "Unknown".toList := by
  apply sentinel_mnemonics_short
  rcases first_match_mem v "Unknown".toList (sentinel_table s) with h | h
  · rw [sentinel_table_snd] at h
    exact List.mem_cons_of_mem _ h
  · rw [h]; exact List.mem_cons_self _ _


/-! ## Lemmas: the BME280 interface -/

theorem testBit_bnot32 (m i : Nat) :
    (bnot32 m).testBit i = (decide (i < 32) && !m.testBit i) := by
  have hm : m % 2 ^ 32 < 2 ^ 32 := Nat.mod_lt _ (Nat.two_pow_pos 32)
  have h : bnot32 m = 2 ^ 32 - (m % 2 ^ 32 + 1) := by unfold bnot32; omega
  rw [h, Nat.testBit_two_pow_sub_succ hm, Nat.testBit_mod_two_pow]
  by_cases hi : i < 32 <;> simp [hi]

theorem bnot32_and_ne_zero (m f : Nat) (hf : f < 2 ^ 32) :
    bnot32 m &&& f ≠ 0 ↔ ∃ i, f.testBit i = true ∧ m.testBit i = false := by
  constructor
  · intro h
    obtain ⟨i, hi⟩ := Nat.ne_zero_implies_bit_true h
    rw [Nat.testBit_and, testBit_bnot32] at hi
    simp only [Bool.and_eq_true, decide_eq_true_eq, Bool.not_eq_true'] at hi
    exact ⟨i, hi.2, hi.1.2⟩
  · rintro ⟨i, hfi, hmi⟩ h
    have hi : i < 32 := by
      by_contra hge
      have : f.testBit i = false :=
        Nat.testBit_lt_two_pow (Nat.lt_of_lt_of_le hf
          (Nat.pow_le_pow_right (by decide) (by omega)))
      rw [this] at hfi
      exact Bool.false_ne_true hfi
    have h1 : (bnot32 m &&& f).testBit i = true := by
      rw [Nat.testBit_and, testBit_bnot32, hfi, hmi]
      simp [hi]
    rw [h, Nat.zero_testBit] at h1
    exact Bool.false_ne_true h1

theorem bnot32_and_eq_zero (m f : Nat) (hf : f < 2 ^ 32) (hsub : f &&& m = f) :
    bnot32 m &&& f = 0 := by
  by_contra h
  obtain ⟨i, hfi, hmi⟩ := (bnot32_and_ne_zero m f hf).1 h
  have : (f &&& m).testBit i = true := by rw [hsub]; exact hfi
  rw [Nat.testBit_and, hmi, Bool.and_false] at this
  exact Bool.false_ne_true this

theorem or_mod_256 (a b : Nat) : (a % 256 ||| b) % 256 = (a ||| b) % 256 := by
  have h : (256 : Nat) = 2 ^ 8 := rfl
  rw [h]
  apply Nat.eq_of_testBit_eq
  intro i
  simp only [Nat.testBit_mod_two_pow, Nat.testBit_or]
  by_cases hi : i < 8 <;> simp [hi]

theorem settings_sel_eq (b : bme280_defs_h) :
    ((((0 ||| b.BME280_OSR_PRESS_SEL) % 256 ||| b.BME280_OSR_TEMP_SEL) % 256
        ||| b.BME280_OSR_HUM_SEL) % 256 ||| b.BME280_FILTER_SEL) % 256
      = dsp_settings_sel b := by
  unfold dsp_settings_sel
  have h : (256 : Nat) = 2 ^ 8 := rfl
  rw [h]
  apply Nat.eq_of_testBit_eq
  intro i
  simp only [Nat.testBit_mod_two_pow, Nat.testBit_or, Nat.zero_testBit]
  by_cases hi : i < 8 <;> simp [hi]

theorem write_settings_eq (e : ruuvi_driver_error_h) (b : bme280_defs_h) (bk : Backend)
    (sel : Nat) (w : World) :
    write_settings e b bk sel w = committed e b bk sel w.settings w := rfl

theorem dsp_wf_facts (r : ruuvi_sensor_h) (hr : r.dsp_wf) :
    r.RUUVI_SENSOR_DSP_IIR &&& (r.RUUVI_SENSOR_DSP_IIR ||| r.RUUVI_SENSOR_DSP_OS)
        = r.RUUVI_SENSOR_DSP_IIR
      ∧ r.RUUVI_SENSOR_DSP_OS &&& (r.RUUVI_SENSOR_DSP_IIR ||| r.RUUVI_SENSOR_DSP_OS)
        = r.RUUVI_SENSOR_DSP_OS
      ∧ r.RUUVI_SENSOR_DSP_OS &&& r.RUUVI_SENSOR_DSP_IIR = 0 := by
  obtain ⟨-, -, hd, -⟩ := hr
  refine ⟨?_, ?_, ?_⟩
  · rw [Nat.and_or_distrib_left, Nat.and_self, hd, Nat.or_zero]
  · rw [Nat.and_or_distrib_left, Nat.and_self, Nat.and_comm, hd, Nat.zero_or]
  · rw [Nat.and_comm, hd]

theorem iir_filter_eq (b : bme280_defs_h) (p : Nat) (hp : p ∈ [1, 2, 4, 8, 16]) :
    iir_filter b p = some (filter_code b p) := by
  simp only [List.mem_cons, List.mem_singleton, List.not_mem_nil, or_false] at hp
  rcases hp with h | h | h | h | h <;> subst h <;> rfl

theorem os_oversampling_eq (b : bme280_defs_h) (p : Nat) (hp : p ∈ [1, 2, 4, 8, 16]) :
    os_oversampling b p = some (oversampling_code b p) := by
  simp only [List.mem_cons, List.mem_singleton, List.not_mem_nil, or_false] at hp
  rcases hp with h | h | h | h | h <;> subst h <;> rfl

theorem dsp_set_accepted (e : ruuvi_driver_error_h) (r : ruuvi_sensor_h) (b : bme280_defs_h)
    (bk : Backend) (f p : Nat) (w : World) (hp : p ∈ [1, 2, 4, 8, 16])
    (hf : r.RUUVI_SENSOR_DSP_LAST ≠ f)
    (hmask : bnot32 (r.RUUVI_SENSOR_DSP_IIR ||| r.RUUVI_SENSOR_DSP_OS) &&& f = 0) :
    bme280_interface_dsp_set e r b bk f p w
      = committed e b bk (dsp_settings_sel b)
          (dsp_settings w.settings
            (if r.RUUVI_SENSOR_DSP_IIR &&& f ≠ 0 then filter_code b p
              else b.BME280_FILTER_COEFF_OFF)
            (if r.RUUVI_SENSOR_DSP_OS &&& f ≠ 0 then oversampling_code b p
              else b.BME280_OVERSAMPLING_1X)) w := by
  have hp1 : ¬ (1 ≠ p ∧ 2 ≠ p ∧ 4 ≠ p ∧ 8 ≠ p ∧ 16 ≠ p ∧ r.RUUVI_SENSOR_DSP_LAST ≠ f) := by
    simp only [List.mem_cons, List.mem_singleton, List.not_mem_nil, or_false] at hp
    omega
  unfold bme280_interface_dsp_set
  rw [if_neg hp1, if_neg (fun h => h.2 hmask), if_neg hf, settings_sel_eq]
  simp only [iir_filter_eq b p hp, os_oversampling_eq b p hp, Option.map_some',
    write_settings_eq]
  by_cases hi : r.RUUVI_SENSOR_DSP_IIR &&& f ≠ 0
  · by_cases ho : r.RUUVI_SENSOR_DSP_OS &&& f ≠ 0
    · simp only [if_pos hi, if_pos ho]; rfl
    · simp only [if_pos hi, if_neg ho]; rfl
  · by_cases ho : r.RUUVI_SENSOR_DSP_OS &&& f ≠ 0
    · simp only [if_neg hi, if_pos ho]; rfl
    · simp only [if_neg hi, if_neg ho]; rfl


/-! ## Lemmas: the concrete headers are well formed -/

theorem sample_error_h_wf : sample_error_h.wf := by
  refine ⟨fun k => by cases k <;> decide, fun a b h => ?_⟩
  cases a <;> cases b <;> first | rfl | (exact absurd h (by decide))

theorem sample_driver_sensor_h_wf : sample_driver_sensor_h.wf := by
  unfold ruuvi_driver_sensor_h.wf
  decide

theorem sample_sensor_h_dsp_wf : sample_sensor_h.dsp_wf := by
  unfold ruuvi_sensor_h.dsp_wf
  decide

theorem sample_sensor_h_modes_wf : sample_sensor_h.modes_wf := by
  unfold ruuvi_sensor_h.modes_wf
  decide


/-! ## Claims -/

/-- C1 (the code departs from the claim): a backend result code that is none of
device-not-found, null-pointer, communication-failure and OK is translated to
`RUUVI_DRIVER_SUCCESS`; it is never translated to the INTERNAL bit. -/
theorem BME_TO_RUUVI_ERROR_unlisted_code (e : ruuvi_driver_error_h) (b : bme280_defs_h)
    (rslt : Int) (h1 : b.BME280_E_DEV_NOT_FOUND ≠ rslt) (h2 : b.BME280_E_NULL_PTR ≠ rslt)
    (h3 : b.BME280_E_COMM_FAIL ≠ rslt) (h4 : b.BME280_OK ≠ rslt) :
    BME_TO_RUUVI_ERROR e b rslt = RUUVI_DRIVER_SUCCESS
      ∧ BME_TO_RUUVI_ERROR e b rslt ≠ RUUVI_DRIVER_ERROR e .INTERNAL := by
  have h : BME_TO_RUUVI_ERROR e b rslt = RUUVI_DRIVER_SUCCESS := by
    simp only [BME_TO_RUUVI_ERROR, h1, h2, h3, h4, if_false]
  rw [h]
  exact ⟨rfl, (RUUVI_DRIVER_ERROR_ne_success e .INTERNAL).symm⟩

/-- C1 at the Bosch code `BME280_E_INVALID_LEN = -3`. -/
theorem BME_TO_RUUVI_ERROR_unlisted_code_witness :
    BME_TO_RUUVI_ERROR sample_error_h sample_bme280_defs_h (-3) = RUUVI_DRIVER_SUCCESS
      ∧ BME_TO_RUUVI_ERROR sample_error_h sample_bme280_defs_h (-3)
          ≠ RUUVI_DRIVER_ERROR sample_error_h .INTERNAL :=
  BME_TO_RUUVI_ERROR_unlisted_code sample_error_h sample_bme280_defs_h (-3)
    (by decide) (by decide) (by decide) (by decide)

/-- C2 (the code departs from the claim): with a buffer of at least 16 bytes, rendering
`BUSY | NULL` stores one name only, that of the kind with the higher bit position, and returns
its length 4; the other name and the separator are not stored. -/
theorem error_to_string_busy_null_one_name (e : ruuvi_driver_error_h) (he : e.wf)
    (mem : List Char) (space_remaining : Nat) (hs : 16 ≤ space_remaining)
    (hm : space_remaining ≤ mem.length) (hsp : space_remaining < 2 ^ 32) :
    ruuvi_platform_error_to_string e
        (RUUVI_DRIVER_ERROR e .BUSY ||| RUUVI_DRIVER_ERROR e .NULL) (some mem) space_remaining
      = .ok (4, some (stored
          (if e.bit .NULL < e.bit .BUSY then "BUSY".toList else "NULL".toList) mem))
    ∧ c_str (stored (if e.bit .NULL < e.bit .BUSY then "BUSY".toList else "NULL".toList) mem)
      = (if e.bit .NULL < e.bit .BUSY then "BUSY".toList else "NULL".toList) := by
  have hlt : RUUVI_DRIVER_ERROR e .BUSY ||| RUUVI_DRIVER_ERROR e .NULL < 2 ^ 32 :=
    Nat.or_lt_two_pow (RUUVI_DRIVER_ERROR_lt e he _) (RUUVI_DRIVER_ERROR_lt e he _)
  have hne : RUUVI_DRIVER_ERROR e .BUSY ||| RUUVI_DRIVER_ERROR e .NULL ≠ 0 := by
    intro h
    have h1 : (RUUVI_DRIVER_ERROR e .BUSY ||| RUUVI_DRIVER_ERROR e .NULL).testBit
        (e.bit .BUSY) = true := by
      rw [Nat.testBit_or]
      unfold RUUVI_DRIVER_ERROR
      rw [Nat.one_shiftLeft, Nat.testBit_two_pow_self, Bool.true_or]
    rw [h, Nat.zero_testBit] at h1
    exact Bool.false_ne_true h1
  have hdiff : e.bit .NULL ≠ e.bit .BUSY := fun h => by
    have := he.2 h
    exact absurd this (by decide)
  have htext : highest_bit_text e (RUUVI_DRIVER_ERROR e .BUSY ||| RUUVI_DRIVER_ERROR e .NULL)
      = (if e.bit .NULL < e.bit .BUSY then "BUSY".toList else "NULL".toList) := by
    unfold highest_bit_text
    rw [if_neg hne]
    by_cases h : e.bit .NULL < e.bit .BUSY
    · have hl : Nat.log2 (RUUVI_DRIVER_ERROR e .BUSY ||| RUUVI_DRIVER_ERROR e .NULL)
          = e.bit .BUSY := by
        rw [Nat.or_comm]
        exact log2_or_shift _ _ h
      have hk := error_bit_name_kind e he .BUSY
      unfold RUUVI_DRIVER_ERROR at hk
      rw [hl, hk, if_pos h]
      rfl
    · have h2 : e.bit .BUSY < e.bit .NULL := by omega
      have hl : Nat.log2 (RUUVI_DRIVER_ERROR e .BUSY ||| RUUVI_DRIVER_ERROR e .NULL)
          = e.bit .NULL := log2_or_shift _ _ h2
      have hk := error_bit_name_kind e he .NULL
      unfold RUUVI_DRIVER_ERROR at hk
      rw [hl, hk, if_neg h]
      rfl
  have hrun := error_to_string_eq e _ mem space_remaining hlt hs hm hsp
  rw [htext] at hrun
  constructor
  · rw [hrun]
    by_cases h : e.bit .NULL < e.bit .BUSY
    · simp only [if_pos h, stored]; rfl
    · simp only [if_neg h, stored]; rfl
  · unfold stored
    apply c_str_append_nul
    by_cases h : e.bit .NULL < e.bit .BUSY
    · rw [if_pos h]; decide
    · rw [if_neg h]; decide

set_option maxRecDepth 100000 in
/-- C2 at the sample header (BUSY is bit 14, NULL bit 11) and a 64-byte buffer: the call
returns 4 and the buffer holds `BUSY` alone. -/
theorem error_to_string_busy_null_one_name_witness :
    ruuvi_platform_error_to_string sample_error_h
        (RUUVI_DRIVER_ERROR sample_error_h .BUSY ||| RUUVI_DRIVER_ERROR sample_error_h .NULL)
        (some (List.replicate 64 'x')) 64
      = .ok (4, some (stored "BUSY".toList (List.replicate 64 'x')))
    ∧ c_str (stored "BUSY".toList (List.replicate 64 'x')) = "BUSY".toList :=
  error_to_string_busy_null_one_name sample_error_h sample_error_h_wf
    (List.replicate 64 'x') 64 (by decide) (by decide) (by decide)

/-- C3 (the code departs from the claim at INVALID_PARAM): with a buffer of at least 16
bytes, a Status that is the single bit of a kind other than INVALID_PARAM is rendered as
exactly that kind's name; the single bit of INVALID_PARAM, which has no case label, is
rendered as `UNKNOWN`; Status 0 is rendered as `SUCCESS`; a single bit that belongs to no
kind is rendered as `UNKNOWN`. -/
theorem error_to_string_single_kind (e : ruuvi_driver_error_h) (he : e.wf)
    (mem : List Char) (space_remaining : Nat) (hs : 16 ≤ space_remaining)
    (hm : space_remaining ≤ mem.length) (hsp : space_remaining < 2 ^ 32) :
    (∀ k, k ≠ ErrorKind.INVALID_PARAM →
      ruuvi_platform_error_to_string e (RUUVI_DRIVER_ERROR e k) (some mem) space_remaining
          = .ok ((kind_name k).length, some (stored (kind_name k) mem))
        ∧ c_str (stored (kind_name k) mem) = kind_name k)
    ∧ (ruuvi_platform_error_to_string e (RUUVI_DRIVER_ERROR e .INVALID_PARAM) (some mem)
          space_remaining = .ok (7, some (stored "UNKNOWN".toList mem))
        ∧ c_str (stored "UNKNOWN".toList mem) = "UNKNOWN".toList)
    ∧ (ruuvi_platform_error_to_string e RUUVI_DRIVER_SUCCESS (some mem) space_remaining
          = .ok (7, some (stored "SUCCESS".toList mem))
        ∧ c_str (stored "SUCCESS".toList mem) = "SUCCESS".toList)
    ∧ (∀ i, i < 32 → (∀ k, e.bit k ≠ i) →
        ruuvi_platform_error_to_string e (1 <<< i) (some mem) space_remaining
          = .ok (7, some (stored "UNKNOWN".toList mem))) := by
  refine ⟨fun k hk => ⟨?_, c_str_append_nul _ _ (kind_name_no_nul k)⟩,
    ⟨?_, c_str_append_nul _ _ (by decide)⟩, ⟨?_, c_str_append_nul _ _ (by decide)⟩,
    fun i hi hk => ?_⟩
  · have hrun := error_to_string_eq e _ mem space_remaining
      (RUUVI_DRIVER_ERROR_lt e he k) hs hm hsp
    have ht : highest_bit_text e (RUUVI_DRIVER_ERROR e k) = kind_name k := by
      unfold RUUVI_DRIVER_ERROR
      rw [highest_bit_text_single]
      have := error_bit_name_kind e he k
      unfold RUUVI_DRIVER_ERROR at this
      rw [this, if_neg hk]
      rfl
    rw [ht] at hrun
    exact hrun
  · have hrun := error_to_string_eq e _ mem space_remaining
      (RUUVI_DRIVER_ERROR_lt e he .INVALID_PARAM) hs hm hsp
    have ht : highest_bit_text e (RUUVI_DRIVER_ERROR e .INVALID_PARAM) = "UNKNOWN".toList := by
      unfold RUUVI_DRIVER_ERROR
      rw [highest_bit_text_single]
      have := error_bit_name_kind e he .INVALID_PARAM
      unfold RUUVI_DRIVER_ERROR at this
      rw [this, if_pos rfl]
      rfl
    rw [ht] at hrun
    exact hrun
  · have hrun := error_to_string_eq e RUUVI_DRIVER_SUCCESS mem space_remaining
      (by decide) hs hm hsp
    have ht : highest_bit_text e RUUVI_DRIVER_SUCCESS = "SUCCESS".toList := by
      unfold highest_bit_text error_bit_name
      rfl
    rw [ht] at hrun
    exact hrun
  · have hrun := error_to_string_eq e (1 <<< i) mem space_remaining
      (by rw [Nat.one_shiftLeft]; exact Nat.pow_lt_pow_right (by decide) hi) hs hm hsp
    have ht : highest_bit_text e (1 <<< i) = "UNKNOWN".toList := by
      rw [highest_bit_text_single, error_bit_name_unnamed e i hk]
      rfl
    rw [ht] at hrun
    exact hrun

/-- C3 at the sample header and a 64-byte buffer; in particular INVALID_PARAM (bit 4) is
rendered as `UNKNOWN`. -/
theorem error_to_string_single_kind_witness :
    (∀ k, k ≠ ErrorKind.INVALID_PARAM →
      ruuvi_platform_error_to_string sample_error_h (RUUVI_DRIVER_ERROR sample_error_h k)
          (some (List.replicate 64 'x')) 64
          = .ok ((kind_name k).length, some (stored (kind_name k) (List.replicate 64 'x')))
        ∧ c_str (stored (kind_name k) (List.replicate 64 'x')) = kind_name k)
    ∧ (ruuvi_platform_error_to_string sample_error_h
          (RUUVI_DRIVER_ERROR sample_error_h .INVALID_PARAM) (some (List.replicate 64 'x')) 64
          = .ok (7, some (stored "UNKNOWN".toList (List.replicate 64 'x')))
        ∧ c_str (stored "UNKNOWN".toList (List.replicate 64 'x')) = "UNKNOWN".toList)
    ∧ (ruuvi_platform_error_to_string sample_error_h RUUVI_DRIVER_SUCCESS
          (some (List.replicate 64 'x')) 64
          = .ok (7, some (stored "SUCCESS".toList (List.replicate 64 'x')))
        ∧ c_str (stored "SUCCESS".toList (List.replicate 64 'x')) = "SUCCESS".toList)
    ∧ (∀ i, i < 32 → (∀ k, sample_error_h.bit k ≠ i) →
        ruuvi_platform_error_to_string sample_error_h (1 <<< i)
          (some (List.replicate 64 'x')) 64
          = .ok (7, some (stored "UNKNOWN".toList (List.replicate 64 'x')))) :=
  error_to_string_single_kind sample_error_h sample_error_h_wf (List.replicate 64 'x') 64
    (by decide) (by decide) (by decide)

/-- C4: for every configuration value `v` with `1 <= v <= 200` the text returned is the
decimal numeral of `v`: it equals the standard numeral, consists of digits only, does not
start with `0`, denotes `v`, and is none of the sentinel mnemonics nor `Unknown`. -/
theorem configuration_value_to_string_literal (s : ruuvi_driver_sensor_h) (v : Nat)
    (h1 : 1 ≤ v) (h2 : v ≤ 200) :
    configuration_value_to_string s v = .ok (Nat.repr v).toList
      ∧ (∀ c ∈ (Nat.repr v).toList, c.isDigit = true)
      ∧ (Nat.repr v).toList.head? ≠ some '0'
      ∧ decimal_value (Nat.repr v).toList = v
      ∧ (Nat.repr v).toList ∉ "Unknown".toList :: sentinel_mnemonics := by
  have hv : v < 201 := by omega
  have hr := fmt_d_band_repr v hv h1
  have hsh := fmt_d_band_short v hv h1
  have ht := configuration_value_text_band s v h1 h2
  have hrun := configuration_value_to_string_eq s v (by rw [ht]; omega) (by rw [ht]; exact hsh.2)
  rw [ht, hr] at hrun
  rw [← hr]
  exact ⟨by rw [hr]; exact hrun, fmt_d_band_digits v hv h1, fmt_d_band_head v hv h1,
    fmt_d_band_value v hv h1, fmt_d_band_no_mnemonic v hv h1⟩

/-- C4 at `v = 137` with the sample header. -/
theorem configuration_value_to_string_literal_witness :
    configuration_value_to_string sample_driver_sensor_h 137 = .ok (Nat.repr 137).toList
      ∧ (∀ c ∈ (Nat.repr 137).toList, c.isDigit = true)
      ∧ (Nat.repr 137).toList.head? ≠ some '0'
      ∧ decimal_value (Nat.repr 137).toList = 137
      ∧ (Nat.repr 137).toList ∉ "Unknown".toList :: sentinel_mnemonics :=
  configuration_value_to_string_literal sample_driver_sensor_h 137 (by decide) (by decide)

/-- C5: for every 8-bit value `v` outside `1..200`, a value equal to a sentinel code is
rendered as that sentinel's mnemonic and a value equal to none of them as `Unknown`; for each
of the 256 values the call returns the chosen text whole, which has at most 16 characters
and is a mnemonic, `Unknown`, or the numeral of a value in `1..200`. -/
theorem configuration_value_to_string_sentinel (s : ruuvi_driver_sensor_h) (hs : s.wf)
    (v : Nat) (hv : v < 256) :
    (¬ (1 ≤ v ∧ v ≤ 200) →
      (∀ p ∈ sentinel_table s, v = p.1 → configuration_value_to_string s v = .ok p.2)
      ∧ (v ∉ s.labels → configuration_value_to_string s v = .ok "Unknown".toList))
    ∧ (∃ t, configuration_value_to_string s v = .ok t
        ∧ t = configuration_value_text s v ∧ t.length ≤ 16
        ∧ (t ∈ sentinel_mnemonics ∨ t = "Unknown".toList
            ∨ (1 ≤ v ∧ v ≤ 200 ∧ t = (Nat.repr v).toList))) := by
  have hout : ¬ (1 ≤ v ∧ v ≤ 200) →
      configuration_value_to_string s v
        = .ok (first_match v (sentinel_table s) "Unknown".toList) := by
    intro h
    have ht := configuration_value_text_out s v h
    have hsh := first_match_short s v
    have hrun := configuration_value_to_string_eq s v (by rw [ht]; omega) (by rw [ht]; exact hsh.2)
    rw [ht] at hrun
    exact hrun
  refine ⟨fun h => ⟨fun p hp hvp => ?_, fun hn => ?_⟩, ?_⟩
  · rw [hout h, first_match_of_mem v _ (sentinel_table s) (by rw [sentinel_table_fst]; exact hs)
      p hp hvp]
  · rw [hout h, first_match_of_not_mem v _ (sentinel_table s)
      (by rw [sentinel_table_fst]; exact hn)]
  · by_cases h : 1 ≤ v ∧ v ≤ 200
    · have hlit := configuration_value_to_string_eq s v
        (by rw [configuration_value_text_band s v h.1 h.2]
            have := (fmt_d_band_short v (by omega) h.1).1
            omega)
        (by rw [configuration_value_text_band s v h.1 h.2]
            exact (fmt_d_band_short v (by omega) h.1).2)
      refine ⟨_, hlit, rfl, ?_, Or.inr (Or.inr ⟨h.1, h.2, ?_⟩)⟩
      · rw [configuration_value_text_band s v h.1 h.2]
        have := (fmt_d_band_short v (by omega) h.1).1
        omega
      · rw [configuration_value_text_band s v h.1 h.2]
        exact fmt_d_band_repr v (by omega) h.1
    · have ht := configuration_value_text_out s v h
      refine ⟨_, hout h, ht.symm, ?_, ?_⟩
      · have := (first_match_short s v).1
        omega
      · rcases first_match_mem v "Unknown".toList (sentinel_table s) with h1 | h1
        · rw [sentinel_table_snd] at h1
          exact Or.inl h1
        · exact Or.inr (Or.inl h1)

/-- C5 at the sample header: `0xF0`, its code for MIN, is rendered as `MIN`, and `0xD0`,
which is no label, as `Unknown`. -/
theorem configuration_value_to_string_sentinel_witness :
    configuration_value_to_string sample_driver_sensor_h 0xF0 = .ok "MIN".toList
      ∧ configuration_value_to_string sample_driver_sensor_h 0xD0 = .ok "Unknown".toList :=
  ⟨((configuration_value_to_string_sentinel sample_driver_sensor_h sample_driver_sensor_h_wf
      0xF0 (by decide)).1 (by decide)).1 (0xF0, "MIN".toList) (List.mem_cons_self _ _) rfl,
   ((configuration_value_to_string_sentinel sample_driver_sensor_h sample_driver_sensor_h_wf
      0xD0 (by decide)).1 (by decide)).2 (by decide)⟩

/-- C6: for every DSP function other than LAST and every parameter outside
`{1, 2, 4, 8, 16}`, `bme280_interface_dsp_set` returns NOT_SUPPORTED and leaves the world as
it was: the settings are unchanged and no call is added to the trace. -/
theorem dsp_set_rejects_parameter (e : ruuvi_driver_error_h) (r : ruuvi_sensor_h)
    (b : bme280_defs_h) (bk : Backend) (f p : Nat) (w : World)
    (hf : f ≠ r.RUUVI_SENSOR_DSP_LAST) (hp : p ∉ [1, 2, 4, 8, 16]) :
    bme280_interface_dsp_set e r b bk f p w = (RUUVI_DRIVER_ERROR e .NOT_SUPPORTED, w) := by
  simp only [List.mem_cons, List.mem_singleton, List.not_mem_nil, or_false, not_or] at hp
  obtain ⟨h1, h2, h4, h8, h16⟩ := hp
  unfold bme280_interface_dsp_set
  rw [if_pos ⟨Ne.symm h1, Ne.symm h2, Ne.symm h4, Ne.symm h8, Ne.symm h16, Ne.symm hf⟩]

/-- C6 at `set_dsp(OS, 3)` with the sample headers: NOT_SUPPORTED, world unchanged. -/
theorem dsp_set_rejects_parameter_witness :
    bme280_interface_dsp_set sample_error_h sample_sensor_h sample_bme280_defs_h ok_backend
        sample_sensor_h.RUUVI_SENSOR_DSP_OS 3 sample_world
      = (RUUVI_DRIVER_ERROR sample_error_h .NOT_SUPPORTED, sample_world) :=
  dsp_set_rejects_parameter sample_error_h sample_sensor_h sample_bme280_defs_h ok_backend
    sample_sensor_h.RUUVI_SENSOR_DSP_OS 3 sample_world (by decide) (by decide)

/-- C7: for every 32-bit DSP function value that is not LAST and has a bit set that is not
a bit of `IIR | OS`, and every parameter, `bme280_interface_dsp_set` returns NOT_SUPPORTED
and leaves the world as it was: the settings are unchanged and no call is added to the
trace. -/
theorem dsp_set_rejects_function (e : ruuvi_driver_error_h) (r : ruuvi_sensor_h)
    (b : bme280_defs_h) (bk : Backend) (f p : Nat) (w : World)
    (hf : f ≠ r.RUUVI_SENSOR_DSP_LAST) (h32 : f < 2 ^ 32)
    (hbit : ∃ i, f.testBit i = true
      ∧ (r.RUUVI_SENSOR_DSP_IIR ||| r.RUUVI_SENSOR_DSP_OS).testBit i = false) :
    bme280_interface_dsp_set e r b bk f p w = (RUUVI_DRIVER_ERROR e .NOT_SUPPORTED, w) := by
  have hmask := (bnot32_and_ne_zero _ f h32).2 hbit
  unfold bme280_interface_dsp_set
  split
  · rfl
  · rw [if_pos ⟨Ne.symm hf, hmask⟩]

/-- C7 at `IIR | LOW_PASS` (bit 0 is outside `IIR | OS`) with parameter 4 and the sample
headers. -/
theorem dsp_set_rejects_function_witness :
    bme280_interface_dsp_set sample_error_h sample_sensor_h sample_bme280_defs_h ok_backend
        (sample_sensor_h.RUUVI_SENSOR_DSP_IIR ||| sample_sensor_h.RUUVI_SENSOR_DSP_LOW_PASS)
        4 sample_world
      = (RUUVI_DRIVER_ERROR sample_error_h .NOT_SUPPORTED, sample_world) :=
  dsp_set_rejects_function sample_error_h sample_sensor_h sample_bme280_defs_h ok_backend
    (sample_sensor_h.RUUVI_SENSOR_DSP_IIR ||| sample_sensor_h.RUUVI_SENSOR_DSP_LOW_PASS)
    4 sample_world (by decide) (by decide) ⟨0, by decide, by decide⟩

/-- C8: for every prior world and every parameter, `bme280_interface_dsp_set(LAST, p)`
sets the filter to off and the three oversampling settings to 1x, commits them with exactly
one `bme280_set_sensor_settings` call selecting pressure, temperature, humidity and filter,
and returns the translation of that call's result; the outcome is the same for every
other parameter `q`. -/
theorem dsp_set_last (e : ruuvi_driver_error_h) (r : ruuvi_sensor_h) (b : bme280_defs_h)
    (bk : Backend) (p : Nat) (w : World) :
    bme280_interface_dsp_set e r b bk r.RUUVI_SENSOR_DSP_LAST p w
        = committed e b bk (dsp_settings_sel b)
            (dsp_settings w.settings b.BME280_FILTER_COEFF_OFF b.BME280_OVERSAMPLING_1X) w
    ∧ ∀ q, bme280_interface_dsp_set e r b bk r.RUUVI_SENSOR_DSP_LAST q w
        = bme280_interface_dsp_set e r b bk r.RUUVI_SENSOR_DSP_LAST p w := by
  have h : ∀ q, bme280_interface_dsp_set e r b bk r.RUUVI_SENSOR_DSP_LAST q w
      = committed e b bk (dsp_settings_sel b)
          (dsp_settings w.settings b.BME280_FILTER_COEFF_OFF b.BME280_OVERSAMPLING_1X) w := by
    intro q
    unfold bme280_interface_dsp_set
    rw [if_neg (fun h => h.2.2.2.2.2 rfl), if_neg (fun h => h.1 rfl), if_pos rfl,
      settings_sel_eq, write_settings_eq]
    rfl
  exact ⟨h p, fun q => by rw [h q, h p]⟩

/-- C9: for `f` one of `IIR`, `OS`, `IIR | OS` and `p` one of 1, 2, 4, 8, 16, whatever the
prior settings, `bme280_interface_dsp_set(f, p)` ends with filter = the filter code of `p`
if IIR is in `f` and off otherwise, and all three oversampling settings = the oversampling
code of `p` if OS is in `f` and 1x otherwise; both mappings are in place when the single
`bme280_set_sensor_settings` call is made, and its translated result is returned. -/
theorem dsp_set_iir_os (e : ruuvi_driver_error_h) (r : ruuvi_sensor_h) (hr : r.dsp_wf)
    (b : bme280_defs_h) (bk : Backend) (p : Nat) (w : World) (hp : p ∈ [1, 2, 4, 8, 16]) :
    bme280_interface_dsp_set e r b bk r.RUUVI_SENSOR_DSP_IIR p w
        = committed e b bk (dsp_settings_sel b)
            (dsp_settings w.settings (filter_code b p) b.BME280_OVERSAMPLING_1X) w
    ∧ bme280_interface_dsp_set e r b bk r.RUUVI_SENSOR_DSP_OS p w
        = committed e b bk (dsp_settings_sel b)
            (dsp_settings w.settings b.BME280_FILTER_COEFF_OFF (oversampling_code b p)) w
    ∧ bme280_interface_dsp_set e r b bk
          (r.RUUVI_SENSOR_DSP_IIR ||| r.RUUVI_SENSOR_DSP_OS) p w
        = committed e b bk (dsp_settings_sel b)
            (dsp_settings w.settings (filter_code b p) (oversampling_code b p)) w := by
  obtain ⟨h1, h2, h3⟩ := dsp_wf_facts r hr
  obtain ⟨hi0, ho0, hd, hi32, ho32, hl1, hl2, hl3⟩ := hr
  have hio32 : r.RUUVI_SENSOR_DSP_IIR ||| r.RUUVI_SENSOR_DSP_OS < 2 ^ 32 :=
    Nat.or_lt_two_pow hi32 ho32
  refine ⟨?_, ?_, ?_⟩
  · rw [dsp_set_accepted e r b bk _ p w hp hl1 (bnot32_and_eq_zero _ _ hi32 h1)]
    rw [Nat.and_self, h3, if_pos hi0, if_neg (fun h => h rfl)]
  · rw [dsp_set_accepted e r b bk _ p w hp hl2 (bnot32_and_eq_zero _ _ ho32 h2)]
    rw [Nat.and_self, hd, if_pos ho0, if_neg (fun h => h rfl)]
  · rw [dsp_set_accepted e r b bk _ p w hp hl3
      (bnot32_and_eq_zero _ _ hio32 (Nat.and_self _))]
    rw [h1, h2, if_pos hi0, if_pos ho0]

/-- C9 at `IIR | OS` with parameter 8 on the sample headers, from the sample world: one
call with selection mask 15, filter code 3 (coefficient 8), oversampling code 4 (8x) on all
channels, standby time kept, Status 0. -/
theorem dsp_set_iir_os_witness :
    bme280_interface_dsp_set sample_error_h sample_sensor_h sample_bme280_defs_h ok_backend
        (sample_sensor_h.RUUVI_SENSOR_DSP_IIR ||| sample_sensor_h.RUUVI_SENSOR_DSP_OS) 8
        sample_world
      = (0, { settings := { osr_p := 4, osr_t := 4, osr_h := 4, filter := 3,
                            standby_time := 7 },
              trace := [.bme280_set_sensor_settings 15
                { osr_p := 4, osr_t := 4, osr_h := 4, filter := 3, standby_time := 7 }] }) :=
  (dsp_set_iir_os sample_error_h sample_sensor_h sample_sensor_h_dsp_wf sample_bme280_defs_h
    ok_backend 8 sample_world (by decide)).2.2

/-- C10: `bme280_interface_mode_set` issues exactly one `bme280_set_sensor_mode` call with
the sleep code for SLEEP, the forced code for SINGLE_ASYNCHRONOUS and the normal code for
CONTINUOUS and returns the translated result; SINGLE_BLOCKING issues the forced code and
then one 100 ms delay; every other input, INVALID included, returns INVALID_PARAM with the
world unchanged.  The settings are never touched. -/
theorem mode_set_table (e : ruuvi_driver_error_h) (r : ruuvi_sensor_h) (hr : r.modes_wf)
    (b : bme280_defs_h) (bk : Backend) (w : World) :
    bme280_interface_mode_set e r b bk r.RUUVI_SENSOR_MODE_SLEEP w
        = (BME_TO_RUUVI_ERROR e b
              (bk.rslt w.trace (.bme280_set_sensor_mode b.BME280_SLEEP_MODE)),
            { w with trace := w.trace ++ [.bme280_set_sensor_mode b.BME280_SLEEP_MODE] })
    ∧ bme280_interface_mode_set e r b bk r.RUUVI_SENSOR_MODE_SINGLE_ASYNCHRONOUS w
        = (BME_TO_RUUVI_ERROR e b
              (bk.rslt w.trace (.bme280_set_sensor_mode b.BME280_FORCED_MODE)),
            { w with trace := w.trace ++ [.bme280_set_sensor_mode b.BME280_FORCED_MODE] })
    ∧ bme280_interface_mode_set e r b bk r.RUUVI_SENSOR_MODE_SINGLE_BLOCKING w
        = (BME_TO_RUUVI_ERROR e b
              (bk.rslt w.trace (.bme280_set_sensor_mode b.BME280_FORCED_MODE)),
            { w with trace := w.trace ++ [.bme280_set_sensor_mode b.BME280_FORCED_MODE,
                                           .ruuvi_platform_delay_ms 100] })
    ∧ bme280_interface_mode_set e r b bk r.RUUVI_SENSOR_MODE_CONTINOUS w
        = (BME_TO_RUUVI_ERROR e b
              (bk.rslt w.trace (.bme280_set_sensor_mode b.BME280_NORMAL_MODE)),
            { w with trace := w.trace ++ [.bme280_set_sensor_mode b.BME280_NORMAL_MODE] })
    ∧ (∀ m, m ∉ [r.RUUVI_SENSOR_MODE_SLEEP, r.RUUVI_SENSOR_MODE_SINGLE_ASYNCHRONOUS,
                  r.RUUVI_SENSOR_MODE_SINGLE_BLOCKING, r.RUUVI_SENSOR_MODE_CONTINOUS] →
        bme280_interface_mode_set e r b bk m w = (RUUVI_DRIVER_ERROR e .INVALID_PARAM, w))
    ∧ bme280_interface_mode_set e r b bk r.RUUVI_SENSOR_MODE_INVALID w
        = (RUUVI_DRIVER_ERROR e .INVALID_PARAM, w) := by
  simp only [ruuvi_sensor_h.modes_wf, List.nodup_cons, List.mem_cons, List.mem_singleton,
    not_or, List.not_mem_nil, not_false_eq_true, List.nodup_nil, and_true] at hr
  obtain ⟨⟨h12, h13, h14, h15⟩, ⟨h23, h24, h25⟩, ⟨h34, h35⟩, h45⟩ := hr
  have hother : ∀ m, m ∉ [r.RUUVI_SENSOR_MODE_SLEEP, r.RUUVI_SENSOR_MODE_SINGLE_ASYNCHRONOUS,
      r.RUUVI_SENSOR_MODE_SINGLE_BLOCKING, r.RUUVI_SENSOR_MODE_CONTINOUS] →
      bme280_interface_mode_set e r b bk m w = (RUUVI_DRIVER_ERROR e .INVALID_PARAM, w) := by
    intro m hm
    simp only [List.mem_cons, List.mem_singleton, List.not_mem_nil, or_false, not_or] at hm
    unfold bme280_interface_mode_set
    rw [if_neg hm.1, if_neg hm.2.1, if_neg hm.2.2.1, if_neg hm.2.2.2]
  refine ⟨?_, ?_, ?_, ?_, hother, ?_⟩
  · unfold bme280_interface_mode_set
    rw [if_pos rfl]
    rfl
  · unfold bme280_interface_mode_set
    rw [if_neg (Ne.symm h12), if_pos rfl]
    rfl
  · unfold bme280_interface_mode_set
    rw [if_neg (Ne.symm h13), if_neg (Ne.symm h23), if_pos rfl]
    simp [write_mode, World.call]
  · unfold bme280_interface_mode_set
    rw [if_neg (Ne.symm h14), if_neg (Ne.symm h24), if_neg (Ne.symm h34), if_pos rfl]
    rfl
  · apply hother
    simp only [List.mem_cons, List.mem_singleton, List.not_mem_nil, or_false, not_or]
    exact ⟨Ne.symm h15, Ne.symm h25, Ne.symm h35, Ne.symm h45⟩

/-- C10 at SINGLE_BLOCKING on the sample headers with a backend that reports a
communication failure: the forced-mode call, then the 100 ms delay, Status BUSY. -/
theorem mode_set_table_witness :
    bme280_interface_mode_set sample_error_h sample_sensor_h sample_bme280_defs_h
        failing_backend sample_sensor_h.RUUVI_SENSOR_MODE_SINGLE_BLOCKING sample_world
      = (RUUVI_DRIVER_ERROR sample_error_h .BUSY,
          { sample_world with
            trace := [.bme280_set_sensor_mode 1, .ruuvi_platform_delay_ms 100] }) :=
  (mode_set_table sample_error_h sample_sensor_h sample_sensor_h_modes_wf
    sample_bme280_defs_h failing_backend sample_world).2.2.1

/-! ## Further properties -/

/-- The four backend codes that `BME_TO_RUUVI_ERROR` names, when pairwise different, are
translated as the table says: device-not-found to NOT_FOUND, null-pointer to NULL,
communication-failure to BUSY and OK to SUCCESS. -/
theorem BME_TO_RUUVI_ERROR_listed_codes (e : ruuvi_driver_error_h) (b : bme280_defs_h)
    (hd : [b.BME280_E_DEV_NOT_FOUND, b.BME280_E_NULL_PTR, b.BME280_E_COMM_FAIL,
            b.BME280_OK].Nodup) :
    BME_TO_RUUVI_ERROR e b b.BME280_E_DEV_NOT_FOUND = RUUVI_DRIVER_ERROR e .NOT_FOUND
      ∧ BME_TO_RUUVI_ERROR e b b.BME280_E_NULL_PTR = RUUVI_DRIVER_ERROR e .NULL
      ∧ BME_TO_RUUVI_ERROR e b b.BME280_E_COMM_FAIL = RUUVI_DRIVER_ERROR e .BUSY
      ∧ BME_TO_RUUVI_ERROR e b b.BME280_OK = RUUVI_DRIVER_SUCCESS := by
  simp only [List.nodup_cons, List.mem_cons, List.mem_singleton, not_or, List.not_mem_nil,
    not_false_eq_true, List.nodup_nil, and_true] at hd
  obtain ⟨⟨h12, h13, h14⟩, ⟨h23, h24⟩, h34⟩ := hd
  refine ⟨?_, ?_, ?_, ?_⟩
  · simp only [BME_TO_RUUVI_ERROR, if_true]
  · simp only [BME_TO_RUUVI_ERROR, h12, if_true, if_false]
  · simp only [BME_TO_RUUVI_ERROR, h13, h23, if_true, if_false]
  · simp only [BME_TO_RUUVI_ERROR, h14, h24, h34, if_true, if_false]

/-- The listed codes of the Bosch driver (-2, -1, -4, 0) on the sample header. -/
theorem BME_TO_RUUVI_ERROR_listed_codes_witness :
    BME_TO_RUUVI_ERROR sample_error_h sample_bme280_defs_h (-2)
        = RUUVI_DRIVER_ERROR sample_error_h .NOT_FOUND
      ∧ BME_TO_RUUVI_ERROR sample_error_h sample_bme280_defs_h (-1)
        = RUUVI_DRIVER_ERROR sample_error_h .NULL
      ∧ BME_TO_RUUVI_ERROR sample_error_h sample_bme280_defs_h (-4)
        = RUUVI_DRIVER_ERROR sample_error_h .BUSY
      ∧ BME_TO_RUUVI_ERROR sample_error_h sample_bme280_defs_h 0 = RUUVI_DRIVER_SUCCESS :=
  BME_TO_RUUVI_ERROR_listed_codes sample_error_h sample_bme280_defs_h (by decide)

/-- For every 32-bit Status and every buffer of at least 16 bytes,
`ruuvi_platform_error_to_string` returns after a single pass of its `do ... while` loop
having stored exactly one text, the one selected for the highest set bit of the Status
(`SUCCESS` for 0), and returns the length of that text. -/
theorem error_to_string_highest_bit_only (e : ruuvi_driver_error_h) (error : Nat)
    (mem : List Char) (space_remaining : Nat) (herr : error < 2 ^ 32)
    (hs : 16 ≤ space_remaining) (hm : space_remaining ≤ mem.length)
    (hsp : space_remaining < 2 ^ 32) :
    ruuvi_platform_error_to_string e error (some mem) space_remaining
        = .ok ((highest_bit_text e error).length, some (stored (highest_bit_text e error) mem))
      ∧ c_str (stored (highest_bit_text e error) mem) = highest_bit_text e error
      ∧ (render_loop e space_remaining 33
            { error := error, error_bit := 0, written := 0, mem := mem }).map Prod.snd
          = .ok 1 := by
  refine ⟨error_to_string_eq e error mem space_remaining herr hs hm hsp,
    c_str_append_nul _ _ (highest_bit_text_length e error).2, ?_⟩
  simp [render_loop, render_pass_first e error mem space_remaining herr hs hm hsp, Except.map]

set_option maxRecDepth 100000 in
/-- All 18 bits with a case label set at once (`0x8003EFEF` on the sample header): only
`FATAL`, the highest, is stored. -/
theorem error_to_string_highest_bit_only_witness :
    ruuvi_platform_error_to_string sample_error_h 0x8003EFEF (some (List.replicate 64 'x')) 64
      = .ok (5, some (stored "FATAL".toList (List.replicate 64 'x'))) :=
    by
  have h := (error_to_string_highest_bit_only sample_error_h 0x8003EFEF
    (List.replicate 64 'x') 64 (by decide) (by decide) (by decide) (by decide)).1
  have h1 := (Nat.le_log2 (n := 0x8003EFEF) (k := 31) (by decide)).2 (by decide)
  have h2 := (Nat.log2_lt (n := 0x8003EFEF) (k := 32) (by decide)).2 (by decide)
  have hl : Nat.log2 0x8003EFEF = 31 := by omega
  have ht : highest_bit_text sample_error_h 0x8003EFEF = "FATAL".toList := by
    unfold highest_bit_text
    rw [if_neg (by decide), hl]
    decide
  rw [ht] at h
  exact h

/-! ## Lemmas: modes and sample rates -/

theorem BME_TO_RUUVI_ERROR_ok (e : ruuvi_driver_error_h) (b : bme280_defs_h)
    (hc : b.codes_wf) : BME_TO_RUUVI_ERROR e b b.BME280_OK = RUUVI_DRIVER_SUCCESS := by
  simp only [bme280_defs_h.codes_wf, List.nodup_cons, List.mem_cons, List.mem_singleton,
    not_or, List.not_mem_nil, not_false_eq_true, List.nodup_nil, and_true] at hc
  obtain ⟨⟨-, -, h14⟩, ⟨-, h24⟩, h34⟩ := hc
  simp only [BME_TO_RUUVI_ERROR, h14, h24, h34, if_true, if_false]

theorem calls_since_append (w : World) (l : List Call) (s : bme280_settings) :
    calls_since w.trace.length { settings := s, trace := w.trace ++ l } = l := by
  simp [calls_since]

theorem mode_set_calls (e : ruuvi_driver_error_h) (r : ruuvi_sensor_h) (b : bme280_defs_h)
    (bk : Backend) (m : Nat) (w : World) :
    calls_since w.trace.length (bme280_interface_mode_set e r b bk m w).2
      = if m = r.RUUVI_SENSOR_MODE_SLEEP then [.bme280_set_sensor_mode b.BME280_SLEEP_MODE]
        else if m = r.RUUVI_SENSOR_MODE_SINGLE_ASYNCHRONOUS then
          [.bme280_set_sensor_mode b.BME280_FORCED_MODE]
        else if m = r.RUUVI_SENSOR_MODE_SINGLE_BLOCKING then
          [.bme280_set_sensor_mode b.BME280_FORCED_MODE, .ruuvi_platform_delay_ms 100]
        else if m = r.RUUVI_SENSOR_MODE_CONTINOUS then
          [.bme280_set_sensor_mode b.BME280_NORMAL_MODE]
        else [] := by
  unfold bme280_interface_mode_set
  split_ifs <;> simp [calls_since, write_mode, World.call]

theorem mode_get_table (e : ruuvi_driver_error_h) (r : ruuvi_sensor_h) (b : bme280_defs_h)
    (bk : Backend) (w : World) (hb : b.modes_wf) (hc : b.codes_wf)
    (hok : bk.rslt w.trace .bme280_get_sensor_mode = b.BME280_OK) :
    bme280_interface_mode_get e r b bk w
      = (RUUVI_DRIVER_SUCCESS,
          (if bk.sensor_mode w.trace = b.BME280_SLEEP_MODE then r.RUUVI_SENSOR_MODE_SLEEP
            else if bk.sensor_mode w.trace = b.BME280_FORCED_MODE then
              r.RUUVI_SENSOR_MODE_SINGLE_ASYNCHRONOUS
            else if bk.sensor_mode w.trace = b.BME280_NORMAL_MODE then
              r.RUUVI_SENSOR_MODE_CONTINOUS
            else r.RUUVI_SENSOR_MODE_INVALID),
          { w with trace := w.trace ++ [.bme280_get_sensor_mode] }) := by
  have := hb
  simp only [bme280_interface_mode_get, World.call, hok, BME_TO_RUUVI_ERROR_ok e b hc]

theorem sample_bme280_defs_h_wf :
    sample_bme280_defs_h.codes_wf ∧ sample_bme280_defs_h.modes_wf
      ∧ sample_bme280_defs_h.standby_wf := by
  unfold bme280_defs_h.codes_wf bme280_defs_h.modes_wf bme280_defs_h.standby_wf
  decide

set_option maxRecDepth 1000000 in
theorem least_nominal_rate_eq : ∀ rate, rate < 201 →
    least_nominal_rate rate
      = (if rate ≤ 1 then 1 else if rate ≤ 2 then 2 else if rate ≤ 8 then 8
          else if rate ≤ 16 then 16 else if rate ≤ 50 then 50
          else if rate ≤ 100 then 100 else 200) := by
  decide

set_option maxRecDepth 1000000 in
theorem least_nominal_rate_spec : ∀ rate, rate < 201 →
    least_nominal_rate rate ∈ nominal_rates ∧ rate ≤ least_nominal_rate rate
      ∧ (∀ n ∈ nominal_rates, rate ≤ n → least_nominal_rate rate ≤ n) := by
  decide

theorem least_nominal_rate_nominal : ∀ n ∈ nominal_rates, least_nominal_rate n = n := by
  decide

theorem samplerate_standby_literal (r : ruuvi_sensor_h) (b : bme280_defs_h) (rate : Nat)
    (h1 : 1 ≤ rate) (h2 : rate ≤ 200) :
    samplerate_standby r b rate = some (standby_of_rate b (least_nominal_rate rate)) := by
  rw [least_nominal_rate_eq rate (by omega)]
  unfold samplerate_standby
  by_cases c1 : rate = 1
  · subst c1; rfl
  by_cases c2 : rate = 2
  · subst c2; rfl
  rw [if_neg c1, if_neg c2, if_neg (by omega : ¬ rate ≤ 1), if_neg (by omega : ¬ rate ≤ 2)]
  by_cases c3 : rate ≤ 8
  · rw [if_pos c3, if_pos c3]; rfl
  rw [if_neg c3, if_neg c3]
  by_cases c4 : rate ≤ 16
  · rw [if_pos c4, if_pos c4]; rfl
  rw [if_neg c4, if_neg c4]
  by_cases c5 : rate ≤ 50
  · rw [if_pos c5, if_pos c5]; rfl
  rw [if_neg c5, if_neg c5]
  by_cases c6 : rate ≤ 100
  · rw [if_pos c6, if_pos c6]; rfl
  rw [if_neg c6, if_neg c6, if_pos h2]; rfl

theorem samplerate_standby_out (r : ruuvi_sensor_h) (b : bme280_defs_h) (rate : Nat)
    (h : 200 < rate) :
    samplerate_standby r b rate
      = if r.RUUVI_SENSOR_SAMPLERATE_MIN = rate then some b.BME280_STANDBY_TIME_1000_MS
        else if r.RUUVI_SENSOR_SAMPLERATE_MAX = rate then some b.BME280_STANDBY_TIME_1_MS
        else none := by
  unfold samplerate_standby
  rw [if_neg (by omega), if_neg (by omega), if_neg (by omega), if_neg (by omega),
    if_neg (by omega), if_neg (by omega), if_neg (by omega)]

theorem samplerate_set_some (e : ruuvi_driver_error_h) (r : ruuvi_sensor_h)
    (b : bme280_defs_h) (bk : Backend) (rate standby : Nat) (w : World)
    (hstop : r.RUUVI_SENSOR_SAMPLERATE_STOP ≠ rate)
    (h : samplerate_standby r b rate = some standby) :
    bme280_interface_samplerate_set e r b bk rate w
      = committed e b bk b.BME280_STANDBY_SEL
          { w.settings with standby_time := standby } w := by
  unfold bme280_interface_samplerate_set
  rw [if_neg hstop, h]
  rfl

theorem samplerate_get_nominal (e : ruuvi_driver_error_h) (b : bme280_defs_h)
    (hb : b.standby_wf) (bk : Backend) (old : Nat) (w : World) (n : Nat)
    (hn : n ∈ nominal_rates)
    (hread : (bk.sensor_settings w.trace w.settings).standby_time = standby_of_rate b n) :
    (bme280_interface_samplerate_get e b bk old w).2.1 = n := by
  simp only [bme280_defs_h.standby_wf, List.nodup_cons, List.mem_cons, List.mem_singleton,
    not_or, List.not_mem_nil, not_false_eq_true, List.nodup_nil, and_true] at hb
  obtain ⟨⟨a2, a3, a4, a5, a6, a7⟩, ⟨b3, b4, b5, b6, b7⟩, ⟨c4, c5, c6, c7⟩, ⟨d5, d6, d7⟩,
    ⟨e6, e7⟩, f7⟩ := hb
  simp only [bme280_interface_samplerate_get, hread]
  simp only [nominal_rates, List.mem_cons, List.mem_singleton, List.not_mem_nil,
    or_false] at hn
  rcases hn with h | h | h | h | h | h | h <;> subst h <;>
    simp only [standby_of_rate, if_true, if_false, a2, a3, a4, a5, a6, a7, b3, b4, b5, b6, b7,
      c4, c5, c6, c7, d5, d6, d7, e6, e7, f7]

theorem committed_read_standby (e : ruuvi_driver_error_h) (b : bme280_defs_h) (bk : Backend)
    (hs : bk.stores_standby b) (s : bme280_settings) (w : World) :
    (bk.sensor_settings (committed e b bk b.BME280_STANDBY_SEL s w).2.trace
        (committed e b bk b.BME280_STANDBY_SEL s w).2.settings).standby_time
      = s.standby_time := hs w.trace s s

theorem sample_sensor_h_samplerate_wf : sample_sensor_h.samplerate_wf := by
  unfold ruuvi_sensor_h.samplerate_wf
  decide

theorem storing_backend_stores_standby (b : bme280_defs_h) :
    storing_backend.stores_standby b := by
  intro tr written current
  simp [storing_backend]

theorem BME_TO_RUUVI_ERROR_cases (e : ruuvi_driver_error_h) (b : bme280_defs_h) (rslt : Int) :
    BME_TO_RUUVI_ERROR e b rslt = RUUVI_DRIVER_ERROR e .NOT_FOUND
      ∨ BME_TO_RUUVI_ERROR e b rslt = RUUVI_DRIVER_ERROR e .NULL
      ∨ BME_TO_RUUVI_ERROR e b rslt = RUUVI_DRIVER_ERROR e .BUSY
      ∨ BME_TO_RUUVI_ERROR e b rslt = RUUVI_DRIVER_SUCCESS := by
  unfold BME_TO_RUUVI_ERROR
  split_ifs <;> simp

theorem BME_TO_RUUVI_ERROR_ne_not_supported (e : ruuvi_driver_error_h) (he : e.wf)
    (b : bme280_defs_h) (rslt : Int) :
    BME_TO_RUUVI_ERROR e b rslt ≠ RUUVI_DRIVER_ERROR e .NOT_SUPPORTED := by
  intro h
  rcases BME_TO_RUUVI_ERROR_cases e b rslt with h1 | h1 | h1 | h1 <;> rw [h1] at h
  · exact absurd ((RUUVI_DRIVER_ERROR_inj e he _ _).1 h) (by decide)
  · exact absurd ((RUUVI_DRIVER_ERROR_inj e he _ _).1 h) (by decide)
  · exact absurd ((RUUVI_DRIVER_ERROR_inj e he _ _).1 h) (by decide)
  · exact RUUVI_DRIVER_ERROR_ne_success e _ h.symm

/-! ## Claims on modes and sample rates -/

/-- C11: when the backend read succeeds, `bme280_interface_mode_get` returns SUCCESS with
SLEEP for the sleep code, SINGLE_ASYNCHRONOUS for the forced code, CONTINUOUS for the normal
code and INVALID for any other code; and when the code reported is the one a call of
`bme280_interface_mode_set(m)` wrote, the mode returned is `m` for SLEEP,
SINGLE_ASYNCHRONOUS and CONTINUOUS, and SINGLE_ASYNCHRONOUS for SINGLE_BLOCKING. -/
theorem mode_get_inverse (e : ruuvi_driver_error_h) (r : ruuvi_sensor_h) (hr : r.modes_wf)
    (b : bme280_defs_h) (hb : b.modes_wf) (hc : b.codes_wf) (bk : Backend) (w : World)
    (hok : bk.rslt w.trace .bme280_get_sensor_mode = b.BME280_OK) :
    (bk.sensor_mode w.trace = b.BME280_SLEEP_MODE →
      bme280_interface_mode_get e r b bk w
        = (RUUVI_DRIVER_SUCCESS, r.RUUVI_SENSOR_MODE_SLEEP,
            { w with trace := w.trace ++ [.bme280_get_sensor_mode] }))
    ∧ (bk.sensor_mode w.trace = b.BME280_FORCED_MODE →
      bme280_interface_mode_get e r b bk w
        = (RUUVI_DRIVER_SUCCESS, r.RUUVI_SENSOR_MODE_SINGLE_ASYNCHRONOUS,
            { w with trace := w.trace ++ [.bme280_get_sensor_mode] }))
    ∧ (bk.sensor_mode w.trace = b.BME280_NORMAL_MODE →
      bme280_interface_mode_get e r b bk w
        = (RUUVI_DRIVER_SUCCESS, r.RUUVI_SENSOR_MODE_CONTINOUS,
            { w with trace := w.trace ++ [.bme280_get_sensor_mode] }))
    ∧ (bk.sensor_mode w.trace ∉
          [b.BME280_SLEEP_MODE, b.BME280_FORCED_MODE, b.BME280_NORMAL_MODE] →
      bme280_interface_mode_get e r b bk w
        = (RUUVI_DRIVER_SUCCESS, r.RUUVI_SENSOR_MODE_INVALID,
            { w with trace := w.trace ++ [.bme280_get_sensor_mode] }))
    ∧ (∀ (m : Nat) (w0 : World) (bk0 : Backend),
        Call.bme280_set_sensor_mode (bk.sensor_mode w.trace)
            ∈ calls_since w0.trace.length (bme280_interface_mode_set e r b bk0 m w0).2 →
        bme280_interface_mode_get e r b bk w
          = (RUUVI_DRIVER_SUCCESS,
              (if m = r.RUUVI_SENSOR_MODE_SINGLE_BLOCKING then
                r.RUUVI_SENSOR_MODE_SINGLE_ASYNCHRONOUS else m),
              { w with trace := w.trace ++ [.bme280_get_sensor_mode] })) := by
  have ht := mode_get_table e r b bk w hb hc hok
  simp only [bme280_defs_h.modes_wf, List.nodup_cons, List.mem_cons, List.mem_singleton,
    not_or, List.not_mem_nil, not_false_eq_true, List.nodup_nil, and_true] at hb
  obtain ⟨⟨b12, b13⟩, b23⟩ := hb
  simp only [ruuvi_sensor_h.modes_wf, List.nodup_cons, List.mem_cons, List.mem_singleton,
    not_or, List.not_mem_nil, not_false_eq_true, List.nodup_nil, and_true] at hr
  obtain ⟨⟨h12, h13, h14, h15⟩, ⟨h23, h24, h25⟩, ⟨h34, h35⟩, h45⟩ := hr
  have hA : bk.sensor_mode w.trace = b.BME280_SLEEP_MODE →
      bme280_interface_mode_get e r b bk w
        = (RUUVI_DRIVER_SUCCESS, r.RUUVI_SENSOR_MODE_SLEEP,
            { w with trace := w.trace ++ [.bme280_get_sensor_mode] }) := by
    intro h; rw [ht, if_pos h]
  have hB : bk.sensor_mode w.trace = b.BME280_FORCED_MODE →
      bme280_interface_mode_get e r b bk w
        = (RUUVI_DRIVER_SUCCESS, r.RUUVI_SENSOR_MODE_SINGLE_ASYNCHRONOUS,
            { w with trace := w.trace ++ [.bme280_get_sensor_mode] }) := by
    intro h; rw [ht, if_neg (by rw [h]; exact Ne.symm b12), if_pos h]
  have hC : bk.sensor_mode w.trace = b.BME280_NORMAL_MODE →
      bme280_interface_mode_get e r b bk w
        = (RUUVI_DRIVER_SUCCESS, r.RUUVI_SENSOR_MODE_CONTINOUS,
            { w with trace := w.trace ++ [.bme280_get_sensor_mode] }) := by
    intro h
    rw [ht, if_neg (by rw [h]; exact Ne.symm b13), if_neg (by rw [h]; exact Ne.symm b23),
      if_pos h]
  refine ⟨hA, hB, hC, ?_, ?_⟩
  · intro h
    simp only [List.mem_cons, List.mem_singleton, List.not_mem_nil, or_false, not_or] at h
    rw [ht, if_neg h.1, if_neg h.2.1, if_neg h.2.2]
  · intro m w0 bk0 hmem
    rw [mode_set_calls] at hmem
    by_cases m1 : m = r.RUUVI_SENSOR_MODE_SLEEP
    · rw [if_pos m1] at hmem
      simp only [List.mem_singleton, Call.bme280_set_sensor_mode.injEq] at hmem
      rw [hA hmem, if_neg (by rw [m1]; exact h13), m1]
    · rw [if_neg m1] at hmem
      by_cases m2 : m = r.RUUVI_SENSOR_MODE_SINGLE_ASYNCHRONOUS
      · rw [if_pos m2] at hmem
        simp only [List.mem_singleton, Call.bme280_set_sensor_mode.injEq] at hmem
        rw [hB hmem, if_neg (by rw [m2]; exact h23), m2]
      · rw [if_neg m2] at hmem
        by_cases m3 : m = r.RUUVI_SENSOR_MODE_SINGLE_BLOCKING
        · rw [if_pos m3] at hmem
          simp only [List.mem_cons, List.mem_singleton, Call.bme280_set_sensor_mode.injEq,
            reduceCtorEq, List.not_mem_nil, or_false] at hmem
          rw [hB hmem, if_pos m3]
        · rw [if_neg m3] at hmem
          by_cases m4 : m = r.RUUVI_SENSOR_MODE_CONTINOUS
          · rw [if_pos m4] at hmem
            simp only [List.mem_singleton, Call.bme280_set_sensor_mode.injEq] at hmem
            rw [hC hmem, if_neg m3, m4]
          · rw [if_neg m4] at hmem
            cases hmem

/-- C11 after `bme280_interface_mode_set(SINGLE_BLOCKING)` on the storing sample backend:
the forced code is read back and SINGLE_ASYNCHRONOUS (1) is returned with SUCCESS. -/
theorem mode_get_inverse_witness :
    bme280_interface_mode_get sample_error_h sample_sensor_h sample_bme280_defs_h
        storing_backend
        (bme280_interface_mode_set sample_error_h sample_sensor_h sample_bme280_defs_h
          storing_backend sample_sensor_h.RUUVI_SENSOR_MODE_SINGLE_BLOCKING sample_world).2
      = (RUUVI_DRIVER_SUCCESS, sample_sensor_h.RUUVI_SENSOR_MODE_SINGLE_ASYNCHRONOUS,
          { sample_world with
            trace := [.bme280_set_sensor_mode 1, .ruuvi_platform_delay_ms 100,
                      .bme280_get_sensor_mode] }) :=
  (mode_get_inverse sample_error_h sample_sensor_h sample_sensor_h_modes_wf
    sample_bme280_defs_h sample_bme280_defs_h_wf.2.1 sample_bme280_defs_h_wf.1
    storing_backend
    (bme280_interface_mode_set sample_error_h sample_sensor_h sample_bme280_defs_h
      storing_backend sample_sensor_h.RUUVI_SENSOR_MODE_SINGLE_BLOCKING sample_world).2
    rfl).2.2.2.2 sample_sensor_h.RUUVI_SENSOR_MODE_SINGLE_BLOCKING sample_world
    storing_backend (by decide)

/-- C12: for every literal sample rate `rate` with `1 <= rate <= 200`,
`bme280_interface_samplerate_set` commits, with one backend write selecting the standby
time, the tier whose nominal rate is the least of 1, 2, 8, 16, 50, 100, 200 Hz that is at
least `rate` (for a nominal rate, that rate itself); and on a backend that stores the
setting `bme280_interface_samplerate_get` after the set returns that nominal rate. -/
theorem samplerate_set_literal (e : ruuvi_driver_error_h) (r : ruuvi_sensor_h)
    (hr : r.samplerate_wf) (b : bme280_defs_h) (hb : b.standby_wf) (bk : Backend)
    (rate : Nat) (w : World) (h1 : 1 ≤ rate) (h2 : rate ≤ 200) :
    bme280_interface_samplerate_set e r b bk rate w
        = committed e b bk b.BME280_STANDBY_SEL
            { w.settings with standby_time := standby_of_rate b (least_nominal_rate rate) } w
    ∧ least_nominal_rate rate ∈ nominal_rates ∧ rate ≤ least_nominal_rate rate
    ∧ (∀ n ∈ nominal_rates, rate ≤ n → least_nominal_rate rate ≤ n)
    ∧ (rate ∈ nominal_rates → least_nominal_rate rate = rate)
    ∧ (bk.stores_standby b → ∀ old,
        (bme280_interface_samplerate_get e b bk old
          (bme280_interface_samplerate_set e r b bk rate w).2).2.1
          = least_nominal_rate rate) := by
  have hstop : r.RUUVI_SENSOR_SAMPLERATE_STOP ≠ rate := by rw [hr.1]; omega
  have hset := samplerate_set_some e r b bk rate _ w hstop
    (samplerate_standby_literal r b rate h1 h2)
  obtain ⟨hmem, hle, hleast⟩ := least_nominal_rate_spec rate (by omega)
  refine ⟨hset, hmem, hle, hleast, least_nominal_rate_nominal rate, fun hs old => ?_⟩
  rw [hset]
  exact samplerate_get_nominal e b hb bk old _ _ hmem (committed_read_standby e b bk hs _ w)

/-- C12 at rate 3 on the sample headers and the storing sample backend: the 125 ms tier
(code 2) is committed with one write and read back as 8 Hz. -/
theorem samplerate_set_literal_witness :
    bme280_interface_samplerate_set sample_error_h sample_sensor_h sample_bme280_defs_h
        storing_backend 3 sample_world
      = (0, { settings := { sample_world.settings with standby_time := 2 },
              trace := [.bme280_set_sensor_settings 16
                { sample_world.settings with standby_time := 2 }] })
    ∧ (bme280_interface_samplerate_get sample_error_h sample_bme280_defs_h storing_backend 77
        (bme280_interface_samplerate_set sample_error_h sample_sensor_h sample_bme280_defs_h
          storing_backend 3 sample_world).2).2.1 = 8 :=
  ⟨(samplerate_set_literal sample_error_h sample_sensor_h sample_sensor_h_samplerate_wf
      sample_bme280_defs_h sample_bme280_defs_h_wf.2.2 storing_backend 3 sample_world
      (by decide) (by decide)).1,
   (samplerate_set_literal sample_error_h sample_sensor_h sample_sensor_h_samplerate_wf
      sample_bme280_defs_h sample_bme280_defs_h_wf.2.2 storing_backend 3 sample_world
      (by decide) (by decide)).2.2.2.2.2 (storing_backend_stores_standby _) 77⟩

/-- C13: `bme280_interface_samplerate_set(MIN)` commits the 1000 ms tier and
`bme280_interface_samplerate_set(MAX)` the 1 ms tier, each with one backend write selecting
the standby time; on a backend that stores the setting `bme280_interface_samplerate_get`
afterwards returns the rate of that tier, 1 after MIN and 200 after MAX. -/
theorem samplerate_set_min_max (e : ruuvi_driver_error_h) (r : ruuvi_sensor_h)
    (hr : r.samplerate_wf) (b : bme280_defs_h) (hb : b.standby_wf) (bk : Backend)
    (w : World) :
    bme280_interface_samplerate_set e r b bk r.RUUVI_SENSOR_SAMPLERATE_MIN w
        = committed e b bk b.BME280_STANDBY_SEL
            { w.settings with standby_time := b.BME280_STANDBY_TIME_1000_MS } w
    ∧ bme280_interface_samplerate_set e r b bk r.RUUVI_SENSOR_SAMPLERATE_MAX w
        = committed e b bk b.BME280_STANDBY_SEL
            { w.settings with standby_time := b.BME280_STANDBY_TIME_1_MS } w
    ∧ (bk.stores_standby b → ∀ old,
        (bme280_interface_samplerate_get e b bk old
          (bme280_interface_samplerate_set e r b bk r.RUUVI_SENSOR_SAMPLERATE_MIN w).2).2.1 = 1
        ∧ (bme280_interface_samplerate_get e b bk old
          (bme280_interface_samplerate_set e r b bk r.RUUVI_SENSOR_SAMPLERATE_MAX w).2).2.1
            = 200) := by
  obtain ⟨hstop, hmin, hmax, hne⟩ := hr
  have h1 := samplerate_set_some e r b bk r.RUUVI_SENSOR_SAMPLERATE_MIN
    b.BME280_STANDBY_TIME_1000_MS w (by omega)
    (by rw [samplerate_standby_out r b _ hmin, if_pos rfl])
  have h2 := samplerate_set_some e r b bk r.RUUVI_SENSOR_SAMPLERATE_MAX
    b.BME280_STANDBY_TIME_1_MS w (by omega)
    (by rw [samplerate_standby_out r b _ hmax, if_neg hne, if_pos rfl])
  refine ⟨h1, h2, fun hs old => ⟨?_, ?_⟩⟩
  · rw [h1]
    exact samplerate_get_nominal e b hb bk old _ 1 (by decide)
      (committed_read_standby e b bk hs _ w)
  · rw [h2]
    exact samplerate_get_nominal e b hb bk old _ 200 (by decide)
      (committed_read_standby e b bk hs _ w)

/-- C13 at MAX on the sample headers and the storing sample backend: the 1 ms tier (code 0)
is committed with one write and read back as 200 Hz. -/
theorem samplerate_set_min_max_witness :
    bme280_interface_samplerate_set sample_error_h sample_sensor_h sample_bme280_defs_h
        storing_backend sample_sensor_h.RUUVI_SENSOR_SAMPLERATE_MAX sample_world
      = (0, { settings := { sample_world.settings with standby_time := 0 },
              trace := [.bme280_set_sensor_settings 16
                { sample_world.settings with standby_time := 0 }] })
    ∧ (bme280_interface_samplerate_get sample_error_h sample_bme280_defs_h storing_backend 77
        (bme280_interface_samplerate_set sample_error_h sample_sensor_h sample_bme280_defs_h
          storing_backend sample_sensor_h.RUUVI_SENSOR_SAMPLERATE_MAX sample_world).2).2.1
        = 200 :=
  ⟨(samplerate_set_min_max sample_error_h sample_sensor_h sample_sensor_h_samplerate_wf
      sample_bme280_defs_h sample_bme280_defs_h_wf.2.2 storing_backend sample_world).2.1,
   ((samplerate_set_min_max sample_error_h sample_sensor_h sample_sensor_h_samplerate_wf
      sample_bme280_defs_h sample_bme280_defs_h_wf.2.2 storing_backend sample_world).2.2
      (storing_backend_stores_standby _) 77).2⟩

/-- C14: `bme280_interface_samplerate_set` returns NOT_SUPPORTED for STOP, and for a
`uint8_t` argument it returns NOT_SUPPORTED exactly when the argument is STOP or is neither
in `1..200` nor MIN nor MAX; in every such case the world is as before: the standby time is
unchanged and no call is added to the trace. -/
theorem samplerate_set_rejects (e : ruuvi_driver_error_h) (he : e.wf) (r : ruuvi_sensor_h)
    (hr : r.samplerate_wf) (b : bme280_defs_h) (bk : Backend) (rate : Nat) (w : World)
    (hrate : rate < 256) :
    bme280_interface_samplerate_set e r b bk r.RUUVI_SENSOR_SAMPLERATE_STOP w
        = (RUUVI_DRIVER_ERROR e .NOT_SUPPORTED, w)
    ∧ ((bme280_interface_samplerate_set e r b bk rate w).1
          = RUUVI_DRIVER_ERROR e .NOT_SUPPORTED
        ↔ (rate = r.RUUVI_SENSOR_SAMPLERATE_STOP
            ∨ (¬ (1 ≤ rate ∧ rate ≤ 200) ∧ rate ≠ r.RUUVI_SENSOR_SAMPLERATE_MIN
                ∧ rate ≠ r.RUUVI_SENSOR_SAMPLERATE_MAX)))
    ∧ ((rate = r.RUUVI_SENSOR_SAMPLERATE_STOP
          ∨ (¬ (1 ≤ rate ∧ rate ≤ 200) ∧ rate ≠ r.RUUVI_SENSOR_SAMPLERATE_MIN
              ∧ rate ≠ r.RUUVI_SENSOR_SAMPLERATE_MAX)) →
        bme280_interface_samplerate_set e r b bk rate w
          = (RUUVI_DRIVER_ERROR e .NOT_SUPPORTED, w)) := by
  have := hrate
  obtain ⟨hstop, hmin, hmax, hne⟩ := hr
  have hS : bme280_interface_samplerate_set e r b bk r.RUUVI_SENSOR_SAMPLERATE_STOP w
      = (RUUVI_DRIVER_ERROR e .NOT_SUPPORTED, w) := by
    unfold bme280_interface_samplerate_set
    rw [if_pos rfl]
  have hrej : (rate = r.RUUVI_SENSOR_SAMPLERATE_STOP
      ∨ (¬ (1 ≤ rate ∧ rate ≤ 200) ∧ rate ≠ r.RUUVI_SENSOR_SAMPLERATE_MIN
          ∧ rate ≠ r.RUUVI_SENSOR_SAMPLERATE_MAX)) →
      bme280_interface_samplerate_set e r b bk rate w
        = (RUUVI_DRIVER_ERROR e .NOT_SUPPORTED, w) := by
    rintro (h | ⟨hband, h1, h2⟩)
    · rw [h]; exact hS
    · by_cases h0 : rate = r.RUUVI_SENSOR_SAMPLERATE_STOP
      · rw [h0]; exact hS
      · have hbig : 200 < rate := by omega
        unfold bme280_interface_samplerate_set
        rw [if_neg (Ne.symm h0), samplerate_standby_out r b rate hbig, if_neg (Ne.symm h1),
          if_neg (Ne.symm h2)]
  refine ⟨hS, ⟨fun h => ?_, fun h => by rw [hrej h]⟩, hrej⟩
  by_contra hn
  simp only [not_or, not_and, not_not] at hn
  obtain ⟨h0, hacc⟩ := hn
  have hsome : ∃ standby, samplerate_standby r b rate = some standby := by
    by_cases hband : 1 ≤ rate ∧ rate ≤ 200
    · exact ⟨_, samplerate_standby_literal r b rate hband.1 hband.2⟩
    · have hbig : 200 < rate := by omega
      rw [samplerate_standby_out r b rate hbig]
      by_cases h1 : rate = r.RUUVI_SENSOR_SAMPLERATE_MIN
      · exact ⟨_, by rw [if_pos h1.symm]⟩
      · have h2 := hacc (fun a c => hband ⟨a, c⟩) h1
        exact ⟨_, by rw [if_neg (Ne.symm h1), if_pos h2.symm]⟩
  obtain ⟨standby, hst⟩ := hsome
  rw [samplerate_set_some e r b bk rate standby w (Ne.symm h0) hst] at h
  exact BME_TO_RUUVI_ERROR_ne_not_supported e he b _ h

/-- C14 on the sample headers at 255, which is neither in `1..200` nor STOP, MIN or MAX:
NOT_SUPPORTED, world unchanged. -/
theorem samplerate_set_rejects_witness :
    bme280_interface_samplerate_set sample_error_h sample_sensor_h sample_bme280_defs_h
        ok_backend 255 sample_world
      = (RUUVI_DRIVER_ERROR sample_error_h .NOT_SUPPORTED, sample_world) :=
  (samplerate_set_rejects sample_error_h sample_error_h_wf sample_sensor_h
    sample_sensor_h_samplerate_wf sample_bme280_defs_h ok_backend 255 sample_world
    (by decide)).2.2 (Or.inr (by decide))

/-! ## Lemmas: `bme280_interface_init` -/

theorem bind_table_eq (t : ruuvi_sensor_t) : bind_table t = bme280_table := rfl

theorem unbound_ne_bound : unbound_table ≠ bme280_table := by decide

theorem combine_eq_zero (a b : Nat) : combine a b = 0 ↔ a = 0 ∧ b = 0 := by
  unfold combine
  constructor
  · intro h
    constructor
    · apply Nat.eq_of_testBit_eq
      intro i
      have := congrArg (fun x => Nat.testBit x i) h
      simp only [Nat.testBit_or, Nat.zero_testBit, Bool.or_eq_false_iff] at this
      rw [this.1, Nat.zero_testBit]
    · apply Nat.eq_of_testBit_eq
      intro i
      have := congrArg (fun x => Nat.testBit x i) h
      simp only [Nat.testBit_or, Nat.zero_testBit, Bool.or_eq_false_iff] at this
      rw [this.2, Nat.zero_testBit]
  · rintro ⟨ha, hb⟩
    rw [ha, hb]
    rfl

theorem dsp_set_os_one (e : ruuvi_driver_error_h) (r : ruuvi_sensor_h) (hr : r.dsp_wf)
    (b : bme280_defs_h) (bk : Backend) (w : World) :
    bme280_interface_dsp_set e r b bk r.RUUVI_SENSOR_DSP_OS 1 w
      = committed e b bk (dsp_settings_sel b)
          (dsp_settings w.settings b.BME280_FILTER_COEFF_OFF b.BME280_OVERSAMPLING_1X) w := by
  obtain ⟨h1, h2, h3⟩ := dsp_wf_facts r hr
  obtain ⟨hi0, ho0, hd, hi32, ho32, hl1, hl2, hl3⟩ := hr
  rw [dsp_set_accepted e r b bk _ 1 w (by decide) hl2 (bnot32_and_eq_zero _ _ ho32 h2)]
  rw [Nat.and_self, hd, if_pos ho0, if_neg (fun h => h rfl)]
  rfl

theorem init_eq (e : ruuvi_driver_error_h) (r : ruuvi_sensor_h) (hr : r.dsp_wf)
    (b : bme280_defs_h) (bk : Backend) (t : ruuvi_sensor_t) (w : World) :
    bme280_interface_init e r b bk t w
      = (combine (combine (combine (combine RUUVI_DRIVER_SUCCESS
            (BME_TO_RUUVI_ERROR e b (bk.rslt w.trace .bme280_init)))
            (BME_TO_RUUVI_ERROR e b
              (bk.rslt (w.trace ++ [.bme280_init]) .bme280_crc_selftest)))
            (BME_TO_RUUVI_ERROR e b
              (bk.rslt (w.trace ++ [.bme280_init] ++ [.bme280_crc_selftest])
                .bme280_soft_reset)))
            (BME_TO_RUUVI_ERROR e b
              (bk.rslt (w.trace ++ [.bme280_init] ++ [.bme280_crc_selftest]
                  ++ [.bme280_soft_reset])
                (.bme280_set_sensor_settings (dsp_settings_sel b)
                  (dsp_settings w.settings b.BME280_FILTER_COEFF_OFF
                    b.BME280_OVERSAMPLING_1X)))),
         (if RUUVI_DRIVER_SUCCESS = combine (combine (combine (combine RUUVI_DRIVER_SUCCESS
            (BME_TO_RUUVI_ERROR e b (bk.rslt w.trace .bme280_init)))
            (BME_TO_RUUVI_ERROR e b
              (bk.rslt (w.trace ++ [.bme280_init]) .bme280_crc_selftest)))
            (BME_TO_RUUVI_ERROR e b
              (bk.rslt (w.trace ++ [.bme280_init] ++ [.bme280_crc_selftest])
                .bme280_soft_reset)))
            (BME_TO_RUUVI_ERROR e b
              (bk.rslt (w.trace ++ [.bme280_init] ++ [.bme280_crc_selftest]
                  ++ [.bme280_soft_reset])
                (.bme280_set_sensor_settings (dsp_settings_sel b)
                  (dsp_settings w.settings b.BME280_FILTER_COEFF_OFF
                    b.BME280_OVERSAMPLING_1X))))
          then bme280_table else t),
         { settings := dsp_settings w.settings b.BME280_FILTER_COEFF_OFF
             b.BME280_OVERSAMPLING_1X,
           trace := w.trace ++ [.bme280_init] ++ [.bme280_crc_selftest]
             ++ [.bme280_soft_reset]
             ++ [.bme280_set_sensor_settings (dsp_settings_sel b)
                  (dsp_settings w.settings b.BME280_FILTER_COEFF_OFF
                    b.BME280_OVERSAMPLING_1X)] }) := by
  unfold bme280_interface_init
  simp only [World.call, dsp_set_os_one e r hr b bk, committed, dsp_settings, bind_table_eq]
  split_ifs <;> rfl

/-! ## Lemmas: `ruuvi_interface_log_sensor_configuration` -/

theorem configuration_value_to_string_total (s : ruuvi_driver_sensor_h) (v : Nat) :
    configuration_value_to_string s v = .ok (configuration_value_text s v)
      ∧ (configuration_value_text s v).length ≤ 15
      ∧ NUL ∉ configuration_value_text s v := by
  have hshort : (configuration_value_text s v).length ≤ 15
      ∧ NUL ∉ configuration_value_text s v := by
    by_cases h : 1 ≤ v ∧ v ≤ 200
    · rw [configuration_value_text_band s v h.1 h.2]
      have := fmt_d_band_short v (by omega) h.1
      exact ⟨by omega, this.2⟩
    · rw [configuration_value_text_out s v h]
      exact first_match_short s v
  exact ⟨configuration_value_to_string_eq s v (by omega) hshort.2, hshort⟩

theorem not_mem_take (t : List Char) (n : Nat) (h : NUL ∉ t) : NUL ∉ t.take n :=
  fun hm => h (List.mem_of_mem_take hm)

theorem log_line_eq (level : Nat) (text : List Char) (sink : LogSink) (h : NUL ∉ text) :
    log_line level text sink = .ok (sink ++ [(level, text.take 127)]) := by
  have hlen : (text.take 127).length ≤ 127 := by
    rw [List.length_take]; exact Nat.min_le_left _ _
  unfold log_line snprintf poke msg_size
  rw [if_neg (by decide), if_pos (by simp)]
  simp only [Except.map, List.take_zero, List.nil_append, Nat.zero_add]
  rw [show (128 - 1) = 127 from rfl, c_str_append_nul _ _ (not_mem_take text 127 h)]

theorem log_line_short (level : Nat) (text : List Char) (sink : LogSink) (h : NUL ∉ text)
    (hlen : text.length ≤ 127) :
    log_line level text sink = .ok (sink ++ [(level, text)]) := by
  rw [log_line_eq level text sink h, List.take_of_length_le hlen]

theorem snprintf_after (t1 t2 tail : List Char) (n : Nat) (hn : t2.length < n)
    (hfit : t2.length ≤ tail.length) :
    snprintf (t1 ++ [NUL] ++ tail) t1.length n t2
      = .ok (t1 ++ t2 ++ [NUL] ++ tail.drop t2.length, t2.length) := by
  have h1 : (t1 ++ [NUL] ++ tail).take t1.length = t1 := by
    rw [List.append_assoc, List.take_left']
    rfl
  have h2 : (t1 ++ [NUL] ++ tail).drop (t1.length + (t2.length + 1))
      = tail.drop t2.length := by
    rw [List.append_assoc, List.drop_append]
    simp
  rw [snprintf_fits _ _ _ _ hn (by simp; omega), h1, h2]
  simp

theorem dsp_phrase_short (d : ruuvi_driver_sensor_dsp_h) (f : Nat) :
    (dsp_phrase d f).length ≤ 28 ∧ NUL ∉ dsp_phrase d f := by
  unfold dsp_phrase
  split_ifs <;> decide

set_option maxRecDepth 100000 in
theorem dsp_line_first :
    snprintf (List.replicate msg_size NUL) 0 msg_size "DSP:         ".toList
      = .ok ("DSP:         ".toList ++ [NUL] ++ List.replicate 114 NUL, 13) := by
  decide

theorem nul_not_mem_append (a c : List Char) (ha : NUL ∉ a) (hc : NUL ∉ c) : NUL ∉ a ++ c := by
  rw [List.mem_append, not_or]
  exact ⟨ha, hc⟩

theorem dsp_line_eq (phrase v : List Char) (lp : phrase.length ≤ 28) (np : NUL ∉ phrase)
    (lv : v.length ≤ 15) (nv : NUL ∉ v) :
    ∃ m2 m3,
      snprintf ("DSP:         ".toList ++ [NUL] ++ List.replicate 114 NUL) (13 % 2 ^ 32)
          (size_sub msg_size (13 % 2 ^ 32)) phrase = .ok (m2, phrase.length)
      ∧ snprintf m2 (size_add (13 % 2 ^ 32) phrase.length)
          (size_sub msg_size (size_add (13 % 2 ^ 32) phrase.length)) (v ++ "\r\n".toList)
          = .ok (m3, (v ++ "\r\n".toList).length)
      ∧ c_str m3 = "DSP:         ".toList ++ phrase ++ v ++ "\r\n".toList := by
  have hs1 : size_sub msg_size (13 % 2 ^ 32) = 115 := by decide
  have ha : size_add (13 % 2 ^ 32) phrase.length = ("DSP:         ".toList ++ phrase).length := by
    rw [List.length_append]
    unfold size_add
    have : "DSP:         ".toList.length = 13 := rfl
    omega
  have hs2 : size_sub msg_size ("DSP:         ".toList ++ phrase).length
      = 115 - phrase.length := by
    rw [List.length_append]
    unfold size_sub msg_size
    have : "DSP:         ".toList.length = 13 := rfl
    omega
  have hl3 : (v ++ "\r\n".toList).length = v.length + 2 := by
    rw [List.length_append]; rfl
  have h2 := snprintf_after "DSP:         ".toList phrase (List.replicate 114 NUL) 115
    (by omega) (by simp; omega)
  have h3 := snprintf_after ("DSP:         ".toList ++ phrase) (v ++ "\r\n".toList)
    ((List.replicate 114 NUL).drop phrase.length) (115 - phrase.length)
    (by omega) (by simp; omega)
  refine ⟨"DSP:         ".toList ++ phrase ++ [NUL]
      ++ List.drop phrase.length (List.replicate 114 NUL),
    "DSP:         ".toList ++ phrase ++ (v ++ "\r\n".toList) ++ [NUL]
      ++ List.drop (v ++ "\r\n".toList).length
          (List.drop phrase.length (List.replicate 114 NUL)), ?_, ?_, ?_⟩
  · rw [hs1]; exact h2
  · rw [ha, hs2]; exact h3
  · rw [List.append_assoc ("DSP:         ".toList ++ phrase ++ (v ++ "\r\n".toList)),
      ← List.append_assoc _ [NUL]]
    rw [c_str_append_nul]
    · simp only [List.append_assoc]
    · exact nul_not_mem_append _ _ (nul_not_mem_append _ _ (by decide) np)
        (nul_not_mem_append _ _ nv (by decide))

theorem log_sensor_configuration_eq (s : ruuvi_driver_sensor_h)
    (d : ruuvi_driver_sensor_dsp_h) (level : Nat)
    (configuration : ruuvi_driver_sensor_configuration_t) (unit : List Char)
    (sink : LogSink) (hu : NUL ∉ unit) :
    ruuvi_interface_log_sensor_configuration s d level configuration unit sink
      = .ok (sink ++ configuration_lines s d level configuration unit) := by
  obtain ⟨c1, l1, n1⟩ := configuration_value_to_string_total s configuration.samplerate
  obtain ⟨c2, l2, n2⟩ := configuration_value_to_string_total s configuration.resolution
  obtain ⟨c3, l3, n3⟩ := configuration_value_to_string_total s configuration.scale
  obtain ⟨c4, l4, n4⟩ := configuration_value_to_string_total s configuration.dsp_parameter
  obtain ⟨c5, l5, n5⟩ := configuration_value_to_string_total s configuration.mode
  obtain ⟨lp, np⟩ := dsp_phrase_short d configuration.dsp_function
  obtain ⟨m2, m3, hm2, hm3, hstr⟩ := dsp_line_eq _ _ lp np l4 n4
  have e1 := log_line_short level
    ("Sample rate: ".toList ++ configuration_value_text s configuration.samplerate
      ++ " Hz\r\n".toList) sink
    (nul_not_mem_append _ _ (nul_not_mem_append _ _ (by decide) n1) (by decide))
    (by simp only [List.length_append]
        have a1 : "Sample rate: ".toList.length = 13 := rfl
        have a2 : " Hz\r\n".toList.length = 5 := rfl
        omega)
  have e2 := fun sk => log_line_short level
    ("Resolution:  ".toList ++ configuration_value_text s configuration.resolution
      ++ " bits\r\n".toList) sk
    (nul_not_mem_append _ _ (nul_not_mem_append _ _ (by decide) n2) (by decide))
    (by simp only [List.length_append]
        have a1 : "Resolution:  ".toList.length = 13 := rfl
        have a2 : " bits\r\n".toList.length = 7 := rfl
        omega)
  have e3 := fun sk => log_line_eq level
    ("Scale:       ".toList ++ configuration_value_text s configuration.scale
      ++ " ".toList ++ unit ++ "\r\n".toList) sk
    (nul_not_mem_append _ _ (nul_not_mem_append _ _ (nul_not_mem_append _ _
      (nul_not_mem_append _ _ (by decide) n3) (by decide)) hu) (by decide))
  have e5 := fun sk => log_line_short level
    ("Mode:        ".toList ++ configuration_value_text s configuration.mode
      ++ "\r\n".toList) sk
    (nul_not_mem_append _ _ (nul_not_mem_append _ _ (by decide) n5) (by decide))
    (by simp only [List.length_append]
        have a1 : "Mode:        ".toList.length = 13 := rfl
        have a2 : "\r\n".toList.length = 2 := rfl
        omega)
  unfold ruuvi_interface_log_sensor_configuration
  rw [c1, c2, c3, c4, c5]
  simp only [Except.bind]
  rw [e1]
  simp only []
  rw [e2]
  simp only []
  rw [e3]
  simp only []
  rw [dsp_line_first]
  simp only []
  rw [hm2]
  simp only []
  rw [hm3]
  simp only []
  rw [e5, hstr]
  simp only [configuration_lines, List.append_assoc, List.cons_append, List.nil_append]

/-! ## Claims on `bme280_interface_init` and Status combination -/

theorem combine_success_left (a : Nat) : combine RUUVI_DRIVER_SUCCESS a = a := by
  unfold combine RUUVI_DRIVER_SUCCESS
  exact Nat.zero_or a

theorem init_status_eq (e : ruuvi_driver_error_h) (r : ruuvi_sensor_h) (hr : r.dsp_wf)
    (b : bme280_defs_h) (bk : Backend) (t : ruuvi_sensor_t) (w : World) :
    (bme280_interface_init e r b bk t w).1
      = combine (combine (combine (init_step_status e b bk w 0) (init_step_status e b bk w 1))
          (init_step_status e b bk w 2)) (init_step_status e b bk w 3) := by
  rw [init_eq e r hr b bk t w, combine_success_left]
  simp only [init_step_status, init_step_result, init_calls, List.drop, List.take,
    List.append_nil, List.append_assoc, List.singleton_append, List.cons_append,
    List.nil_append]

theorem init_table_eq (e : ruuvi_driver_error_h) (r : ruuvi_sensor_h) (b : bme280_defs_h)
    (bk : Backend) (t : ruuvi_sensor_t) (w : World) :
    (bme280_interface_init e r b bk t w).2.1
      = if (bme280_interface_init e r b bk t w).1 = RUUVI_DRIVER_SUCCESS then bme280_table
        else t := by
  unfold bme280_interface_init
  simp only [bind_table_eq]
  split_ifs with h1 h2 h2
  · rfl
  · exact absurd h1.symm h2
  · exact absurd h2.symm h1
  · rfl

theorem init_world_eq (e : ruuvi_driver_error_h) (r : ruuvi_sensor_h) (hr : r.dsp_wf)
    (b : bme280_defs_h) (bk : Backend) (t : ruuvi_sensor_t) (w : World) :
    (bme280_interface_init e r b bk t w).2.2
      = { settings := dsp_settings w.settings b.BME280_FILTER_COEFF_OFF
            b.BME280_OVERSAMPLING_1X,
          trace := w.trace ++ init_calls b w } := by
  rw [init_eq e r hr b bk t w]
  simp [init_calls]

theorem BME_TO_RUUVI_ERROR_unlisted (e : ruuvi_driver_error_h) (b : bme280_defs_h)
    (rslt : Int) (h : rslt ∉ [b.BME280_E_DEV_NOT_FOUND, b.BME280_E_NULL_PTR,
      b.BME280_E_COMM_FAIL, b.BME280_OK]) :
    BME_TO_RUUVI_ERROR e b rslt = RUUVI_DRIVER_SUCCESS := by
  simp only [List.mem_cons, List.mem_singleton, List.not_mem_nil, or_false, not_or] at h
  obtain ⟨h1, h2, h3, h4⟩ := h
  simp only [BME_TO_RUUVI_ERROR, Ne.symm h1, Ne.symm h2, Ne.symm h3, Ne.symm h4, if_false]

theorem sample_world_results_selftest_failing :
    init_step_result sample_bme280_defs_h selftest_failing_backend sample_world 0 = 0
      ∧ init_step_result sample_bme280_defs_h selftest_failing_backend sample_world 1 = 2
      ∧ init_step_result sample_bme280_defs_h selftest_failing_backend sample_world 2 = 0
      ∧ init_step_result sample_bme280_defs_h selftest_failing_backend sample_world 3 = 0 := by
  decide

theorem sample_world_results_selftest_comm_fail :
    init_step_result sample_bme280_defs_h selftest_comm_fail_backend sample_world 0 = 0
      ∧ init_step_result sample_bme280_defs_h selftest_comm_fail_backend sample_world 1 = -4
      ∧ init_step_result sample_bme280_defs_h selftest_comm_fail_backend sample_world 2 = 0
      ∧ init_step_result sample_bme280_defs_h selftest_comm_fail_backend sample_world 3 = 0 := by
  decide

theorem one_shiftLeft_and_of_ne (a c : Nat) (h : a ≠ c) : 1 <<< a &&& 1 <<< c = 0 := by
  rw [Nat.one_shiftLeft, Nat.one_shiftLeft]
  apply Nat.eq_of_testBit_eq
  intro i
  rw [Nat.testBit_and, Nat.testBit_two_pow, Nat.testBit_two_pow, Nat.zero_testBit]
  by_cases h1 : a = i
  · have h2 : ¬ c = i := fun h2 => h (h1.trans h2.symm)
    simp [h2]
  · simp [h1]

theorem BME_TO_RUUVI_ERROR_no_selftest (e : ruuvi_driver_error_h) (he : e.wf)
    (b : bme280_defs_h) (rslt : Int) :
    BME_TO_RUUVI_ERROR e b rslt &&& RUUVI_DRIVER_ERROR e .SELFTEST = 0 := by
  rcases BME_TO_RUUVI_ERROR_cases e b rslt with h1 | h1 | h1 | h1 <;> rw [h1]
  · exact one_shiftLeft_and_of_ne _ _ (fun h => absurd (he.2 h) (by decide))
  · exact one_shiftLeft_and_of_ne _ _ (fun h => absurd (he.2 h) (by decide))
  · exact one_shiftLeft_and_of_ne _ _ (fun h => absurd (he.2 h) (by decide))
  · exact Nat.zero_and _

/-- C15 (the code departs from the claim in its last part): a bring-up makes its four calls
in order whatever their results (driver init, CRC self-test, soft reset, the write of
`dsp_set(OS, 1)`), and returns the bitwise OR of the four translated Statuses; but when the
self-test reports a code that `BME_TO_RUUVI_ERROR` does not list while the other three steps
report OK, the call returns SUCCESS and binds the table. -/
theorem init_aggregates (e : ruuvi_driver_error_h) (r : ruuvi_sensor_h) (hr : r.dsp_wf)
    (b : bme280_defs_h) (hc : b.codes_wf) (bk : Backend) (t : ruuvi_sensor_t) (w : World) :
    calls_since w.trace.length (bme280_interface_init e r b bk t w).2.2 = init_calls b w
    ∧ (bme280_interface_init e r b bk t w).1
        = combine (combine (combine (init_step_status e b bk w 0)
            (init_step_status e b bk w 1)) (init_step_status e b bk w 2))
            (init_step_status e b bk w 3)
    ∧ init_step_status e b bk w 3
        = (bme280_interface_dsp_set e r b bk r.RUUVI_SENSOR_DSP_OS 1
            { w with trace := w.trace ++ [.bme280_init, .bme280_crc_selftest,
                                           .bme280_soft_reset] }).1
    ∧ (init_step_result b bk w 0 = b.BME280_OK →
        init_step_result b bk w 2 = b.BME280_OK →
        init_step_result b bk w 3 = b.BME280_OK →
        init_step_result b bk w 1 ∉ [b.BME280_E_DEV_NOT_FOUND, b.BME280_E_NULL_PTR,
          b.BME280_E_COMM_FAIL, b.BME280_OK] →
        (bme280_interface_init e r b bk t w).1 = RUUVI_DRIVER_SUCCESS
          ∧ (bme280_interface_init e r b bk t w).2.1 = bme280_table) := by
  have hst := init_status_eq e r hr b bk t w
  refine ⟨?_, hst, ?_, ?_⟩
  · rw [init_world_eq e r hr b bk t w]
    exact calls_since_append w _ _
  · rw [dsp_set_os_one e r hr b bk]
    rfl
  · intro h0 h2 h3 h1
    have hz : (bme280_interface_init e r b bk t w).1 = RUUVI_DRIVER_SUCCESS := by
      rw [hst]
      simp only [init_step_status, h0, h2, h3, BME_TO_RUUVI_ERROR_ok e b hc,
        BME_TO_RUUVI_ERROR_unlisted e b _ h1]
      rfl
    refine ⟨hz, ?_⟩
    rw [init_table_eq, if_pos hz]

/-- C15 on the sample headers from an unbound table, with a backend whose self-test
reports 2 and whose other calls report OK: the four calls are made, SUCCESS is returned and
the table is bound. -/
theorem init_aggregates_witness :
    calls_since sample_world.trace.length
        (bme280_interface_init sample_error_h sample_sensor_h sample_bme280_defs_h
          selftest_failing_backend unbound_table sample_world).2.2
      = init_calls sample_bme280_defs_h sample_world
    ∧ (bme280_interface_init sample_error_h sample_sensor_h sample_bme280_defs_h
          selftest_failing_backend unbound_table sample_world).1 = RUUVI_DRIVER_SUCCESS
    ∧ (bme280_interface_init sample_error_h sample_sensor_h sample_bme280_defs_h
          selftest_failing_backend unbound_table sample_world).2.1 = bme280_table :=
  ⟨(init_aggregates sample_error_h sample_sensor_h sample_sensor_h_dsp_wf
      sample_bme280_defs_h sample_bme280_defs_h_wf.1 selftest_failing_backend unbound_table
      sample_world).1,
   (init_aggregates sample_error_h sample_sensor_h sample_sensor_h_dsp_wf
      sample_bme280_defs_h sample_bme280_defs_h_wf.1 selftest_failing_backend unbound_table
      sample_world).2.2.2 (by decide) (by decide) (by decide) (by decide)⟩

/-- C16: `bme280_interface_init` leaves the caller's table equal to the fully bound table
(every pointer bound to the interface function of the same name) when it returns SUCCESS and
exactly as it was when it returns any other Status; so from an unbound table the table is
bound afterwards if and only if SUCCESS was returned. -/
theorem init_binds_iff_success (e : ruuvi_driver_error_h) (r : ruuvi_sensor_h)
    (b : bme280_defs_h) (bk : Backend) (t : ruuvi_sensor_t) (w : World) :
    ((bme280_interface_init e r b bk t w).1 = RUUVI_DRIVER_SUCCESS →
        (bme280_interface_init e r b bk t w).2.1 = bme280_table)
    ∧ ((bme280_interface_init e r b bk t w).1 ≠ RUUVI_DRIVER_SUCCESS →
        (bme280_interface_init e r b bk t w).2.1 = t)
    ∧ ((bme280_interface_init e r b bk unbound_table w).2.1 = bme280_table
        ↔ (bme280_interface_init e r b bk unbound_table w).1 = RUUVI_DRIVER_SUCCESS)
    ∧ ((bme280_interface_init e r b bk unbound_table w).1 ≠ RUUVI_DRIVER_SUCCESS →
        (bme280_interface_init e r b bk unbound_table w).2.1 = unbound_table) := by
  refine ⟨fun h => ?_, fun h => ?_, ⟨fun h => ?_, fun h => ?_⟩, fun h => ?_⟩
  · rw [init_table_eq, if_pos h]
  · rw [init_table_eq, if_neg h]
  · by_contra hn
    rw [init_table_eq, if_neg hn] at h
    exact unbound_ne_bound h
  · rw [init_table_eq, if_pos h]
  · rw [init_table_eq, if_neg h]

/-- C17 (the code departs from the claim): when the self-test reports a failure code that
`BME_TO_RUUVI_ERROR` does not list, as the self-test failure code of the driver is, while
driver init, soft reset and the default DSP write report OK, `bme280_interface_init` returns
SUCCESS: the Status is 0, it is not the SELFTEST Status and has no SELFTEST bit, and the
table is bound afterwards, so a table that was unbound does not stay unbound. -/
theorem init_selftest_failure_lost (e : ruuvi_driver_error_h) (r : ruuvi_sensor_h)
    (hr : r.dsp_wf) (b : bme280_defs_h) (hc : b.codes_wf) (bk : Backend) (w : World)
    (h0 : init_step_result b bk w 0 = b.BME280_OK)
    (h1 : init_step_result b bk w 1 ∉ [b.BME280_E_DEV_NOT_FOUND, b.BME280_E_NULL_PTR,
      b.BME280_E_COMM_FAIL, b.BME280_OK])
    (h2 : init_step_result b bk w 2 = b.BME280_OK)
    (h3 : init_step_result b bk w 3 = b.BME280_OK) :
    init_step_status e b bk w 1 = RUUVI_DRIVER_SUCCESS
    ∧ (bme280_interface_init e r b bk unbound_table w).1 = RUUVI_DRIVER_SUCCESS
    ∧ (bme280_interface_init e r b bk unbound_table w).1 ≠ RUUVI_DRIVER_ERROR e .SELFTEST
    ∧ (bme280_interface_init e r b bk unbound_table w).1
        &&& RUUVI_DRIVER_ERROR e .SELFTEST = 0
    ∧ (bme280_interface_init e r b bk unbound_table w).2.1 = bme280_table
    ∧ (bme280_interface_init e r b bk unbound_table w).2.1 ≠ unbound_table := by
  have hs1 : init_step_status e b bk w 1 = RUUVI_DRIVER_SUCCESS := by
    unfold init_step_status
    exact BME_TO_RUUVI_ERROR_unlisted e b _ h1
  have hz : (bme280_interface_init e r b bk unbound_table w).1 = RUUVI_DRIVER_SUCCESS := by
    rw [init_status_eq e r hr b bk unbound_table w, hs1]
    simp only [init_step_status, h0, h2, h3, BME_TO_RUUVI_ERROR_ok e b hc]
    rfl
  have ht : (bme280_interface_init e r b bk unbound_table w).2.1 = bme280_table := by
    rw [init_table_eq, if_pos hz]
  refine ⟨hs1, hz, ?_, ?_, ht, ?_⟩
  · rw [hz]
    exact Ne.symm (RUUVI_DRIVER_ERROR_ne_success e .SELFTEST)
  · rw [hz]
    exact Nat.zero_and _
  · rw [ht]
    exact Ne.symm unbound_ne_bound

/-- C17 on the sample headers, with a backend whose self-test reports its failure code 2
and whose other calls report OK: a bring-up from an unbound table returns SUCCESS, not the
SELFTEST Status, and the table is bound afterwards. -/
theorem init_selftest_failure_lost_witness :
    init_step_result sample_bme280_defs_h selftest_failing_backend sample_world 1 = 2
    ∧ (bme280_interface_init sample_error_h sample_sensor_h sample_bme280_defs_h
        selftest_failing_backend unbound_table sample_world).1 = RUUVI_DRIVER_SUCCESS
    ∧ (bme280_interface_init sample_error_h sample_sensor_h sample_bme280_defs_h
        selftest_failing_backend unbound_table sample_world).1
        ≠ RUUVI_DRIVER_ERROR sample_error_h .SELFTEST
    ∧ (bme280_interface_init sample_error_h sample_sensor_h sample_bme280_defs_h
        selftest_failing_backend unbound_table sample_world).2.1 = bme280_table
    ∧ (bme280_interface_init sample_error_h sample_sensor_h sample_bme280_defs_h
        selftest_failing_backend unbound_table sample_world).2.1 ≠ unbound_table :=
  have h := init_selftest_failure_lost sample_error_h sample_sensor_h sample_sensor_h_dsp_wf
    sample_bme280_defs_h sample_bme280_defs_h_wf.1 selftest_failing_backend sample_world
    (by decide) (by decide) (by decide) (by decide)
  ⟨by decide, h.2.1, h.2.2.1, h.2.2.2.2.1, h.2.2.2.2.2⟩

/-- With driver init, soft reset and the default DSP write reporting OK, the Status
`bme280_interface_init` returns is the translation by `BME_TO_RUUVI_ERROR` of the self-test's
result code; it never has the SELFTEST bit, whatever that code is; and the caller's table is
left as it was exactly when that Status is not SUCCESS (it is bound when it is SUCCESS). -/
theorem init_selftest_translated (e : ruuvi_driver_error_h) (he : e.wf)
    (r : ruuvi_sensor_h) (hr : r.dsp_wf) (b : bme280_defs_h) (hc : b.codes_wf)
    (bk : Backend) (t : ruuvi_sensor_t) (w : World)
    (h0 : init_step_result b bk w 0 = b.BME280_OK)
    (h2 : init_step_result b bk w 2 = b.BME280_OK)
    (h3 : init_step_result b bk w 3 = b.BME280_OK) :
    (bme280_interface_init e r b bk t w).1
        = BME_TO_RUUVI_ERROR e b (init_step_result b bk w 1)
    ∧ (bme280_interface_init e r b bk t w).1 &&& RUUVI_DRIVER_ERROR e .SELFTEST = 0
    ∧ ((bme280_interface_init e r b bk t w).1 ≠ RUUVI_DRIVER_SUCCESS →
        (bme280_interface_init e r b bk t w).2.1 = t)
    ∧ ((bme280_interface_init e r b bk t w).1 = RUUVI_DRIVER_SUCCESS →
        (bme280_interface_init e r b bk t w).2.1 = bme280_table) := by
  have hst : (bme280_interface_init e r b bk t w).1
      = BME_TO_RUUVI_ERROR e b (init_step_result b bk w 1) := by
    rw [init_status_eq e r hr b bk t w]
    simp only [init_step_status, h0, h2, h3, BME_TO_RUUVI_ERROR_ok e b hc]
    unfold combine RUUVI_DRIVER_SUCCESS
    rw [Nat.zero_or, Nat.or_zero, Nat.or_zero]
  refine ⟨hst, ?_, fun h => ?_, fun h => ?_⟩
  · rw [hst]; exact BME_TO_RUUVI_ERROR_no_selftest e he b _
  · rw [init_table_eq, if_neg h]
  · rw [init_table_eq, if_pos h]

/-- On the sample headers with a backend whose self-test reports a communication failure
while the other calls report OK: the Status is BUSY and the unbound table stays unbound. -/
theorem init_selftest_translated_witness :
    (bme280_interface_init sample_error_h sample_sensor_h sample_bme280_defs_h
        selftest_comm_fail_backend unbound_table sample_world).1
        = RUUVI_DRIVER_ERROR sample_error_h .BUSY
    ∧ (bme280_interface_init sample_error_h sample_sensor_h sample_bme280_defs_h
        selftest_comm_fail_backend unbound_table sample_world).2.1 = unbound_table :=
  ⟨(init_selftest_translated sample_error_h sample_error_h_wf sample_sensor_h
      sample_sensor_h_dsp_wf sample_bme280_defs_h sample_bme280_defs_h_wf.1
      selftest_comm_fail_backend unbound_table sample_world
      (by decide) (by decide) (by decide)).1,
   (init_selftest_translated sample_error_h sample_error_h_wf sample_sensor_h
      sample_sensor_h_dsp_wf sample_bme280_defs_h sample_bme280_defs_h_wf.1
      selftest_comm_fail_backend unbound_table sample_world
      (by decide) (by decide) (by decide)).2.2.1 (by decide)⟩

/-- C18: the Status combination used by `bme280_interface_init`, bitwise OR, is commutative
and idempotent, SUCCESS (0) is its identity on both sides, and it keeps 32-bit values
32-bit. -/
theorem combine_laws (a b : Nat) :
    combine a b = combine b a
    ∧ combine a a = a
    ∧ combine a RUUVI_DRIVER_SUCCESS = a
    ∧ combine RUUVI_DRIVER_SUCCESS a = a
    ∧ (a < 2 ^ 32 → b < 2 ^ 32 → combine a b < 2 ^ 32) := by
  unfold combine RUUVI_DRIVER_SUCCESS
  exact ⟨Nat.or_comm a b, Nat.or_self a, Nat.or_zero a, Nat.zero_or a,
    fun ha hb => Nat.or_lt_two_pow ha hb⟩

/-! ## Claim on the log of a configuration -/

theorem sample_driver_sensor_dsp_h_wf : sample_driver_sensor_dsp_h.wf := by
  unfold ruuvi_driver_sensor_dsp_h.wf
  decide

/-- C19: for every severity level, configuration snapshot and unit text,
`ruuvi_interface_log_sensor_configuration` adds exactly five entries to the log sink, all at
the given level, in the order sample rate, resolution, scale with unit, DSP, mode; the value
in each is the text `configuration_value_to_string` returns for the field (the scale line,
the only one of unbounded length, is cut to the 127 characters that fit the buffer); and the
DSP line carries, before the parameter, the phrase of the function: `High pass x `,
`Infinite Impulse Response x `, `Last x `, `Lowpass x `, `Oversampling x `, and `Unknown x`
for every value that is none of the five labels. -/
theorem log_sensor_configuration_lines (s : ruuvi_driver_sensor_h)
    (d : ruuvi_driver_sensor_dsp_h) (hd : d.wf) (level : Nat)
    (configuration : ruuvi_driver_sensor_configuration_t) (unit : List Char)
    (sink : LogSink) (hu : NUL ∉ unit) :
    ruuvi_interface_log_sensor_configuration s d level configuration unit sink
        = .ok (sink ++ configuration_lines s d level configuration unit)
    ∧ (configuration_lines s d level configuration unit).length = 5
    ∧ (∀ p ∈ configuration_lines s d level configuration unit, p.1 = level)
    ∧ (∀ v, configuration_value_to_string s v = .ok (configuration_value_text s v))
    ∧ (unit.length ≤ 95 →
        (configuration_lines s d level configuration unit).get? 2
          = some (level, "Scale:       ".toList
              ++ configuration_value_text s configuration.scale ++ " ".toList ++ unit
              ++ "\r\n".toList))
    ∧ dsp_phrase d d.RUUVI_DRIVER_SENSOR_DSP_HIGH_PASS = "High pass x ".toList
    ∧ dsp_phrase d d.RUUVI_DRIVER_SENSOR_DSP_IIR = "Infinite Impulse Response x ".toList
    ∧ dsp_phrase d d.RUUVI_DRIVER_SENSOR_DSP_LAST = "Last x ".toList
    ∧ dsp_phrase d d.RUUVI_DRIVER_SENSOR_DSP_LOW_PASS = "Lowpass x ".toList
    ∧ dsp_phrase d d.RUUVI_DRIVER_SENSOR_DSP_OS = "Oversampling x ".toList
    ∧ (∀ f, f ∉ d.labels → dsp_phrase d f = "Unknown x".toList) := by
  simp only [ruuvi_driver_sensor_dsp_h.wf, ruuvi_driver_sensor_dsp_h.labels,
    List.nodup_cons, List.mem_cons, List.mem_singleton, not_or, List.not_mem_nil,
    not_false_eq_true, List.nodup_nil, and_true] at hd
  obtain ⟨⟨h12, h13, h14, h15⟩, ⟨h23, h24, h25⟩, ⟨h34, h35⟩, h45⟩ := hd
  refine ⟨log_sensor_configuration_eq s d level configuration unit sink hu, rfl, ?_,
    fun v => (configuration_value_to_string_total s v).1, fun hlen => ?_, ?_, ?_, ?_, ?_, ?_,
    fun f hf => ?_⟩
  · intro p hp
    simp only [configuration_lines, List.mem_cons, List.mem_singleton, List.not_mem_nil,
      or_false] at hp
    rcases hp with h | h | h | h | h <;> rw [h]
  · have l3 := (configuration_value_to_string_total s configuration.scale).2.1
    have hfull : ("Scale:       ".toList ++ configuration_value_text s configuration.scale
        ++ " ".toList ++ unit ++ "\r\n".toList).length ≤ 127 := by
      simp only [List.length_append]
      have a1 : "Scale:       ".toList.length = 13 := rfl
      have a2 : " ".toList.length = 1 := rfl
      have a3 : "\r\n".toList.length = 2 := rfl
      omega
    simp only [configuration_lines, List.get?_cons_succ, List.get?_cons_zero]
    rw [List.take_of_length_le hfull]
  · unfold dsp_phrase
    rw [if_pos rfl]
  · unfold dsp_phrase
    rw [if_neg (Ne.symm h12), if_pos rfl]
  · unfold dsp_phrase
    rw [if_neg (Ne.symm h13), if_neg (Ne.symm h23), if_pos rfl]
  · unfold dsp_phrase
    rw [if_neg (Ne.symm h14), if_neg (Ne.symm h24), if_neg (Ne.symm h34), if_pos rfl]
  · unfold dsp_phrase
    rw [if_neg (Ne.symm h15), if_neg (Ne.symm h25), if_neg (Ne.symm h35),
      if_neg (Ne.symm h45), if_pos rfl]
  · simp only [ruuvi_driver_sensor_dsp_h.labels, List.mem_cons, List.mem_singleton,
      List.not_mem_nil, or_false, not_or] at hf
    unfold dsp_phrase
    rw [if_neg hf.1, if_neg hf.2.1, if_neg hf.2.2.1, if_neg hf.2.2.2.1, if_neg hf.2.2.2.2]

set_option maxRecDepth 100000 in
/-- C19 on the sample headers at level 3 with unit `mg`: the five lines of the sample
snapshot, and of the same snapshot with function `IIR | OS` (24), which gets the `Unknown x`
phrase. -/
theorem log_sensor_configuration_lines_witness :
    ruuvi_interface_log_sensor_configuration sample_driver_sensor_h
        sample_driver_sensor_dsp_h 3 sample_configuration "mg".toList []
      = .ok [(3, "Sample rate: 50 Hz\r\n".toList), (3, "Resolution:  DEFAULT bits\r\n".toList),
             (3, "Scale:       4 mg\r\n".toList),
             (3, "DSP:         Oversampling x 16\r\n".toList),
             (3, "Mode:        CONTINUOUS\r\n".toList)]
    ∧ dsp_phrase sample_driver_sensor_dsp_h 24 = "Unknown x".toList :=
  ⟨(log_sensor_configuration_lines sample_driver_sensor_h sample_driver_sensor_dsp_h
      sample_driver_sensor_dsp_h_wf 3 sample_configuration "mg".toList [] (by decide)).1,
   (log_sensor_configuration_lines sample_driver_sensor_h sample_driver_sensor_dsp_h
      sample_driver_sensor_dsp_h_wf 3 sample_configuration "mg".toList [] (by decide)).2.2.2.2.2.2.2.2.2.2
      24 (by decide)⟩

/-! ## Claim on the outcomes of `bme280_interface_dsp_set` -/

theorem dsp_set_last_eq (e : ruuvi_driver_error_h) (r : ruuvi_sensor_h) (b : bme280_defs_h)
    (bk : Backend) (p : Nat) (w : World) :
    bme280_interface_dsp_set e r b bk r.RUUVI_SENSOR_DSP_LAST p w
      = committed e b bk (dsp_settings_sel b)
          (dsp_settings w.settings b.BME280_FILTER_COEFF_OFF b.BME280_OVERSAMPLING_1X) w := by
  unfold bme280_interface_dsp_set
  rw [if_neg (fun h => h.2.2.2.2.2 rfl), if_neg (fun h => h.1 rfl), if_pos rfl,
    settings_sel_eq, write_settings_eq]
  rfl

/-- C20: `bme280_interface_dsp_set` is all-or-nothing.  For a 32-bit function value `f`,
call it rejected when `f` is not LAST and the parameter is outside `{1, 2, 4, 8, 16}` or
`f` has a bit outside `IIR | OS`.  A rejected call returns NOT_SUPPORTED with the world as it
was; any other call assigns the four settings and makes exactly one backend write, and does
not return NOT_SUPPORTED; so NOT_SUPPORTED is returned exactly for rejected calls.  In a
call that is not rejected and whose function is not LAST both parameter switches find a
case, so their `default` branches are never taken. -/
theorem dsp_set_all_or_nothing (e : ruuvi_driver_error_h) (he : e.wf) (r : ruuvi_sensor_h)
    (b : bme280_defs_h) (bk : Backend) (f p : Nat) (w : World) (h32 : f < 2 ^ 32) :
    ((f ≠ r.RUUVI_SENSOR_DSP_LAST ∧ (p ∉ [1, 2, 4, 8, 16] ∨ ∃ i, f.testBit i = true
          ∧ (r.RUUVI_SENSOR_DSP_IIR ||| r.RUUVI_SENSOR_DSP_OS).testBit i = false)) →
        bme280_interface_dsp_set e r b bk f p w = (RUUVI_DRIVER_ERROR e .NOT_SUPPORTED, w))
    ∧ (¬ (f ≠ r.RUUVI_SENSOR_DSP_LAST ∧ (p ∉ [1, 2, 4, 8, 16] ∨ ∃ i, f.testBit i = true
          ∧ (r.RUUVI_SENSOR_DSP_IIR ||| r.RUUVI_SENSOR_DSP_OS).testBit i = false)) →
        ∃ filter osr, bme280_interface_dsp_set e r b bk f p w
          = committed e b bk (dsp_settings_sel b) (dsp_settings w.settings filter osr) w)
    ∧ ((bme280_interface_dsp_set e r b bk f p w).1 = RUUVI_DRIVER_ERROR e .NOT_SUPPORTED
        ↔ (f ≠ r.RUUVI_SENSOR_DSP_LAST ∧ (p ∉ [1, 2, 4, 8, 16] ∨ ∃ i, f.testBit i = true
            ∧ (r.RUUVI_SENSOR_DSP_IIR ||| r.RUUVI_SENSOR_DSP_OS).testBit i = false)))
    ∧ (¬ (f ≠ r.RUUVI_SENSOR_DSP_LAST ∧ (p ∉ [1, 2, 4, 8, 16] ∨ ∃ i, f.testBit i = true
          ∧ (r.RUUVI_SENSOR_DSP_IIR ||| r.RUUVI_SENSOR_DSP_OS).testBit i = false)) →
        f ≠ r.RUUVI_SENSOR_DSP_LAST →
        iir_filter b p ≠ none ∧ os_oversampling b p ≠ none) := by
  have hrej : (f ≠ r.RUUVI_SENSOR_DSP_LAST ∧ (p ∉ [1, 2, 4, 8, 16] ∨ ∃ i, f.testBit i = true
      ∧ (r.RUUVI_SENSOR_DSP_IIR ||| r.RUUVI_SENSOR_DSP_OS).testBit i = false)) →
      bme280_interface_dsp_set e r b bk f p w = (RUUVI_DRIVER_ERROR e .NOT_SUPPORTED, w) := by
    rintro ⟨hf, hp | hbit⟩
    · simp only [List.mem_cons, List.mem_singleton, List.not_mem_nil, or_false, not_or] at hp
      obtain ⟨h1, h2, h4, h8, h16⟩ := hp
      unfold bme280_interface_dsp_set
      rw [if_pos ⟨Ne.symm h1, Ne.symm h2, Ne.symm h4, Ne.symm h8, Ne.symm h16, Ne.symm hf⟩]
    · have hmask := (bnot32_and_ne_zero _ f h32).2 hbit
      unfold bme280_interface_dsp_set
      split
      · rfl
      · rw [if_pos ⟨Ne.symm hf, hmask⟩]
  have hacc : ¬ (f ≠ r.RUUVI_SENSOR_DSP_LAST ∧ (p ∉ [1, 2, 4, 8, 16] ∨ ∃ i, f.testBit i = true
      ∧ (r.RUUVI_SENSOR_DSP_IIR ||| r.RUUVI_SENSOR_DSP_OS).testBit i = false)) →
      ∃ filter osr, bme280_interface_dsp_set e r b bk f p w
        = committed e b bk (dsp_settings_sel b) (dsp_settings w.settings filter osr) w := by
    intro hn
    by_cases hf : f = r.RUUVI_SENSOR_DSP_LAST
    · rw [hf]
      exact ⟨_, _, dsp_set_last_eq e r b bk p w⟩
    · have hn2 : ¬ (p ∉ [1, 2, 4, 8, 16] ∨ ∃ i, f.testBit i = true
          ∧ (r.RUUVI_SENSOR_DSP_IIR ||| r.RUUVI_SENSOR_DSP_OS).testBit i = false) :=
        fun h => hn ⟨hf, h⟩
      rw [not_or, not_not] at hn2
      have hmask : bnot32 (r.RUUVI_SENSOR_DSP_IIR ||| r.RUUVI_SENSOR_DSP_OS) &&& f = 0 := by
        by_contra h
        exact hn2.2 ((bnot32_and_ne_zero _ f h32).1 h)
      exact ⟨_, _, dsp_set_accepted e r b bk f p w hn2.1 (Ne.symm hf) hmask⟩
  refine ⟨hrej, hacc, ⟨fun h => ?_, fun h => by rw [hrej h]⟩, fun hn hf => ?_⟩
  · by_contra hn
    obtain ⟨filter, osr, heq⟩ := hacc hn
    rw [heq] at h
    exact BME_TO_RUUVI_ERROR_ne_not_supported e he b _ h
  · have hn2 : ¬ (p ∉ [1, 2, 4, 8, 16] ∨ ∃ i, f.testBit i = true
        ∧ (r.RUUVI_SENSOR_DSP_IIR ||| r.RUUVI_SENSOR_DSP_OS).testBit i = false) :=
      fun h => hn ⟨hf, h⟩
    rw [not_or, not_not] at hn2
    rw [iir_filter_eq b p hn2.1, os_oversampling_eq b p hn2.1]
    exact ⟨Option.some_ne_none _, Option.some_ne_none _⟩

/-- C20 on the sample headers: `HIGH_PASS` with parameter 2 is rejected with the world
unchanged. -/
theorem dsp_set_all_or_nothing_witness :
    bme280_interface_dsp_set sample_error_h sample_sensor_h sample_bme280_defs_h ok_backend
        sample_sensor_h.RUUVI_SENSOR_DSP_HIGH_PASS 2 sample_world
      = (RUUVI_DRIVER_ERROR sample_error_h .NOT_SUPPORTED, sample_world) :=
  (dsp_set_all_or_nothing sample_error_h sample_error_h_wf sample_sensor_h
    sample_bme280_defs_h ok_backend sample_sensor_h.RUUVI_SENSOR_DSP_HIGH_PASS 2 sample_world
    (by decide)).1 ⟨by decide, Or.inr ⟨1, by decide, by decide⟩⟩

/-! ## Lemmas: termination of `ruuvi_platform_error_to_string` -/

theorem snprintf_ok (mem : List Char) (off n : Nat) (t : List Char)
    (h : off + n ≤ mem.length) : ∃ m, snprintf mem off n t = .ok (m, t.length) := by
  unfold snprintf
  by_cases h0 : n = 0
  · rw [if_pos h0]; exact ⟨_, rfl⟩
  · rw [if_neg h0]
    have hl : (t.take (n - 1) ++ [NUL]).length ≤ n := by
      rw [List.length_append, List.length_take]
      have := Nat.min_le_left (n - 1) t.length
      simp only [List.length_singleton]
      omega
    unfold poke
    rw [if_pos (by omega)]
    exact ⟨_, rfl⟩

theorem scan_bits_fst (error error_bit : Nat) (herr : error < 2 ^ 32) :
    (if error ≠ 0 then scan_bits error error_bit else (error, error_bit)).1 = 0 := by
  by_cases h0 : error = 0
  · rw [if_neg (fun h => h h0)]; exact h0
  · rw [if_pos h0, scan_bits_eq error error_bit h0 herr]

theorem except_map_ok {α β : Type} (f : α → β) (x : Except Fault α) (y : β)
    (h : x.map f = .ok y) : ∃ a, x = .ok a ∧ f a = y := by
  cases x with
  | error err => cases h
  | ok a => exact ⟨a, rfl, by simpa [Except.map] using h⟩

theorem render_pass_clears (e : ruuvi_driver_error_h) (space_remaining : Nat)
    (s s1 : RenderState) (herr : s.error < 2 ^ 32)
    (h : render_pass e space_remaining s = .ok s1) : s1.error = 0 := by
  unfold render_pass at h
  simp only at h
  split at h
  · cases h
  · rename_i s0 hsep
    have h0 : s0.error = s.error := by
      by_cases hw : s.written ≠ 0
      · rw [if_pos hw] at hsep
        obtain ⟨a, -, ha⟩ := except_map_ok _ _ _ hsep
        rw [← ha]
      · rw [if_neg hw] at hsep
        cases hsep
        rfl
    have hz := scan_bits_fst s0.error s0.error_bit (by rw [h0]; exact herr)
    split at h
    · obtain ⟨a, -, ha⟩ := except_map_ok _ _ _ h
      rw [← ha]
      exact hz
    · obtain ⟨a, -, ha⟩ := except_map_ok _ _ _ h
      rw [← ha]
      exact hz

theorem render_pass_initial_ok (e : ruuvi_driver_error_h) (error : Nat) (mem : List Char)
    (space_remaining : Nat) (hm : space_remaining ≤ mem.length)
    (hsp : space_remaining < 2 ^ 32) :
    ∃ s1, render_pass e space_remaining
      { error := error, error_bit := 0, written := 0, mem := mem } = .ok s1 := by
  unfold render_pass
  simp only [ne_eq, not_true_eq_false, if_false, size_sub_zero _ hsp]
  split
  · rename_i name _
    obtain ⟨m, hmem⟩ := snprintf_ok mem 0 space_remaining name (by omega)
    rw [hmem]
    exact ⟨_, rfl⟩
  · obtain ⟨m, hmem⟩ := snprintf_ok mem 0 space_remaining "UNKNOWN".toList (by omega)
    rw [hmem]
    exact ⟨_, rfl⟩

/-! ## Claim on the termination of `ruuvi_platform_error_to_string` -/

/-- C21 as stated fails at Status 0: on the sample header and a 64-byte buffer the pass the
loop makes starts and ends with the local `error` equal to 0, so that pass does not strictly
decrease the set of remaining bits (the call stores `SUCCESS` and returns 7). -/
theorem render_pass_zero_counterexample :
    render_pass sample_error_h 64
        { error := 0, error_bit := 0, written := 0, mem := List.replicate 64 'x' }
      = .ok { error := 0, error_bit := 0, written := 7,
              mem := stored "SUCCESS".toList (List.replicate 64 'x') }
    ∧ ¬ strictly_fewer_bits 0 0
    ∧ ruuvi_platform_error_to_string sample_error_h 0 (some (List.replicate 64 'x')) 64
      = .ok (7, some (stored "SUCCESS".toList (List.replicate 64 'x'))) := by
  refine ⟨by decide, fun h => h.2 rfl, by decide⟩

/-- C21 as amended: for every 32-bit Status and every buffer that has the announced
`space_remaining` bytes (also one too small for the text), `ruuvi_platform_error_to_string`
terminates.  Every pass of the `do ... while` loop that starts with a non-zero 32-bit local
`error` ends with a strictly smaller set of remaining bits, and a pass that starts with 0
ends with 0.  The loop runs to its exit, where the local `error` is 0, in at least one and
at most 32 passes, whatever the fuel from 32 on, and the call returns the `written` and the
buffer of the exit state.  The caller's Status is an argument of the function and is not
among its results. -/
theorem error_to_string_terminates (e : ruuvi_driver_error_h) (error : Nat)
    (mem : List Char) (space_remaining : Nat) (herr : error < 2 ^ 32)
    (hm : space_remaining ≤ mem.length) (hsp : space_remaining < 2 ^ 32) :
    (∀ s s2 : RenderState, s.error < 2 ^ 32 →
        render_pass e space_remaining s = .ok s2 →
        (s.error ≠ 0 → strictly_fewer_bits s2.error s.error)
          ∧ (s.error = 0 → s2.error = 0))
    ∧ ∃ (s : RenderState) (passes : Nat),
        (∀ fuel : Nat, 32 ≤ fuel →
          render_loop e space_remaining fuel
            { error := error, error_bit := 0, written := 0, mem := mem } = .ok (s, passes))
        ∧ 1 ≤ passes
        ∧ passes ≤ 32
        ∧ s.error = 0
        ∧ ruuvi_platform_error_to_string e error (some mem) space_remaining
            = .ok (s.written, some s.mem) := by
  obtain ⟨s1, hs1⟩ := render_pass_initial_ok e error mem space_remaining hm hsp
  have hz : s1.error = 0 := render_pass_clears e space_remaining _ s1 herr hs1
  have hloop : ∀ fuel : Nat, 32 ≤ fuel → render_loop e space_remaining fuel
      { error := error, error_bit := 0, written := 0, mem := mem } = .ok (s1, 1) := by
    intro fuel hf
    cases fuel with
    | zero => omega
    | succ k => simp only [render_loop, hs1, hz, ne_eq, not_true_eq_false, if_false]
  refine ⟨fun s s2 hs h => ?_, s1, 1, hloop, Nat.le_refl 1, by decide, hz, ?_⟩
  · have h2 := render_pass_clears e space_remaining s s2 hs h
    exact ⟨fun h0 => by rw [h2]; exact ⟨Nat.zero_and _, Ne.symm h0⟩, fun _ => h2⟩
  · unfold ruuvi_platform_error_to_string
    simp only [hloop 33 (by decide), Except.map]

set_option maxRecDepth 100000 in
/-- C21 as amended, on the sample header with Status `BUSY | NULL` and a buffer of 4 bytes,
too small for a name: the passes shrink the set of remaining bits and the call returns from
the exit state of the loop, reached in at most 32 passes. -/
theorem error_to_string_terminates_witness :
    (∀ s s2 : RenderState, s.error < 2 ^ 32 →
        render_pass sample_error_h 4 s = .ok s2 →
        (s.error ≠ 0 → strictly_fewer_bits s2.error s.error)
          ∧ (s.error = 0 → s2.error = 0))
    ∧ ∃ (s : RenderState) (passes : Nat),
        (∀ fuel : Nat, 32 ≤ fuel →
          render_loop sample_error_h 4 fuel
            { error := 0x4800, error_bit := 0, written := 0, mem := List.replicate 4 'x' }
            = .ok (s, passes))
        ∧ 1 ≤ passes
        ∧ passes ≤ 32
        ∧ s.error = 0
        ∧ ruuvi_platform_error_to_string sample_error_h 0x4800
            (some (List.replicate 4 'x')) 4 = .ok (s.written, some s.mem) :=
  error_to_string_terminates sample_error_h 0x4800 (List.replicate 4 'x') 4
    (by decide) (by decide) (by decide)

end Ruuvi
